import Mathlib

/-!
terraform-provider-awx: job launch, job poller and resource update paths.

A shallow embedding of `awx/resource_job_template_launch.go`,
`awx/resource_job_template.go`, `awx/resource_credential.go` and the three
data source files `awx/data_source_*.go`.

* Go values of type `interface{}` are the inductive `Value`.
* `*schema.ResourceData` is the record `ResourceData`; it is read through the
  schema of the resource that owns it, as the plugin SDK does.
* The AWX client `*awx.AWX` is a record of transition functions over an
  arbitrary remote state `σ`; every call is appended to the trace of the
  `World`, so that "which remote calls were issued" is a property of a run.
* A failed Go type assertion is a run-time panic: operations return `Option`,
  `none` being the panic.
-/

namespace Awx

/-! ## Go values -/

/-- The `schema.ValueType`s used by the schemas of this provider. -/
inductive ValueType where
  | TypeBool
  | TypeInt
  | TypeString
  | TypeSet
  deriving DecidableEq, Repr

/-- A Go value of static type `interface{}`. `set` is a `*schema.Set` of
integers, listed in the order of `Set.List()`; `intList` is a `[]int`. -/
inductive Value where
  | nil
  | bool (b : Bool)
  | int (n : Int)
  | string (s : String)
  | set (xs : List Int)
  | intList (xs : List Int)
  deriving DecidableEq, Repr

/-- The zero value `ValueType.Zero()` of a schema type. -/
def ValueType.Zero : ValueType → Value
  | .TypeBool => .bool false
  | .TypeInt => .int 0
  | .TypeString => .string ""
  | .TypeSet => .set []

/-- Whether a value has the Go type that the SDK stores for a schema type. -/
def Value.hasType : Value → ValueType → Bool
  | .bool _, .TypeBool => true
  | .int _, .TypeInt => true
  | .string _, .TypeString => true
  | .set _, .TypeSet => true
  | _, _ => false

/-- The type assertion `p.(string)`; `none` is the run-time panic. -/
def Value.assertString : Value → Option String
  | .string s => some s
  | _ => none

/-- The type assertion `p.(int)`. -/
def Value.assertInt : Value → Option Int
  | .int n => some n
  | _ => none

/-- The type assertion `p.(bool)`. -/
def Value.assertBool : Value → Option Bool
  | .bool b => some b
  | _ => none

/-- The type assertion `p.(*schema.Set)` followed by `.List()`. -/
def Value.assertSetList : Value → Option (List Value)
  | .set xs => some (xs.map Value.int)
  | _ => none

/-! ## Errors and diagnostics -/

/-- Go `strings.Join`. -/
def stringsJoin : List String → String → String
  | [], _ => ""
  | [a], _ => a
  | a :: b :: rest, sep => a ++ sep ++ stringsJoin (b :: rest) sep

/-- Go `strings.Contains`. -/
def stringsContains (s substr : String) : Bool :=
  s.toList.tails.any (fun t => substr.toList.isPrefixOf t)

/-- Go `strconv.Itoa`. -/
def Itoa (n : Int) : String := toString n

/-- `time.Duration.String()` for a whole number of seconds. -/
def durationString (seconds : Nat) : String :=
  let h := seconds / 3600
  let m := (seconds % 3600) / 60
  let s := seconds % 60
  if h > 0 then toString h ++ "h" ++ toString m ++ "m" ++ toString s ++ "s"
  else if m > 0 then toString m ++ "m" ++ toString s ++ "s"
  else toString s ++ "s"

/-- A Go `error` value: `errorString` is what `fmt.Errorf` builds and what the
AWX client returns; the other three are the typed errors of the SDK package
`helper/resource`, always built there with a nil `LastError`. -/
inductive GoError where
  | errorString (s : String)
  | TimeoutError (lastState : String) (timeout : Nat) (expectedState : List String)
  | UnexpectedStateError (state : String) (expectedState : List String)
  | NotFoundError (retries : Nat)
  deriving DecidableEq, Repr

/-- The method `Error()` of a Go error. -/
def GoError.Error : GoError → String
  | .errorString s => s
  | .TimeoutError lastState timeout expectedState =>
      let expected :=
        if expectedState.length > 0 then
          "state to become \'" ++ stringsJoin expectedState ", " ++ "\'"
        else "resource to be gone"
      let extraInfo :=
        (if lastState ≠ "" then ["last state: \'" ++ lastState ++ "\'"] else []) ++
        (if timeout > 0 then ["timeout: " ++ durationString timeout] else [])
      let suffix :=
        if extraInfo.length > 0 then " (" ++ stringsJoin extraInfo ", " ++ ")" else ""
      "timeout while waiting for " ++ expected ++ suffix
  | .UnexpectedStateError state expectedState =>
      "unexpected state \'" ++ state ++ "\', wanted target \'" ++
        stringsJoin expectedState ", " ++ "\'. last error: %!s(<nil>)"
  | .NotFoundError retries =>
      if retries > 0 then "couldn\'t find resource (" ++ toString retries ++ " retries)"
      else "couldn\'t find resource"

/-- The severity `diag.Severity`. -/
inductive Severity where
  | Error
  | Warning
  deriving DecidableEq, Repr

/-- One `diag.Diagnostic`. -/
structure Diagnostic where
  Severity : Severity
  Summary : String
  Detail : String
  deriving DecidableEq, Repr

/-- The list `diag.Diagnostics`. -/
abbrev Diagnostics := List Diagnostic

/-- The method `Diagnostics.HasError`. -/
def Diagnostics.HasError (diags : Diagnostics) : Bool :=
  diags.any (fun x => x.Severity == Severity.Error)

/-! ## Resource data -/

/-- A `map[string]*schema.Schema`, reduced to the attribute names and their
types. -/
abbrev Schema := List (String × ValueType)

/-- A Go `map[string]interface{}`, as an association list with at most one
entry per key. -/
abbrev Params := List (String × Value)

/-- The assignment `params[key] = v` of a Go map. -/
def Params.set : Params → String → Value → Params
  | [], key, v => [(key, v)]
  | (k, x) :: rest, key, v =>
    if k = key then (key, v) :: rest else (k, x) :: Params.set rest key v

/-- The read `params[key]` of a Go map, `none` for an absent key. -/
def Params.get (params : Params) (key : String) : Option Value :=
  match params with
  | [] => none
  | (k, x) :: rest => if k = key then some x else Params.get rest key

/-- The state of a `*schema.ResourceData`: the identifier `d.Id()`, the
attribute values of the prior state, and the current values (configuration
merged with the planned diff and with the writes of `d.Set`). -/
structure ResourceData where
  id : String
  state : List (String × Value)
  values : List (String × Value)
  deriving DecidableEq, Repr

/-- The SDK's field read: the stored value of a schema attribute, when one is
stored with the attribute's type. -/
def readField (s : Schema) (m : List (String × Value)) (key : String) : Option Value :=
  match s.lookup key with
  | none => none
  | some ty =>
    match m.lookup key with
    | some v => if v.hasType ty then some v else none
    | none => none

/-- The SDK's read with zero-value defaulting: `nil` for a key that the schema
does not declare, the zero value of the type for a declared key without a
stored value. -/
def readOrZero (s : Schema) (m : List (String × Value)) (key : String) : Value :=
  match s.lookup key with
  | none => Value.nil
  | some ty => (readField s m key).getD ty.Zero

/-- The method `d.Id()`. -/
def ResourceData.Id (d : ResourceData) : String := d.id

/-- The method `d.SetId(v)`. -/
def ResourceData.SetId (d : ResourceData) (v : String) : ResourceData :=
  { d with id := v }

/-- The method `d.Get(key)`. -/
def ResourceData.Get (s : Schema) (d : ResourceData) (key : String) : Value :=
  readOrZero s d.values key

/-- The method `d.GetOk(key)`: the value, and whether it is stored and differs
from the zero value of its type. -/
def ResourceData.GetOk (s : Schema) (d : ResourceData) (key : String) : Value × Bool :=
  match s.lookup key with
  | none => (Value.nil, false)
  | some ty =>
    match readField s d.values key with
    | some v => (v, v != ty.Zero)
    | none => (ty.Zero, false)

/-- The method `d.HasChange(key)`: the prior and the current value differ. -/
def ResourceData.HasChange (s : Schema) (d : ResourceData) (key : String) : Bool :=
  readOrZero s d.state key != readOrZero s d.values key

/-- The method `d.HasChanges(keys...)`. -/
def ResourceData.HasChanges (s : Schema) (d : ResourceData) (keys : List String) : Bool :=
  keys.any (fun key => d.HasChange s key)

/-- The method `d.Set(key, value)`, its error result dropped as every caller in
this provider drops it: a key outside the schema or a value of another type
is not stored, `nil` removes the stored value. -/
def ResourceData.Set (s : Schema) (d : ResourceData) (key : String) (v : Value) :
    ResourceData :=
  match s.lookup key with
  | none => d
  | some ty =>
    if v = Value.nil then { d with values := d.values.filter (fun e => e.1 != key) }
    else if v.hasType ty then
      { d with values := (key, v) :: d.values.filter (fun e => e.1 != key) }
    else d

/-! ## The AWX client -/

/-- The record `awx.Job`, with the fields this provider reads and the failure
explanation the remote attaches to a job. -/
structure Job where
  ID : Int
  Name : String
  Description : String
  Status : String
  Failed : Bool
  JobExplanation : String
  deriving DecidableEq, Repr

/-- The record `awx.JobLaunch` returned by `Launch`. -/
structure JobLaunch where
  ID : Int
  deriving DecidableEq, Repr

/-- The record `awx.Credential`. -/
structure Credential where
  ID : Int
  Name : String
  Description : String
  OrganizationID : Int
  Kind : String := ""
  Inputs : List (String × Value) := []
  deriving DecidableEq, Repr

/-- The record `awx.CredentialType`, with the fields the data source stores. -/
structure CredentialType where
  ID : Int
  Name : Value
  Description : Value
  Kind : Value
  Inputs : Value
  Injectors : Value
  deriving DecidableEq, Repr

/-- The record `awx.ExecutionEnvironment`, with the fields the data source
stores. -/
structure ExecutionEnvironment where
  ID : Int
  Name : Value
  Description : Value
  Organization : Value
  Image : Value
  Managed : Value
  Credential : Value
  Pull : Value
  deriving DecidableEq, Repr

/-- The job status tokens `awx.JobStatus...` of the client library. -/
def JobStatusNew : String := "new"
/-- Token of a pending job. -/
def JobStatusPending : String := "pending"
/-- Token of a waiting job. -/
def JobStatusWaiting : String := "waiting"
/-- Token of a running job. -/
def JobStatusRunning : String := "running"
/-- Token of a successful job. -/
def JobStatusSuccessful : String := "successful"
/-- Token of a canceled job. -/
def JobStatusCanceled : String := "canceled"
/-- Token of a job that ended in error. -/
def JobStatusError : String := "error"
/-- Token of a failed job. -/
def JobStatusFailed : String := "failed"

/-- The record `awx.JobTemplate`; the declaration of the Go struct is part of the
client library, so each field that `setJobTemplateResourceData` reads is kept
as a dynamically typed value. -/
structure JobTemplate where
  ID : Int
  Name : Value
  Description : Value
  JobType : Value
  Inventory : Value
  Project : Value
  Playbook : Value
  SCMBranch : Value
  Forks : Value
  Limit : Value
  Verbosity : Value
  ExtraVars : Value
  JobTags : Value
  ForceHandlers : Value
  SkipTags : Value
  StartAtTask : Value
  Timeout : Value
  UseFactCache : Value
  Organization : Value
  ExecutionEnvironment : Value
  HostConfigKey : Value
  AskSCMBranchOnLaunch : Value
  AskDiffModeOnLaunch : Value
  AskVariablesOnLaunch : Value
  AskLimitOnLaunch : Value
  AskTagsOnLaunch : Value
  AskSkipTagsOnLaunch : Value
  AskJobTypeOnLaunch : Value
  AskVerbosityOnLaunch : Value
  AskInventoryOnLaunch : Value
  AskCredentialOnLaunch : Value
  AskExecutionEnvironmentOnLaunch : Value
  AskLabelsOnLaunch : Value
  AskForksOnLaunch : Value
  AskJobSliceCountOnLaunch : Value
  AskTimeoutOnLaunch : Value
  AskInstanceGroupsOnLaunch : Value
  SurveyEnabled : Value
  BecomeEnabled : Value
  DiffMode : Value
  AllowSimultaneous : Value
  CustomVirtualenv : Value
  JobSliceCount : Value
  WebHookService : Value
  WebHookCredential : Value
  PreventInstanceGroupFallback : Value
  Credential : Value
  deriving DecidableEq, Repr

/-- One observable step of a run: a call of the AWX client, or a `time.Sleep`
or SDK delay of the given number of seconds. -/
inductive Event where
  | Sleep (seconds : Nat)
  | GetJobTemplateByID (id : Int)
  | UpdateJobTemplate (id : Int) (payload : Params)
  | Launch (id : Int) (payload : Params)
  | GetJob (id : Int)
  | UpdateCredentialsByID (id : Int) (payload : Params)
  | CreateJobTemplate (payload : Params)
  | CreateCredentials (payload : Params)
  | GetCredentialsByID (id : Int)
  | ListCredentials (query : List (String × String))
  | ListCredentialTypes (query : List (String × String))
  | ListExecutionEnvironments (query : List (String × String))
  deriving DecidableEq, Repr

/-- The client `*awx.AWX`: each service method is a transition of the remote
state `σ` that returns either a record or an error. -/
structure AWX (σ : Type) where
  GetJobTemplateByID : Int → σ → Except GoError JobTemplate × σ
  UpdateJobTemplate : Int → Params → σ → Except GoError JobTemplate × σ
  Launch : Int → Params → σ → Except GoError JobLaunch × σ
  GetJob : Int → σ → Except GoError Job × σ
  UpdateCredentialsByID : Int → Params → σ → Except GoError Credential × σ
  CreateJobTemplate : Params → σ → Except GoError JobTemplate × σ
  CreateCredentials : Params → σ → Except GoError Credential × σ
  GetCredentialsByID : Int → σ → Except GoError Credential × σ
  ListCredentials : List (String × String) → σ → Except GoError (List Credential) × σ
  ListCredentialTypes :
    List (String × String) → σ → Except GoError (List CredentialType) × σ
  ListExecutionEnvironments :
    List (String × String) → σ → Except GoError (List ExecutionEnvironment) × σ

/-- The remote state together with the trace of the steps taken so far. -/
structure World (σ : Type) where
  remote : σ
  trace : List Event

/-- Record one step and the new remote state. -/
def World.step {σ : Type} (w : World σ) (e : Event) (remote : σ) : World σ :=
  { remote := remote, trace := w.trace ++ [e] }

/-- The call `time.Sleep(seconds * time.Second)`. -/
def World.Sleep {σ : Type} (w : World σ) (seconds : Nat) : World σ :=
  w.step (Event.Sleep seconds) w.remote

/-- The call `client.JobTemplateService.GetJobTemplateByID(id, ...)`. -/
def AWX.callGetJobTemplateByID {σ : Type} (client : AWX σ) (id : Int) (w : World σ) :
    Except GoError JobTemplate × World σ :=
  ((client.GetJobTemplateByID id w.remote).1,
    w.step (Event.GetJobTemplateByID id) (client.GetJobTemplateByID id w.remote).2)

/-- The call `client.JobTemplateService.UpdateJobTemplate(id, params, ...)`. -/
def AWX.callUpdateJobTemplate {σ : Type} (client : AWX σ) (id : Int) (params : Params)
    (w : World σ) : Except GoError JobTemplate × World σ :=
  ((client.UpdateJobTemplate id params w.remote).1,
    w.step (Event.UpdateJobTemplate id params) (client.UpdateJobTemplate id params w.remote).2)

/-- The call `client.JobTemplateService.Launch(id, params, ...)`. -/
def AWX.callLaunch {σ : Type} (client : AWX σ) (id : Int) (params : Params)
    (w : World σ) : Except GoError JobLaunch × World σ :=
  ((client.Launch id params w.remote).1,
    w.step (Event.Launch id params) (client.Launch id params w.remote).2)

/-- The call `client.JobService.GetJob(id, ...)`. -/
def AWX.callGetJob {σ : Type} (client : AWX σ) (id : Int) (w : World σ) :
    Except GoError Job × World σ :=
  ((client.GetJob id w.remote).1, w.step (Event.GetJob id) (client.GetJob id w.remote).2)

/-- The call `client.CredentialsService.UpdateCredentialsByID(id, payload, ...)`. -/
def AWX.callUpdateCredentialsByID {σ : Type} (client : AWX σ) (id : Int) (payload : Params)
    (w : World σ) : Except GoError Credential × World σ :=
  ((client.UpdateCredentialsByID id payload w.remote).1,
    w.step (Event.UpdateCredentialsByID id payload)
      (client.UpdateCredentialsByID id payload w.remote).2)

/-- The call `client.JobTemplateService.CreateJobTemplate(params, ...)`. -/
def AWX.callCreateJobTemplate {σ : Type} (client : AWX σ) (params : Params) (w : World σ) :
    Except GoError JobTemplate × World σ :=
  ((client.CreateJobTemplate params w.remote).1,
    w.step (Event.CreateJobTemplate params) (client.CreateJobTemplate params w.remote).2)

/-- The call `client.CredentialsService.CreateCredentials(payload, ...)`. -/
def AWX.callCreateCredentials {σ : Type} (client : AWX σ) (payload : Params) (w : World σ) :
    Except GoError Credential × World σ :=
  ((client.CreateCredentials payload w.remote).1,
    w.step (Event.CreateCredentials payload) (client.CreateCredentials payload w.remote).2)

/-- The call `client.CredentialsService.GetCredentialsByID(id, ...)`. -/
def AWX.callGetCredentialsByID {σ : Type} (client : AWX σ) (id : Int) (w : World σ) :
    Except GoError Credential × World σ :=
  ((client.GetCredentialsByID id w.remote).1,
    w.step (Event.GetCredentialsByID id) (client.GetCredentialsByID id w.remote).2)

/-- The call `client.CredentialsService.ListCredentials(params)`. -/
def AWX.callListCredentials {σ : Type} (client : AWX σ) (query : List (String × String))
    (w : World σ) : Except GoError (List Credential) × World σ :=
  ((client.ListCredentials query w.remote).1,
    w.step (Event.ListCredentials query) (client.ListCredentials query w.remote).2)

/-- The call `client.CredentialTypeService.ListCredentialTypes(params)`. -/
def AWX.callListCredentialTypes {σ : Type} (client : AWX σ) (query : List (String × String))
    (w : World σ) : Except GoError (List CredentialType) × World σ :=
  ((client.ListCredentialTypes query w.remote).1,
    w.step (Event.ListCredentialTypes query) (client.ListCredentialTypes query w.remote).2)

/-- The call `client.ExecutionEnvironmentService.ListExecutionEnvironments(params)`. -/
def AWX.callListExecutionEnvironments {σ : Type} (client : AWX σ)
    (query : List (String × String)) (w : World σ) :
    Except GoError (List ExecutionEnvironment) × World σ :=
  ((client.ListExecutionEnvironments query w.remote).1,
    w.step (Event.ListExecutionEnvironments query)
      (client.ListExecutionEnvironments query w.remote).2)

/-- The helpers of this provider that live outside the files embedded here
(its utility file): they are parameters of the embedding. -/
structure Utils where
  buildDiagNotFoundFail : String → Int → GoError → Diagnostics
  convertStateIDToNummeric : String → ResourceData → Int × Diagnostics
  AtoipOr : String → Option Int → Option Int
  normalizeJsonYaml : Value → String
  expandIntList : List Value → List Int

/-- A Go `*int` stored in an `interface{}`. -/
def Value.ofIntPtr : Option Int → Value
  | some n => Value.int n
  | none => Value.nil

/-! ## strconv.Atoi -/

/-- The value of a string of decimal digits, `none` when a character is not a
decimal digit. -/
def parseDigits : List Char → Nat → Option Nat
  | [], acc => some acc
  | c :: cs, acc =>
    if c.toNat ≥ 48 ∧ c.toNat ≤ 57 then parseDigits cs (acc * 10 + (c.toNat - 48)) else none

/-- The magnitude that `strconv.Atoi` parses after the optional sign: at least
one decimal digit. -/
def parseMagnitude (cs : List Char) : Option Nat :=
  if cs.isEmpty then none else parseDigits cs 0

/-- Go `strconv.Atoi` for the 64-bit `int`: an optional sign and decimal digits;
a syntax error yields 0, a range error the nearest bound. -/
def Atoi (s : String) : Int × Option GoError :=
  let syntaxErr := GoError.errorString
    ("strconv.Atoi: parsing \"" ++ s ++ "\": invalid syntax")
  let rangeErr := GoError.errorString
    ("strconv.Atoi: parsing \"" ++ s ++ "\": value out of range")
  match s.toList with
  | [] => (0, some syntaxErr)
  | c :: cs =>
    if c = '-' then
      match parseMagnitude cs with
      | none => (0, some syntaxErr)
      | some n => if n > 2 ^ 63 then (-(2 ^ 63 : Int), some rangeErr) else (-(n : Int), none)
    else
      match parseMagnitude (if c = '+' then cs else c :: cs) with
      | none => (0, some syntaxErr)
      | some n => if n ≥ 2 ^ 63 then ((2 ^ 63 : Int) - 1, some rangeErr) else ((n : Int), none)

/-! ## Building a payload -/

/-- The conversions that the provider applies to an attribute value before it
enters a payload: `p.(string)`, `p.(int)`, `p.(bool)`,
`expandIntList(p.(*schema.Set).List())` and `AtoipOr(p.(string), nil)`. -/
inductive Cast where
  | string
  | int
  | bool
  | expandIntList
  | AtoipOr
  deriving DecidableEq, Repr

/-- The value a conversion yields; `none` is the panic of its type assertion. -/
def Cast.apply (u : Utils) : Cast → Value → Option Value
  | .string, p => p.assertString.map Value.string
  | .int, p => p.assertInt.map Value.int
  | .bool, p => p.assertBool.map Value.bool
  | .expandIntList, p => p.assertSetList.map (fun l => Value.intList (u.expandIntList l))
  | .AtoipOr, p => p.assertString.map (fun str => Value.ofIntPtr (u.AtoipOr str none))

/-- The schema type whose values pass the type assertion of a conversion. -/
def Cast.accepts : Cast → ValueType → Bool
  | .string, .TypeString => true
  | .int, .TypeInt => true
  | .bool, .TypeBool => true
  | .expandIntList, .TypeSet => true
  | .AtoipOr, .TypeString => true
  | _, _ => false

/-- The statement `if p, ok := d.GetOk(attr); ok { params[key] = conv(p) }`. -/
def setIfOk (u : Utils) (s : Schema) (d : ResourceData) (attr key : String)
    (conv : Cast) (params : Params) : Option Params :=
  if (d.GetOk s attr).2 then
    (conv.apply u (d.GetOk s attr).1).map (fun v => params.set key v)
  else some params

/-- A run of statements `if p, ok := d.GetOk(attr); ok { params[key] = conv(p) }`,
one per row `(attr, key, conv)`, executed in order. -/
def setAllIfOk (u : Utils) (s : Schema) (d : ResourceData) :
    List (String × String × Cast) → Params → Option Params
  | [], params => some params
  | (attr, key, conv) :: rest, params =>
    (setIfOk u s d attr key conv params).bind (setAllIfOk u s d rest)

/-! ## awx/resource_job_template_launch.go -/

/-- The schema of `resourceJobTemplateLaunch`. -/
def resourceJobTemplateLaunchSchema : Schema :=
  [("job_template_id", ValueType.TypeInt),
   ("monitor_for_completion", ValueType.TypeBool),
   ("job_type", ValueType.TypeString),
   ("playbook", ValueType.TypeString),
   ("forks", ValueType.TypeInt),
   ("limit", ValueType.TypeString),
   ("verbosity", ValueType.TypeInt),
   ("extra_vars", ValueType.TypeString),
   ("job_tags", ValueType.TypeString),
   ("skip_tags", ValueType.TypeString),
   ("timeout", ValueType.TypeInt),
   ("scm_revision", ValueType.TypeString),
   ("diff_mode", ValueType.TypeBool),
   ("credential_ids", ValueType.TypeSet),
   ("execution_environment_id", ValueType.TypeInt)]

/-- The statements `if p, ok := d.GetOk(attr); ok { params[key] = conv(p) }` of
`resourceJobTemplateLaunchCreate`, in source order, as rows `(attr, key, conv)`. -/
def launchOverrides : List (String × String × Cast) :=
  [("job_type", "job_type", Cast.string),
   ("playbook", "playbook", Cast.string),
   ("forks", "forks", Cast.int),
   ("limit", "limit", Cast.string),
   ("verbosity", "verbosity", Cast.int),
   ("extra_vars", "extra_vars", Cast.string),
   ("job_tags", "job_tags", Cast.string),
   ("skip_tags", "skip_tags", Cast.string),
   ("timeout", "timeout", Cast.int),
   ("scm_revision", "scm_revision", Cast.string),
   ("diff_mode", "diff_mode", Cast.bool),
   ("credential_ids", "credentials", Cast.expandIntList),
   ("execution_environment_id", "execution_environment", Cast.int)]

/-- The map `params` that `resourceJobTemplateLaunchCreate` builds and passes to
`Launch`. -/
def launchParams (u : Utils) (d : ResourceData) : Option Params :=
  setAllIfOk u resourceJobTemplateLaunchSchema d launchOverrides []

/-- The function `setJobResourceData`. -/
def setJobResourceData (d : ResourceData) (r : Job) : ResourceData :=
  let d := d.Set resourceJobTemplateLaunchSchema "name" (Value.string r.Name)
  let d := d.Set resourceJobTemplateLaunchSchema "description" (Value.string r.Description)
  let d := d.Set resourceJobTemplateLaunchSchema "status" (Value.string r.Status)
  let d := d.Set resourceJobTemplateLaunchSchema "failed" (Value.bool r.Failed)
  d.SetId (Itoa r.ID)

/-- The function `resourceJobRead`. -/
def resourceJobRead {σ : Type} (u : Utils) (client : AWX σ) (d : ResourceData)
    (w : World σ) : Diagnostics × ResourceData × World σ :=
  let jobID := (u.convertStateIDToNummeric "Read Job" d).1
  let diags := (u.convertStateIDToNummeric "Read Job" d).2
  let r := client.callGetJob jobID w
  match r.1 with
  | .error _ =>
    let r2 := client.callGetJob jobID (r.2.Sleep 3)
    match r2.1 with
    | .error retryErr =>
      if stringsContains retryErr.Error "404 Not Found" then (diags, d.SetId "", r2.2)
      else (u.buildDiagNotFoundFail "job" jobID retryErr, d, r2.2)
    | .ok retryJob => (diags, setJobResourceData d retryJob, r2.2)
  | .ok job => (diags, setJobResourceData d job, r.2)

/-- The result `(interface{}, string, error)` of a `resource.StateRefreshFunc`. -/
structure RefreshResult where
  result : Option Job
  state : String
  err : Option GoError
  deriving DecidableEq, Repr

/-- The tail of the closure of `isJobRefreshFunc`, after a job was read: the
classification of `job.Status`. -/
def jobStatusOutcome (job : Job) : RefreshResult :=
  if job.Status = JobStatusSuccessful then
    { result := some job, state := job.Status, err := none }
  else if job.Status = JobStatusError then
    { result := some job, state := job.Status, err := some (GoError.errorString "error") }
  else if job.Status = JobStatusFailed then
    { result := some job, state := job.Status, err := some (GoError.errorString "failed") }
  else if job.Status = JobStatusCanceled then
    { result := some job, state := job.Status, err := some (GoError.errorString "canceled") }
  else { result := some job, state := job.Status, err := none }

/-- The closure returned by `isJobRefreshFunc(client, id)`. -/
def isJobRefreshFunc {σ : Type} (client : AWX σ) (id : String) (w : World σ) :
    RefreshResult × World σ :=
  let jobID := (Atoi id).1
  let r := client.callGetJob jobID w
  match r.1 with
  | .error _ =>
    let r2 := client.callGetJob jobID (r.2.Sleep 5)
    match r2.1 with
    | .error retryErr => ({ result := none, state := "", err := some retryErr }, r2.2)
    | .ok retryJob => (jobStatusOutcome retryJob, r2.2)
  | .ok job => (jobStatusOutcome job, r.2)

/-- The record `resource.StateChangeConf`; the durations are in seconds. -/
structure StateChangeConf (σ : Type) where
  Pending : List String
  Target : List String
  Refresh : World σ → RefreshResult × World σ
  Delay : Nat
  MinTimeout : Nat
  Timeout : Nat

/-- The refresh loop of the SDK's `WaitForStateContext`, run sequentially:
`fuel` is the number of refreshes that start before `conf.Timeout` elapses,
`notfoundTick` the SDK's counter of consecutive empty results (at most 20 are
tolerated) and `lastState` the state of the last refresh. The timed pauses
between two refreshes are not recorded. -/
def waitLoop {σ : Type} (conf : StateChangeConf σ) :
    Nat → Nat → String → World σ → (Option Job × Option GoError) × World σ
  | 0, _, lastState, w =>
    ((none, some (GoError.TimeoutError lastState conf.Timeout conf.Target)), w)
  | fuel + 1, notfoundTick, _, w =>
    let r := conf.Refresh w
    match r.1.err with
    | some err => ((r.1.result, some err), r.2)
    | none =>
      match r.1.result with
      | none =>
        if notfoundTick + 1 > 20 then
          ((none, some (GoError.NotFoundError (notfoundTick + 1))), r.2)
        else waitLoop conf fuel (notfoundTick + 1) r.1.state r.2
      | some job =>
        if conf.Target.contains r.1.state then ((some job, none), r.2)
        else if conf.Pending.contains r.1.state then waitLoop conf fuel 0 r.1.state r.2
        else if conf.Pending.length > 0 then
          ((some job, some (GoError.UnexpectedStateError r.1.state conf.Target)), r.2)
        else waitLoop conf fuel 0 r.1.state r.2

/-- The SDK's `conf.WaitForStateContext(ctx)` for a context that is not
canceled: the initial `conf.Delay`, then the refresh loop. -/
def StateChangeConf.WaitForStateContext {σ : Type} (conf : StateChangeConf σ) (fuel : Nat)
    (w : World σ) : (Option Job × Option GoError) × World σ :=
  waitLoop conf fuel 0 "" (w.Sleep conf.Delay)

/-- The `resource.StateChangeConf` that `isWaitForJobComplete` builds. -/
def jobStateConf {σ : Type} (client : AWX σ) (id : String) : StateChangeConf σ :=
  { Pending := [JobStatusNew, JobStatusPending, JobStatusWaiting, JobStatusRunning]
    Target := [JobStatusSuccessful, JobStatusCanceled, JobStatusError, JobStatusFailed]
    Refresh := isJobRefreshFunc client id
    Delay := 30
    MinTimeout := 10
    Timeout := 120 * 60 }

/-- The function `isWaitForJobComplete`. -/
def isWaitForJobComplete {σ : Type} (client : AWX σ) (id : String) (fuel : Nat)
    (w : World σ) : (Option Job × Option GoError) × World σ :=
  (jobStateConf client id).WaitForStateContext fuel w

/-- The function `resourceJobTemplateLaunchCreate`. -/
def resourceJobTemplateLaunchCreate {σ : Type} (u : Utils) (client : AWX σ) (fuel : Nat)
    (d : ResourceData) (w : World σ) : Option (Diagnostics × ResourceData × World σ) := do
  let diags : Diagnostics := []
  let jobTemplateID ← (d.Get resourceJobTemplateLaunchSchema "job_template_id").assertInt
  let r := client.callGetJobTemplateByID jobTemplateID w
  match r.1 with
  | .error err => some (u.buildDiagNotFoundFail "job template" jobTemplateID err, d, r.2)
  | .ok _ =>
    let params ← launchParams u d
    let r2 := client.callLaunch jobTemplateID params r.2
    match r2.1 with
    | .error err =>
      let name ← (d.Get resourceJobTemplateLaunchSchema "name").assertString
      let projectID ← (d.Get resourceJobTemplateLaunchSchema "project_id").assertInt
      some (diags ++ [{
        Severity := Severity.Error
        Summary := "Failed to launch job from job template"
        Detail := "JobTemplate with name " ++ name ++ " in the project id " ++
          Itoa projectID ++ ", failed to create " ++ err.Error }], d, r2.2)
    | .ok res =>
      let jobID := Itoa res.ID
      let d := d.SetId jobID
      let monitor ← (d.Get resourceJobTemplateLaunchSchema "monitor_for_completion").assertBool
      if monitor then
        let r3 := isWaitForJobComplete client jobID fuel r2.2
        match r3.1.2 with
        | some err =>
          some (diags ++ [{
            Severity := Severity.Error
            Summary := "Job " ++ err.Error
            Detail := "Job " ++ jobID ++ " status: " ++ err.Error }], d, r3.2)
        | none => some (resourceJobRead u client d r3.2)
      else some (resourceJobRead u client d r2.2)

/-! ## awx/resource_job_template.go -/

/-- The schema of `resourceJobTemplate`. -/
def resourceJobTemplateSchema : Schema :=
  [("name", ValueType.TypeString),
   ("description", ValueType.TypeString),
   ("job_type", ValueType.TypeString),
   ("inventory_id", ValueType.TypeString),
   ("project_id", ValueType.TypeInt),
   ("playbook", ValueType.TypeString),
   ("scm_branch", ValueType.TypeString),
   ("forks", ValueType.TypeInt),
   ("limit", ValueType.TypeString),
   ("verbosity", ValueType.TypeInt),
   ("extra_vars", ValueType.TypeString),
   ("job_tags", ValueType.TypeString),
   ("force_handlers", ValueType.TypeBool),
   ("skip_tags", ValueType.TypeString),
   ("start_at_task", ValueType.TypeString),
   ("timeout", ValueType.TypeInt),
   ("use_fact_cache", ValueType.TypeBool),
   ("organization_id", ValueType.TypeInt),
   ("execution_environment_id", ValueType.TypeInt),
   ("host_config_key", ValueType.TypeString),
   ("ask_scm_branch_on_launch", ValueType.TypeBool),
   ("ask_diff_mode_on_launch", ValueType.TypeBool),
   ("ask_variables_on_launch", ValueType.TypeBool),
   ("ask_limit_on_launch", ValueType.TypeBool),
   ("ask_tags_on_launch", ValueType.TypeBool),
   ("ask_skip_tags_on_launch", ValueType.TypeBool),
   ("ask_job_type_on_launch", ValueType.TypeBool),
   ("ask_verbosity_on_launch", ValueType.TypeBool),
   ("ask_inventory_on_launch", ValueType.TypeBool),
   ("ask_credential_on_launch", ValueType.TypeBool),
   ("ask_execution_environment_on_launch", ValueType.TypeBool),
   ("ask_labels_on_launch", ValueType.TypeBool),
   ("ask_forks_on_launch", ValueType.TypeBool),
   ("ask_job_slice_count_on_launch", ValueType.TypeBool),
   ("ask_timeout_on_launch", ValueType.TypeBool),
   ("ask_instance_groups_on_launch", ValueType.TypeBool),
   ("survey_enabled", ValueType.TypeBool),
   ("become_enabled", ValueType.TypeBool),
   ("diff_mode", ValueType.TypeBool),
   ("allow_simultaneous", ValueType.TypeBool),
   ("custom_virtualenv", ValueType.TypeString),
   ("job_slice_count", ValueType.TypeInt),
   ("webhook_service", ValueType.TypeString),
   ("webhook_credential_id", ValueType.TypeInt),
   ("prevent_instance_group_fallback", ValueType.TypeBool),
   ("credential_id", ValueType.TypeInt)]

/-- The statements `if p, ok := d.GetOk(attr); ok { params[key] = conv(p) }` of
`resourceJobTemplateUpdate`, in source order, as rows `(attr, key, conv)`. -/
def jobTemplateUpdateOptional : List (String × String × Cast) :=
  [("description", "description", Cast.string),
   ("scm_branch", "scm_branch", Cast.string),
   ("forks", "forks", Cast.int),
   ("limit", "limit", Cast.string),
   ("verbosity", "verbosity", Cast.int),
   ("extra_vars", "extra_vars", Cast.string),
   ("job_tags", "job_tags", Cast.string),
   ("force_handlers", "force_handlers", Cast.bool),
   ("skip_tags", "skip_tags", Cast.string),
   ("start_at_task", "start_at_task", Cast.string),
   ("timeout", "timeout", Cast.int),
   ("use_fact_cache", "use_fact_cache", Cast.bool),
   ("organization_id", "organization_id", Cast.int),
   ("execution_environment_id", "execution_environment_id", Cast.int),
   ("host_config_key", "host_config_key", Cast.string),
   ("ask_scm_branch_on_launch", "ask_scm_branch_on_launch", Cast.bool),
   ("ask_diff_mode_on_launch", "ask_diff_mode_on_launch", Cast.bool),
   ("ask_variables_on_launch", "ask_variables_on_launch", Cast.bool),
   ("ask_limit_on_launch", "ask_limit_on_launch", Cast.bool),
   ("ask_tags_on_launch", "ask_tags_on_launch", Cast.bool),
   ("ask_skip_tags_on_launch", "ask_skip_tags_on_launch", Cast.bool),
   ("ask_job_type_on_launch", "ask_job_type_on_launch", Cast.bool),
   ("ask_verbosity_on_launch", "ask_verbosity_on_launch", Cast.bool),
   ("ask_inventory_on_launch", "ask_inventory_on_launch", Cast.bool),
   ("ask_credential_on_launch", "ask_credential_on_launch", Cast.bool),
   ("ask_execution_environment_on_launch", "ask_execution_environment_on_launch", Cast.bool),
   ("ask_labels_on_launch", "ask_labels_on_launch", Cast.bool),
   ("ask_forks_on_launch", "ask_forks_on_launch", Cast.bool),
   ("ask_job_slice_on_launch", "ask_job_slice_on_launch", Cast.bool),
   ("ask_timeout_on_launch", "ask_timeout_on_launch", Cast.bool),
   ("ask_instance_groups_on_launch", "ask_instance_groups_on_launch", Cast.bool),
   ("survey_enabled", "survey_enabled", Cast.bool),
   ("become_enabled", "become_enabled", Cast.bool),
   ("diff_mode", "diff_mode", Cast.bool),
   ("allow_simultaneous", "allow_simultaneous", Cast.bool),
   ("job_slice_count", "job_slice_count", Cast.int),
   ("webhook_service", "webhook_service", Cast.string),
   ("prevent_instance_group_fallback", "prevent_instance_group_fallback", Cast.bool),
   ("custom_virtualenv", "custom_virtualenv", Cast.AtoipOr),
   ("credential_id", "credential_id", Cast.int),
   ("webhook_credential_id", "webhook_credential", Cast.int)]

/-- The map `params` that `resourceJobTemplateUpdate` builds and passes to
`UpdateJobTemplate`. -/
def jobTemplateUpdateParams (u : Utils) (d : ResourceData) : Option Params := do
  let name ← (d.Get resourceJobTemplateSchema "name").assertString
  let jobType ← (d.Get resourceJobTemplateSchema "job_type").assertString
  let inventoryID ← (d.Get resourceJobTemplateSchema "inventory_id").assertString
  let projectID ← (d.Get resourceJobTemplateSchema "project_id").assertInt
  let playbook ← (d.Get resourceJobTemplateSchema "playbook").assertString
  let params : Params :=
    [("name", Value.string name),
     ("job_type", Value.string jobType),
     ("inventory", Value.ofIntPtr (u.AtoipOr inventoryID none)),
     ("project", Value.int projectID),
     ("playbook", Value.string playbook)]
  setAllIfOk u resourceJobTemplateSchema d jobTemplateUpdateOptional params

/-- The function `setJobTemplateResourceData`. -/
def setJobTemplateResourceData (u : Utils) (d : ResourceData) (r : JobTemplate) :
    ResourceData :=
  let d := d.Set resourceJobTemplateSchema "name" r.Name
  let d := d.Set resourceJobTemplateSchema "description" r.Description
  let d := d.Set resourceJobTemplateSchema "job_type" r.JobType
  let d := d.Set resourceJobTemplateSchema "inventory_id" r.Inventory
  let d := d.Set resourceJobTemplateSchema "project_id" r.Project
  let d := d.Set resourceJobTemplateSchema "playbook" r.Playbook
  let d := d.Set resourceJobTemplateSchema "scm_branch" r.SCMBranch
  let d := d.Set resourceJobTemplateSchema "forks" r.Forks
  let d := d.Set resourceJobTemplateSchema "limit" r.Limit
  let d := d.Set resourceJobTemplateSchema "verbosity" r.Verbosity
  let d := d.Set resourceJobTemplateSchema "extra_vars" (Value.string (u.normalizeJsonYaml r.ExtraVars))
  let d := d.Set resourceJobTemplateSchema "job_tags" r.JobTags
  let d := d.Set resourceJobTemplateSchema "force_handlers" r.ForceHandlers
  let d := d.Set resourceJobTemplateSchema "skip_tags" r.SkipTags
  let d := d.Set resourceJobTemplateSchema "start_at_task" r.StartAtTask
  let d := d.Set resourceJobTemplateSchema "timeout" r.Timeout
  let d := d.Set resourceJobTemplateSchema "use_fact_cache" r.UseFactCache
  let d := d.Set resourceJobTemplateSchema "organization_id" r.Organization
  let d := d.Set resourceJobTemplateSchema "execution_environment_id" r.ExecutionEnvironment
  let d := d.Set resourceJobTemplateSchema "host_config_key" r.HostConfigKey
  let d := d.Set resourceJobTemplateSchema "ask_scm_branch_on_launch" r.AskSCMBranchOnLaunch
  let d := d.Set resourceJobTemplateSchema "ask_diff_mode_on_launch" r.AskDiffModeOnLaunch
  let d := d.Set resourceJobTemplateSchema "ask_variables_on_launch" r.AskVariablesOnLaunch
  let d := d.Set resourceJobTemplateSchema "ask_limit_on_launch" r.AskLimitOnLaunch
  let d := d.Set resourceJobTemplateSchema "ask_tags_on_launch" r.AskTagsOnLaunch
  let d := d.Set resourceJobTemplateSchema "ask_skip_tags_on_launch" r.AskSkipTagsOnLaunch
  let d := d.Set resourceJobTemplateSchema "ask_job_type_on_launch" r.AskJobTypeOnLaunch
  let d := d.Set resourceJobTemplateSchema "ask_verbosity_on_launch" r.AskVerbosityOnLaunch
  let d := d.Set resourceJobTemplateSchema "ask_inventory_on_launch" r.AskInventoryOnLaunch
  let d := d.Set resourceJobTemplateSchema "ask_credential_on_launch" r.AskCredentialOnLaunch
  let d := d.Set resourceJobTemplateSchema "ask_execution_environment_on_launch" r.AskExecutionEnvironmentOnLaunch
  let d := d.Set resourceJobTemplateSchema "ask_labels_on_launch" r.AskLabelsOnLaunch
  let d := d.Set resourceJobTemplateSchema "ask_forks_on_launch" r.AskForksOnLaunch
  let d := d.Set resourceJobTemplateSchema "ask_job_slice_count_on_launch" r.AskJobSliceCountOnLaunch
  let d := d.Set resourceJobTemplateSchema "ask_timeout_on_launch" r.AskTimeoutOnLaunch
  let d := d.Set resourceJobTemplateSchema "ask_inventory_groups_on_launch" r.AskInstanceGroupsOnLaunch
  let d := d.Set resourceJobTemplateSchema "survey_enabled" r.SurveyEnabled
  let d := d.Set resourceJobTemplateSchema "become_enabled" r.BecomeEnabled
  let d := d.Set resourceJobTemplateSchema "diff_mode" r.DiffMode
  let d := d.Set resourceJobTemplateSchema "allow_simultaneous" r.AllowSimultaneous
  let d := d.Set resourceJobTemplateSchema "custom_virtualenv" r.CustomVirtualenv
  let d := d.Set resourceJobTemplateSchema "job_slice_count" r.JobSliceCount
  let d := d.Set resourceJobTemplateSchema "webhook_service" r.WebHookService
  let d := d.Set resourceJobTemplateSchema "webhook_credential_id" r.WebHookCredential
  let d := d.Set resourceJobTemplateSchema "prevent_instance_group_fallback" r.PreventInstanceGroupFallback
  let d := d.Set resourceJobTemplateSchema "credential_id" r.Credential
  d.SetId (Itoa r.ID)

/-- The function `resourceJobTemplateRead`. -/
def resourceJobTemplateRead {σ : Type} (u : Utils) (client : AWX σ) (d : ResourceData)
    (w : World σ) : Diagnostics × ResourceData × World σ :=
  let id := (u.convertStateIDToNummeric "Read JobTemplate" d).1
  let diags := (u.convertStateIDToNummeric "Read JobTemplate" d).2
  if diags.HasError then (diags, d, w)
  else
    let r := client.callGetJobTemplateByID id w
    match r.1 with
    | .error err => (u.buildDiagNotFoundFail "job template" id err, d, r.2)
    | .ok res => ([], setJobTemplateResourceData u d res, r.2)

/-- The function `resourceJobTemplateUpdate`. -/
def resourceJobTemplateUpdate {σ : Type} (u : Utils) (client : AWX σ) (d : ResourceData)
    (w : World σ) : Option (Diagnostics × ResourceData × World σ) :=
  let id := (u.convertStateIDToNummeric "Update JobTemplate" d).1
  let diags := (u.convertStateIDToNummeric "Update JobTemplate" d).2
  if diags.HasError then some (diags, d, w)
  else
    let r := client.callGetJobTemplateByID id w
    match r.1 with
    | .error err => some (u.buildDiagNotFoundFail "job template" id err, d, r.2)
    | .ok _ => do
      let params ← jobTemplateUpdateParams u d
      let r2 := client.callUpdateJobTemplate id params r.2
      match r2.1 with
      | .error err =>
        let name ← (d.Get resourceJobTemplateSchema "name").assertString
        let projectID ← (d.Get resourceJobTemplateSchema "project_id").assertInt
        some (diags ++ [{
          Severity := Severity.Error
          Summary := "Unable to update JobTemplate"
          Detail := "JobTemplate with name " ++ name ++ " in the project id " ++
            Itoa projectID ++ " faild to update " ++ err.Error }], d, r2.2)
      | .ok _ => some (resourceJobTemplateRead u client d r2.2)

/-! ## awx/resource_credential.go -/

/-- The schema of `resourceCredential`. -/
def resourceCredentialSchema : Schema :=
  [("name", ValueType.TypeString),
   ("description", ValueType.TypeString),
   ("organisation_id", ValueType.TypeInt),
   ("credential_type_id", ValueType.TypeInt),
   ("inputs", ValueType.TypeString)]

/-- The map `updatedCredential` that `resourceCredentialUpdate` builds. -/
def updatedCredential (u : Utils) (d : ResourceData) : Option Params := do
  let name ← (d.Get resourceCredentialSchema "name").assertString
  let description ← (d.Get resourceCredentialSchema "description").assertString
  let organisationID ← (d.Get resourceCredentialSchema "organisation_id").assertInt
  return [("name", Value.string name),
    ("description", Value.string description),
    ("organization", Value.int organisationID),
    ("credential_type", d.Get resourceCredentialSchema "credential_type_id"),
    ("inputs", Value.string (u.normalizeJsonYaml (d.Get resourceCredentialSchema "inputs")))]

/-- The function `resourceCredentialUpdate`. Its last step is the read
`resourceCredentialSCMRead` of a sibling resource file; that function is a
parameter here. -/
def resourceCredentialUpdate {σ : Type} (u : Utils) (client : AWX σ)
    (resourceCredentialSCMRead :
      ResourceData → World σ → Option (Diagnostics × ResourceData × World σ))
    (d : ResourceData) (w : World σ) : Option (Diagnostics × ResourceData × World σ) :=
  let diags : Diagnostics := []
  let keys := ["name", "description", "inputs", "organisation_id"]
  if d.HasChanges resourceCredentialSchema keys then do
    let id := (Atoi d.Id).1
    let payload ← updatedCredential u d
    let r := client.callUpdateCredentialsByID id payload w
    match r.1 with
    | .error err =>
      some (diags ++ [{
        Severity := Severity.Error
        Summary := "Unable to update existing credentials"
        Detail := "Unable to update existing credentials with id " ++ Itoa id ++ ": " ++
          err.Error }], d, r.2)
    | .ok _ => resourceCredentialSCMRead d r.2
  else resourceCredentialSCMRead d w

/-! ## awx/resource_job_template_launch.go: delete -/

/-- The function `resourceJobDelete`. -/
def resourceJobDelete {σ : Type} (u : Utils) (client : AWX σ) (d : ResourceData)
    (w : World σ) : Diagnostics × ResourceData × World σ :=
  let jobID := (u.convertStateIDToNummeric "Delete Job" d).1
  let diags := (u.convertStateIDToNummeric "Delete Job" d).2
  let r := client.callGetJob jobID w
  match r.1 with
  | .error _ => (diags, d.SetId "", r.2)
  | .ok _ => (diags, d.SetId "", r.2)

/-! ## awx/resource_job_template.go: create -/

/-- The statements `if p, ok := d.GetOk(attr); ok { params[key] = conv(p) }` of
`resourceJobTemplateCreate`, in source order, as rows `(attr, key, conv)`. -/
def jobTemplateCreateOptional : List (String × String × Cast) :=
  [("description", "description", Cast.string),
   ("scm_branch", "scm_branch", Cast.string),
   ("forks", "forks", Cast.int),
   ("limit", "limit", Cast.string),
   ("verbosity", "verbosity", Cast.int),
   ("extra_vars", "extra_vars", Cast.string),
   ("job_tags", "job_tags", Cast.string),
   ("force_handlers", "force_handlers", Cast.bool),
   ("skip_tags", "skip_tags", Cast.string),
   ("start_at_task", "start_at_task", Cast.string),
   ("timeout", "timeout", Cast.int),
   ("use_fact_cache", "use_fact_cache", Cast.bool),
   ("organization_id", "organization_id", Cast.int),
   ("execution_environment_id", "execution_environment_id", Cast.int),
   ("host_config_key", "host_config_key", Cast.string),
   ("ask_scm_branch_on_launch", "ask_scm_branch_on_launch", Cast.bool),
   ("ask_diff_mode_on_launch", "ask_diff_mode_on_launch", Cast.bool),
   ("ask_variables_on_launch", "ask_variables_on_launch", Cast.bool),
   ("ask_limit_on_launch", "ask_limit_on_launch", Cast.bool),
   ("ask_tags_on_launch", "ask_tags_on_launch", Cast.bool),
   ("ask_skip_tags_on_launch", "ask_skip_tags_on_launch", Cast.bool),
   ("ask_job_type_on_launch", "ask_job_type_on_launch", Cast.bool),
   ("ask_verbosity_on_launch", "ask_verbosity_on_launch", Cast.bool),
   ("ask_inventory_on_launch", "ask_inventory_on_launch", Cast.bool),
   ("ask_credential_on_launch", "ask_credential_on_launch", Cast.bool),
   ("ask_execution_environment_on_launch", "ask_execution_environment_on_launch", Cast.bool),
   ("ask_labels_on_launch", "ask_labels_on_launch", Cast.bool),
   ("ask_forks_on_launch", "ask_forks_on_launch", Cast.bool),
   ("ask_job_slice_on_launch", "ask_job_slice_on_launch", Cast.bool),
   ("ask_timeout_on_launch", "ask_timeout_on_launch", Cast.bool),
   ("ask_instance_groups_on_launch", "ask_instance_groups_on_launch", Cast.bool),
   ("survey_enabled", "survey_enabled", Cast.bool),
   ("become_enabled", "become_enabled", Cast.bool),
   ("diff_mode", "diff_mode", Cast.bool),
   ("allow_simultaneous", "allow_simultaneous", Cast.bool),
   ("job_slice_count", "job_slice_count", Cast.int),
   ("webhook_service", "webhook_service", Cast.string),
   ("prevent_instance_group_fallback", "prevent_instance_group_fallback", Cast.bool),
   ("custom_virtualenv", "custom_virtualenv", Cast.AtoipOr),
   ("credential_id", "credential", Cast.int),
   ("webhook_credential_id", "webhook_credential", Cast.int)]

/-- The map `params` that `resourceJobTemplateCreate` builds and passes to
`CreateJobTemplate`. -/
def jobTemplateCreateParams (u : Utils) (d : ResourceData) : Option Params := do
  let name ← (d.Get resourceJobTemplateSchema "name").assertString
  let jobType ← (d.Get resourceJobTemplateSchema "job_type").assertString
  let inventoryID ← (d.Get resourceJobTemplateSchema "inventory_id").assertString
  let projectID ← (d.Get resourceJobTemplateSchema "project_id").assertInt
  let playbook ← (d.Get resourceJobTemplateSchema "playbook").assertString
  let params : Params :=
    [("name", Value.string name),
     ("job_type", Value.string jobType),
     ("inventory", Value.ofIntPtr (u.AtoipOr inventoryID none)),
     ("project", Value.int projectID),
     ("playbook", Value.string playbook)]
  setAllIfOk u resourceJobTemplateSchema d jobTemplateCreateOptional params

/-- The function `resourceJobTemplateCreate`. -/
def resourceJobTemplateCreate {σ : Type} (u : Utils) (client : AWX σ) (d : ResourceData)
    (w : World σ) : Option (Diagnostics × ResourceData × World σ) := do
  let diags : Diagnostics := []
  let params ← jobTemplateCreateParams u d
  let r := client.callCreateJobTemplate params w
  match r.1 with
  | .error err =>
    let name ← (d.Get resourceJobTemplateSchema "name").assertString
    some (diags ++ [{
      Severity := Severity.Error
      Summary := "Unable to create JobTemplate"
      Detail := "JobTemplate " ++ name ++ ": " ++ err.Error }], d, r.2)
  | .ok result => some (resourceJobTemplateRead u client (d.SetId (Itoa result.ID)) r.2)

/-! ## awx/resource_credential.go: create and read -/

/-- The map `newCredential` that `resourceCredentialCreate` builds. -/
def newCredential (u : Utils) (d : ResourceData) : Option Params := do
  let name ← (d.Get resourceCredentialSchema "name").assertString
  let description ← (d.Get resourceCredentialSchema "description").assertString
  let organisationID ← (d.Get resourceCredentialSchema "organisation_id").assertInt
  return [("name", Value.string name),
    ("description", Value.string description),
    ("organisation_id", Value.int organisationID),
    ("credential_type", d.Get resourceCredentialSchema "credential_type_id"),
    ("inputs", Value.string (u.normalizeJsonYaml (d.Get resourceCredentialSchema "inputs")))]

/-- The function `resourceCredentialRead`. -/
def resourceCredentialRead {σ : Type} (client : AWX σ) (d : ResourceData) (w : World σ) :
    Diagnostics × ResourceData × World σ :=
  let diags : Diagnostics := []
  let id := (Atoi d.Id).1
  let r := client.callGetCredentialsByID id w
  match r.1 with
  | .error err =>
    (diags ++ [{
      Severity := Severity.Error
      Summary := "Unable to fetch credential"
      Detail := "Unable to credential with id " ++ Itoa id ++ ": " ++ err.Error }], d, r.2)
  | .ok cred =>
    let d := d.Set resourceCredentialSchema "name" (Value.string cred.Name)
    let d := d.Set resourceCredentialSchema "description" (Value.string cred.Description)
    let d := d.Set resourceCredentialSchema "organisation_id" (Value.int cred.OrganizationID)
    (diags, d, r.2)

/-- The function `resourceCredentialCreate`: the result of its call of
`resourceCredentialRead` is dropped, only the effects on the resource data and
on the remote remain. -/
def resourceCredentialCreate {σ : Type} (u : Utils) (client : AWX σ) (d : ResourceData)
    (w : World σ) : Option (Diagnostics × ResourceData × World σ) := do
  let diags : Diagnostics := []
  let payload ← newCredential u d
  let r := client.callCreateCredentials payload w
  match r.1 with
  | .error err =>
    some (diags ++ [{
      Severity := Severity.Error
      Summary := "Unable to create new credential"
      Detail := "Unable to create new credential: " ++ err.Error }], d, r.2)
  | .ok cred =>
    let read := resourceCredentialRead client (d.SetId (Itoa cred.ID)) r.2
    some (diags, read.2.1, read.2.2)

/-! ## The data sources -/

/-- A Go `map[string]string`, as an association list. -/
abbrev Query := List (String × String)

/-- The assignment `params[key] = v` of a Go `map[string]string`. -/
def Query.set : Query → String → String → Query
  | [], key, v => [(key, v)]
  | (k, x) :: rest, key, v =>
    if k = key then (key, v) :: rest else (k, x) :: Query.set rest key v

/-- The index expression `xs[0]` of a Go slice; `none` is the run-time panic
"index out of range". -/
def indexFirst {α : Type} : List α → Option α
  | [] => none
  | x :: _ => some x

/-- The read `m[key]` of a Go `map[string]interface{}`: `nil` for an absent
key. -/
def mapIndex (m : List (String × Value)) (key : String) : Value :=
  (m.lookup key).getD Value.nil

/-- The selectors that the three data source reads build from the attributes
`name` and `id`. -/
def selectorParams (s : Schema) (d : ResourceData) : Option Query := do
  let params : Query := []
  let params ←
    if (d.GetOk s "name").2 then
      (d.GetOk s "name").1.assertString.map (fun name => params.set "name" name)
    else some params
  let params ←
    if (d.GetOk s "id").2 then
      (d.GetOk s "id").1.assertInt.map (fun id => params.set "id" (Itoa id))
    else some params
  return params

/-- The schema of `dataSourceCredential`. -/
def dataSourceCredentialSchema : Schema :=
  [("id", ValueType.TypeInt),
   ("name", ValueType.TypeString),
   ("tower_id", ValueType.TypeInt),
   ("username", ValueType.TypeString),
   ("kind", ValueType.TypeString)]

/-- The function `dataSourceCredentialRead`; the helper `buildDiagnosticsMessage`
of the utility file is a parameter. -/
def dataSourceCredentialRead {σ : Type}
    (buildDiagnosticsMessage : String → String → List Value → Diagnostics)
    (client : AWX σ) (d : ResourceData) (w : World σ) :
    Option (Diagnostics × ResourceData × World σ) := do
  let diags : Diagnostics := []
  let params ← selectorParams dataSourceCredentialSchema d
  if params.length = 0 then
    some (buildDiagnosticsMessage "Get: Missing Parameters"
      "Please use one of the selectors (name or id)" [], d, w)
  else
    let r := client.callListCredentials params w
    match r.1 with
    | .error err =>
      some (buildDiagnosticsMessage "Get: Fail to fetch credentials"
        "Fail to find the credential got: %s" [Value.string err.Error], d, r.2)
    | .ok creds =>
      if creds.length > 1 then
        some (buildDiagnosticsMessage "Get: find more than one Element"
          "The Query Returns more than one credential, %d" [Value.int creds.length], d, r.2)
      else
        let cred ← indexFirst creds
        let d := d.Set dataSourceCredentialSchema "name" (Value.string cred.Name)
        let d := d.Set dataSourceCredentialSchema "username" (mapIndex cred.Inputs "username")
        let d := d.Set dataSourceCredentialSchema "kind" (Value.string cred.Kind)
        let d := d.Set dataSourceCredentialSchema "tower_id" (Value.int cred.ID)
        some (diags, d.SetId (Itoa cred.ID), r.2)

/-- The schema of `dataSourceCredentialType`. -/
def dataSourceCredentialTypeSchema : Schema :=
  [("id", ValueType.TypeInt),
   ("name", ValueType.TypeString),
   ("description", ValueType.TypeString),
   ("kind", ValueType.TypeString),
   ("inputs", ValueType.TypeString),
   ("injectors", ValueType.TypeString)]

/-- The function `dataSourceCredentialTypeRead`. -/
def dataSourceCredentialTypeRead {σ : Type}
    (buildDiagnosticsMessage : String → String → List Value → Diagnostics)
    (client : AWX σ) (d : ResourceData) (w : World σ) :
    Option (Diagnostics × ResourceData × World σ) := do
  let diags : Diagnostics := []
  let params ← selectorParams dataSourceCredentialTypeSchema d
  if params.length = 0 then
    some (buildDiagnosticsMessage "Get: Missing Parameters"
      "Please use one of the selectors (name or id)" [], d, w)
  else
    let r := client.callListCredentialTypes params w
    match r.1 with
    | .error err =>
      some (buildDiagnosticsMessage "Get: Fail to fetch credential types"
        "Fail to find the credential type got: %s" [Value.string err.Error], d, r.2)
    | .ok ctypes =>
      if ctypes.length > 1 then
        some (buildDiagnosticsMessage "Get: find more than one Element"
          "The Query Returns more than one credential type, %d" [Value.int ctypes.length],
          d, r.2)
      else
        let credType ← indexFirst ctypes
        let d := d.Set dataSourceCredentialTypeSchema "name" credType.Name
        let d := d.Set dataSourceCredentialTypeSchema "description" credType.Description
        let d := d.Set dataSourceCredentialTypeSchema "kind" credType.Kind
        let d := d.Set dataSourceCredentialTypeSchema "inputs" credType.Inputs
        let d := d.Set dataSourceCredentialTypeSchema "injectors" credType.Injectors
        some (diags, d.SetId (Itoa credType.ID), r.2)

/-- The schema of `dataSourceExecutionEnvironment`. -/
def dataSourceExecutionEnvironmentSchema : Schema :=
  [("id", ValueType.TypeInt),
   ("name", ValueType.TypeString)]

/-- The function `setExecutionEnvironmentResourceData`. -/
def setExecutionEnvironmentResourceData (d : ResourceData) (r : ExecutionEnvironment) :
    ResourceData :=
  let d := d.Set dataSourceExecutionEnvironmentSchema "name" r.Name
  let d := d.Set dataSourceExecutionEnvironmentSchema "description" r.Description
  let d := d.Set dataSourceExecutionEnvironmentSchema "organization" r.Organization
  let d := d.Set dataSourceExecutionEnvironmentSchema "image" r.Image
  let d := d.Set dataSourceExecutionEnvironmentSchema "managed" r.Managed
  let d := d.Set dataSourceExecutionEnvironmentSchema "credential" r.Credential
  let d := d.Set dataSourceExecutionEnvironmentSchema "pull" r.Pull
  d.SetId (Itoa r.ID)

/-- The function `dataSourceExecutionEnvironmentsRead`. -/
def dataSourceExecutionEnvironmentsRead {σ : Type}
    (buildDiagnosticsMessage : String → String → List Value → Diagnostics)
    (client : AWX σ) (d : ResourceData) (w : World σ) :
    Option (Diagnostics × ResourceData × World σ) := do
  let diags : Diagnostics := []
  let params ← selectorParams dataSourceExecutionEnvironmentSchema d
  if params.length = 0 then
    some (buildDiagnosticsMessage "Get: Missing Parameters"
      "Please use one of the selectors (name or group_id)" [], d, w)
  else
    let r := client.callListExecutionEnvironments params w
    match r.1 with
    | .error err =>
      some (buildDiagnosticsMessage "Get: Fail to fetch Execution Environments"
        "Fail to find the execution environment got: %s" [Value.string err.Error], d, r.2)
    | .ok environments =>
      if environments.length > 1 then
        some (buildDiagnosticsMessage "Get: find more than one Element"
          "The Query Returns more than one execution environment, %d"
          [Value.int environments.length], d, r.2)
      else
        let environment ← indexFirst environments
        some (diags, setExecutionEnvironmentResourceData d environment, r.2)

/-! ## Sample instances -/

/-- A job template record with the given ID and no field set. -/
def JobTemplate.unset (id : Int) : JobTemplate :=
  { ID := id
    Name := Value.nil
    Description := Value.nil
    JobType := Value.nil
    Inventory := Value.nil
    Project := Value.nil
    Playbook := Value.nil
    SCMBranch := Value.nil
    Forks := Value.nil
    Limit := Value.nil
    Verbosity := Value.nil
    ExtraVars := Value.nil
    JobTags := Value.nil
    ForceHandlers := Value.nil
    SkipTags := Value.nil
    StartAtTask := Value.nil
    Timeout := Value.nil
    UseFactCache := Value.nil
    Organization := Value.nil
    ExecutionEnvironment := Value.nil
    HostConfigKey := Value.nil
    AskSCMBranchOnLaunch := Value.nil
    AskDiffModeOnLaunch := Value.nil
    AskVariablesOnLaunch := Value.nil
    AskLimitOnLaunch := Value.nil
    AskTagsOnLaunch := Value.nil
    AskSkipTagsOnLaunch := Value.nil
    AskJobTypeOnLaunch := Value.nil
    AskVerbosityOnLaunch := Value.nil
    AskInventoryOnLaunch := Value.nil
    AskCredentialOnLaunch := Value.nil
    AskExecutionEnvironmentOnLaunch := Value.nil
    AskLabelsOnLaunch := Value.nil
    AskForksOnLaunch := Value.nil
    AskJobSliceCountOnLaunch := Value.nil
    AskTimeoutOnLaunch := Value.nil
    AskInstanceGroupsOnLaunch := Value.nil
    SurveyEnabled := Value.nil
    BecomeEnabled := Value.nil
    DiffMode := Value.nil
    AllowSimultaneous := Value.nil
    CustomVirtualenv := Value.nil
    JobSliceCount := Value.nil
    WebHookService := Value.nil
    WebHookCredential := Value.nil
    PreventInstanceGroupFallback := Value.nil
    Credential := Value.nil }

/-- The credential 5, named "vault". -/
def vaultCredential : Credential :=
  { ID := 5, Name := "vault", Description := "", OrganizationID := 1, Kind := "vault",
    Inputs := [] }

/-- A credential record with the given id and no field set. -/
def Credential.unset (id : Int) : Credential :=
  { ID := id, Name := "", Description := "", OrganizationID := 0, Kind := "", Inputs := [] }

/-- A remote that holds the job template 42 only, launches it as job 7, and
answers the status reads from a script, its state; a read beyond the script
fails with a 404. It holds the credential 5 named "vault" only, which a list
query by that name returns, answers a create of credentials with a record of
id 9 that it does not hold afterwards, and holds no credential type and no
execution environment. -/
def scriptedRemote : AWX (List (Except GoError Job)) where
  GetJobTemplateByID id s :=
    (if id = 42 then .ok (JobTemplate.unset 42) else .error (.errorString "404 Not Found"), s)
  UpdateJobTemplate id _ s :=
    (if id = 42 then .ok (JobTemplate.unset 42) else .error (.errorString "404 Not Found"), s)
  Launch id _ s :=
    (if id = 42 then .ok { ID := 7 } else .error (.errorString "404 Not Found"), s)
  GetJob _ s :=
    match s with
    | [] => (.error (.errorString "404 Not Found"), [])
    | r :: rest => (r, rest)
  UpdateCredentialsByID id _ s :=
    (.ok { ID := id, Name := "", Description := "", OrganizationID := 0 }, s)
  CreateJobTemplate _ s := (.ok (JobTemplate.unset 42), s)
  CreateCredentials _ s := (.ok (Credential.unset 9), s)
  GetCredentialsByID id s :=
    (if id = 5 then .ok vaultCredential else .error (.errorString "404 Not Found"), s)
  ListCredentials query s :=
    (.ok ((query.filter (fun e => e.1 == "name" && e.2 == "vault")).map
      (fun _ => vaultCredential)), s)
  ListCredentialTypes _ s := (.ok [], s)
  ListExecutionEnvironments _ s := (.ok [], s)

/-- A world of the scripted remote with an empty trace. -/
def scriptedWorld (script : List (Except GoError Job)) : World (List (Except GoError Job)) :=
  { remote := script, trace := [] }

/-- Job 7 with the given status and failure explanation. -/
def job7 (status explanation : String) : Job :=
  { ID := 7, Name := "demo", Description := "", Status := status,
    Failed := false, JobExplanation := explanation }

/-- An instance of the utility helpers: identifiers are parsed with `Atoi`, a
failure is one error diagnostic, structured text is passed through. -/
def sampleUtils : Utils where
  buildDiagNotFoundFail kind id err :=
    [{ Severity := Severity.Error
       Summary := "Unable to fetch " ++ kind
       Detail := "Unable to load " ++ kind ++ " with id " ++ Itoa id ++ ": got " ++ err.Error }]
  convertStateIDToNummeric operation d :=
    match (Atoi d.Id).2 with
    | some err =>
      ((Atoi d.Id).1, [{ Severity := Severity.Error
                         Summary := operation ++ ", State ID Not Converted"
                         Detail := err.Error }])
    | none => ((Atoi d.Id).1, [])
  AtoipOr str dflt :=
    match (Atoi str).2 with
    | some _ => dflt
    | none => some (Atoi str).1
  normalizeJsonYaml v :=
    match v with
    | .string str => str
    | _ => ""
  expandIntList l := l.filterMap Value.assertInt

/-- A launch configuration for the job template 41, which the scripted remote
does not hold. -/
def launchOfMissingTemplate : ResourceData :=
  { id := "", state := [], values := [("job_template_id", Value.int 41)] }

/-- A launch configuration of the job template 42 that monitors the job for
completion and overrides `limit`. -/
def launchMonitored : ResourceData :=
  { id := ""
    state := []
    values := [("job_template_id", Value.int 42), ("monitor_for_completion", Value.bool true),
      ("limit", Value.string "host-a")] }

/-- The resource data of a launched job 7. -/
def launchedJob7 : ResourceData :=
  { id := "7", state := [], values := [("job_template_id", Value.int 42)] }

/-- A launch configuration of the job template 42 that sets `limit` and, to
their zero values, `diff_mode` and `verbosity`. -/
def launchWithZeroOverrides : ResourceData :=
  { id := ""
    state := []
    values := [("job_template_id", Value.int 42), ("limit", Value.string "host-a"),
      ("diff_mode", Value.bool false), ("verbosity", Value.int 0)] }

/-- The job template 42 with a prior state equal to its desired values. -/
def jobTemplateUnchanged : ResourceData :=
  { id := "42"
    state := [("name", Value.string "baseconfig"), ("job_type", Value.string "run"),
      ("inventory_id", Value.string "1"), ("project_id", Value.int 2),
      ("playbook", Value.string "site.yml")]
    values := [("name", Value.string "baseconfig"), ("job_type", Value.string "run"),
      ("inventory_id", Value.string "1"), ("project_id", Value.int 2),
      ("playbook", Value.string "site.yml")] }

/-- The job template 41, which the scripted remote does not hold. -/
def jobTemplateMissing : ResourceData :=
  { jobTemplateUnchanged with id := "41" }

/-- A credential with a prior state equal to its desired values. -/
def credentialUnchanged : ResourceData :=
  { id := "5"
    state := [("name", Value.string "vault"), ("organisation_id", Value.int 1),
      ("credential_type_id", Value.int 3), ("inputs", Value.string "a: 1")]
    values := [("name", Value.string "vault"), ("organisation_id", Value.int 1),
      ("credential_type_id", Value.int 3), ("inputs", Value.string "a: 1")] }

/-- A stand-in for the read of the sibling resource file: it reports nothing and
issues no call. -/
def silentRead {σ : Type} (d : ResourceData) (w : World σ) :
    Option (Diagnostics × ResourceData × World σ) :=
  some ([], d, w)

/-- Whether each row of a payload table converts its attribute with a
conversion that accepts the attribute's schema type. -/
def rowsWellTyped (s : Schema) (rows : List (String × String × Cast)) : Bool :=
  rows.all (fun row =>
    match s.lookup row.1 with
    | none => true
    | some ty => row.2.2.accepts ty)

/-- The credential 6, which the scripted remote does not hold. -/
def credentialMissing : ResourceData :=
  { id := "6"
    state := [("name", Value.string "gone"), ("organisation_id", Value.int 1),
      ("credential_type_id", Value.int 3), ("inputs", Value.string "a: 1")]
    values := [("name", Value.string "gone"), ("organisation_id", Value.int 1),
      ("credential_type_id", Value.int 3), ("inputs", Value.string "a: 1")] }

/-- A credential whose stored identifier is not a number and whose name
changed. -/
def credentialBadId : ResourceData :=
  { id := "abc"
    state := [("name", Value.string "old"), ("organisation_id", Value.int 1),
      ("credential_type_id", Value.int 3), ("inputs", Value.string "a: 1")]
    values := [("name", Value.string "vault"), ("organisation_id", Value.int 1),
      ("credential_type_id", Value.int 3), ("inputs", Value.string "a: 1")] }

/-- A credential that is not created yet. -/
def credentialNew : ResourceData :=
  { id := ""
    state := []
    values := [("name", Value.string "vault"), ("organisation_id", Value.int 1),
      ("credential_type_id", Value.int 3), ("inputs", Value.string "a: 1")] }

/-- An instance of the utility helpers whose `normalizeJsonYaml` turns the YAML
text `a: 1` into JSON and keeps every other text. -/
def canonUtils : Utils :=
  { sampleUtils with
    normalizeJsonYaml := fun v =>
      match v with
      | .string str => if str = "a: 1" then "\x7b\"a\":1\x7d" else str
      | _ => "" }

/-- A launch configuration of the job template 42 with extra variables in
YAML. -/
def launchWithExtraVars : ResourceData :=
  { id := ""
    state := []
    values := [("job_template_id", Value.int 42), ("extra_vars", Value.string "a: 1")] }

/-- A job template with extra variables in YAML, a credential and the two
prompt flags for job slices and instance groups. -/
def jobTemplateFull : ResourceData :=
  { id := "42"
    state := []
    values := [("name", Value.string "baseconfig"), ("job_type", Value.string "run"),
      ("inventory_id", Value.string "1"), ("project_id", Value.int 2),
      ("playbook", Value.string "site.yml"), ("extra_vars", Value.string "a: 1"),
      ("credential_id", Value.int 5), ("ask_job_slice_count_on_launch", Value.bool true),
      ("ask_instance_groups_on_launch", Value.bool true)] }

/-- A remote like the scripted one, except that it refuses every launch. -/
def launchRefusingRemote : AWX (List (Except GoError Job)) :=
  { scriptedRemote with
    Launch := fun _ _ s => (.error (.errorString "400 Bad Request"), s) }

/-- An instance of the helper `buildDiagnosticsMessage`: one error diagnostic
with the summary and the unformatted detail. -/
def sampleDiagnosticsMessage (summary detail : String) (_ : List Value) : Diagnostics :=
  [{ Severity := Severity.Error, Summary := summary, Detail := detail }]

/-- A data source configuration that selects by a name no record has. -/
def selectUnknownName : ResourceData :=
  { id := "", state := [], values := [("name", Value.string "nobody")] }

/-- The remote record of the job template 42 with the prompt flags for job
slices and instance groups set. -/
def remoteTemplateWithPrompts : JobTemplate :=
  { JobTemplate.unset 42 with
    AskJobSliceCountOnLaunch := Value.bool true
    AskInstanceGroupsOnLaunch := Value.bool true }

/-- The world after the lookup of the job template `tid` and its launch with
`params`. -/
def worldAfterLaunch {σ : Type} (client : AWX σ) (tid : Int) (params : Params)
    (w : World σ) : World σ :=
  { remote := (client.Launch tid params (client.GetJobTemplateByID tid w.remote).2).2
    trace := w.trace ++ [Event.GetJobTemplateByID tid, Event.Launch tid params] }

/-- The world after `n` successive invocations of a refresh function. -/
def afterRefreshes {σ : Type} (refresh : World σ → RefreshResult × World σ) :
    Nat → World σ → World σ
  | 0, w => w
  | n + 1, w => afterRefreshes refresh n (refresh w).2

/-- Whether the refresh function of the job `id`, invoked in the world `w`,
observes a job whose status is one of the four non-terminal tokens. -/
def observesNonTerminal {σ : Type} (client : AWX σ) (id : String) (w : World σ) : Bool :=
  match (isJobRefreshFunc client id w).1.result with
  | some job =>
    [JobStatusNew, JobStatusPending, JobStatusWaiting, JobStatusRunning].contains job.Status
  | none => false

/-- Whether a payload table holds a row that sends the attribute `attr` under
the key `key` through a plain type assertion that fits the schema type, so
that the value enters the payload as it is. -/
def sendsUnchanged (s : Schema) (rows : List (String × String × Cast))
    (attr key : String) : Bool :=
  rows.any (fun r => r.1 == attr && r.2.1 == key &&
    (match s.lookup attr with
     | none => false
     | some ty => r.2.2.accepts ty && r.2.2 != Cast.expandIntList && r.2.2 != Cast.AtoipOr))

/-- A launch configuration of the job template 42 that sets `limit`, two
credentials and an execution environment, and `diff_mode` to its zero
value. -/
def launchWithCredentials : ResourceData :=
  { id := ""
    state := []
    values := [("job_template_id", Value.int 42), ("limit", Value.string "host-a"),
      ("diff_mode", Value.bool false), ("credential_ids", Value.set [3, 4]),
      ("execution_environment_id", Value.int 4)] }

/-- The job template 42 with a prior state equal to its desired values, among
them a description, forks, privilege escalation, a virtual environment, a
webhook credential and `diff_mode` at its zero value. -/
def jobTemplateWithOptions : ResourceData :=
  { id := "42"
    state := [("name", Value.string "baseconfig"), ("job_type", Value.string "run"),
      ("inventory_id", Value.string "1"), ("project_id", Value.int 2),
      ("playbook", Value.string "site.yml"), ("description", Value.string "base"),
      ("forks", Value.int 5), ("become_enabled", Value.bool true),
      ("diff_mode", Value.bool false), ("custom_virtualenv", Value.string "9"),
      ("webhook_credential_id", Value.int 8)]
    values := [("name", Value.string "baseconfig"), ("job_type", Value.string "run"),
      ("inventory_id", Value.string "1"), ("project_id", Value.int 2),
      ("playbook", Value.string "site.yml"), ("description", Value.string "base"),
      ("forks", Value.int 5), ("become_enabled", Value.bool true),
      ("diff_mode", Value.bool false), ("custom_virtualenv", Value.string "9"),
      ("webhook_credential_id", Value.int 8)] }

/-! ## Reads through a schema are typed -/

theorem readOrZero_hasType (s : Schema) (m : List (String × Value)) (key : String)
    (ty : ValueType) (h : s.lookup key = some ty) :
    (readOrZero s m key).hasType ty = true := by
  unfold readOrZero readField
  simp only [h]
  cases hm : m.lookup key with
  | none => cases ty <;> rfl
  | some v =>
    by_cases hv : v.hasType ty = true
    · simp [hv]
    · simp [hv]; cases ty <;> rfl

theorem hasType_int (v : Value) (h : v.hasType ValueType.TypeInt = true) :
    ∃ n, v = Value.int n := by
  cases v <;> simp [Value.hasType] at h
  exact ⟨_, rfl⟩

theorem hasType_string (v : Value) (h : v.hasType ValueType.TypeString = true) :
    ∃ str, v = Value.string str := by
  cases v <;> simp [Value.hasType] at h
  exact ⟨_, rfl⟩

theorem hasType_bool (v : Value) (h : v.hasType ValueType.TypeBool = true) :
    ∃ b, v = Value.bool b := by
  cases v <;> simp [Value.hasType] at h
  exact ⟨_, rfl⟩

theorem Get_int (s : Schema) (d : ResourceData) (key : String)
    (h : s.lookup key = some ValueType.TypeInt) : ∃ n, d.Get s key = Value.int n :=
  hasType_int _ (readOrZero_hasType s d.values key _ h)

theorem Get_string (s : Schema) (d : ResourceData) (key : String)
    (h : s.lookup key = some ValueType.TypeString) : ∃ str, d.Get s key = Value.string str :=
  hasType_string _ (readOrZero_hasType s d.values key _ h)

theorem Get_bool (s : Schema) (d : ResourceData) (key : String)
    (h : s.lookup key = some ValueType.TypeBool) : ∃ b, d.Get s key = Value.bool b :=
  hasType_bool _ (readOrZero_hasType s d.values key _ h)

/-! ## The job launch: template lookup -/

/-- C1: the attribute `job_template_id` always reads as an integer `id`, and
whenever `GetJobTemplateByID id` fails with `err`, `resourceJobTemplateLaunchCreate`
returns `buildDiagNotFoundFail("job template", id, err)`, leaves the resource
data (and so its id) untouched, and its only remote call is the lookup: no
`Launch` is issued. -/
theorem launchCreate_lookup_failure {σ : Type} (u : Utils) (client : AWX σ) (fuel : Nat)
    (d : ResourceData) (w : World σ) :
    ∃ id, d.Get resourceJobTemplateLaunchSchema "job_template_id" = Value.int id ∧
      ∀ err, (client.GetJobTemplateByID id w.remote).1 = Except.error err →
        resourceJobTemplateLaunchCreate u client fuel d w =
          some (u.buildDiagNotFoundFail "job template" id err, d,
            { remote := (client.GetJobTemplateByID id w.remote).2
              trace := w.trace ++ [Event.GetJobTemplateByID id] }) := by
  obtain ⟨id, hid⟩ := Get_int resourceJobTemplateLaunchSchema d "job_template_id" (by decide)
  refine ⟨id, hid, ?_⟩
  intro err herr
  simp [resourceJobTemplateLaunchCreate, hid, Value.assertInt, AWX.callGetJobTemplateByID,
    herr, World.step]

/-- Witness of C1: the scripted remote has no job template 41. -/
theorem launchCreate_lookup_failure_witness :
    resourceJobTemplateLaunchCreate sampleUtils scriptedRemote 3 launchOfMissingTemplate
        (scriptedWorld []) =
      some (sampleUtils.buildDiagNotFoundFail "job template" 41
          (GoError.errorString "404 Not Found"), launchOfMissingTemplate,
        { remote := [], trace := [Event.GetJobTemplateByID 41] }) := by
  obtain ⟨id, hid, h⟩ := launchCreate_lookup_failure sampleUtils scriptedRemote 3
    launchOfMissingTemplate (scriptedWorld [])
  have h41 : id = 41 := by
    have h0 : launchOfMissingTemplate.Get resourceJobTemplateLaunchSchema "job_template_id" =
        Value.int 41 := by decide
    rw [h0] at hid
    exact (Value.int.inj hid).symm
  subst h41
  exact h (GoError.errorString "404 Not Found") rfl

/-! ## The poller's refresh function -/

theorem isJobRefreshFunc_of_read {σ : Type} (client : AWX σ) (id : String) (w : World σ)
    (job : Job) (hread : (client.GetJob (Atoi id).1 w.remote).1 = Except.ok job) :
    (isJobRefreshFunc client id w).1 = jobStatusOutcome job := by
  simp [isJobRefreshFunc, AWX.callGetJob, hread]

theorem jobStatusOutcome_result (job : Job) :
    (jobStatusOutcome job).result = some job ∧ (jobStatusOutcome job).state = job.Status := by
  unfold jobStatusOutcome
  split_ifs <;> exact ⟨rfl, rfl⟩

theorem jobStatusOutcome_err (job : Job) :
    (jobStatusOutcome job).err =
      if job.Status = JobStatusSuccessful then none
      else if job.Status = JobStatusError then some (GoError.errorString "error")
      else if job.Status = JobStatusFailed then some (GoError.errorString "failed")
      else if job.Status = JobStatusCanceled then some (GoError.errorString "canceled")
      else none := by
  unfold jobStatusOutcome
  split_ifs <;> rfl

/-- C2: for a job that the refresh function reads successfully, the outcome
holds the job and its status; `Successful` gives no error, `Canceled`, `Error`
and `Failed` give the errors "canceled", "error" and "failed"; the four
non-terminal statuses give no error; and two successfully read jobs whose
terminal statuses differ never get the same error text (nor the same absence
of an error). -/
theorem refresh_classifies_terminal_statuses {σ : Type} (client : AWX σ) (id : String)
    (w : World σ) (job : Job)
    (hread : (client.GetJob (Atoi id).1 w.remote).1 = Except.ok job) :
    (isJobRefreshFunc client id w).1.result = some job ∧
    (isJobRefreshFunc client id w).1.state = job.Status ∧
    (job.Status = JobStatusSuccessful → (isJobRefreshFunc client id w).1.err = none) ∧
    (job.Status = JobStatusCanceled →
      (isJobRefreshFunc client id w).1.err = some (GoError.errorString "canceled")) ∧
    (job.Status = JobStatusError →
      (isJobRefreshFunc client id w).1.err = some (GoError.errorString "error")) ∧
    (job.Status = JobStatusFailed →
      (isJobRefreshFunc client id w).1.err = some (GoError.errorString "failed")) ∧
    (job.Status ∈ [JobStatusNew, JobStatusPending, JobStatusWaiting, JobStatusRunning] →
      (isJobRefreshFunc client id w).1.err = none) ∧
    (∀ {τ : Type} (client2 : AWX τ) (id2 : String) (w2 : World τ) (job2 : Job),
      (client2.GetJob (Atoi id2).1 w2.remote).1 = Except.ok job2 →
      job.Status ∈
        [JobStatusSuccessful, JobStatusCanceled, JobStatusError, JobStatusFailed] →
      job2.Status ∈
        [JobStatusSuccessful, JobStatusCanceled, JobStatusError, JobStatusFailed] →
      job.Status ≠ job2.Status →
      (isJobRefreshFunc client id w).1.err.map GoError.Error ≠
        (isJobRefreshFunc client2 id2 w2).1.err.map GoError.Error) := by
  rw [isJobRefreshFunc_of_read client id w job hread]
  refine ⟨(jobStatusOutcome_result job).1, (jobStatusOutcome_result job).2, ?_, ?_, ?_, ?_,
    ?_, ?_⟩
  · intro h; rw [jobStatusOutcome_err, h]; decide
  · intro h; rw [jobStatusOutcome_err, h]; decide
  · intro h; rw [jobStatusOutcome_err, h]; decide
  · intro h; rw [jobStatusOutcome_err, h]; decide
  · intro h
    rw [jobStatusOutcome_err]
    simp only [List.mem_cons, List.mem_singleton, List.not_mem_nil, or_false] at h
    rcases h with h | h | h | h <;> rw [h] <;> decide
  · intro τ client2 id2 w2 job2 hread2 h1 h2 hne
    rw [isJobRefreshFunc_of_read client2 id2 w2 job2 hread2, jobStatusOutcome_err,
      jobStatusOutcome_err]
    simp only [List.mem_cons, List.mem_singleton, List.not_mem_nil, or_false] at h1 h2
    rcases h1 with h1 | h1 | h1 | h1 <;> rcases h2 with h2 | h2 | h2 | h2 <;>
      rw [h1, h2] at hne ⊢ <;> first | exact absurd rfl hne | decide

/-- Witness of C2: the scripted remote answers the first status read with a
failed job, compared with a canceled one. -/
theorem refresh_classifies_terminal_statuses_witness :
    (isJobRefreshFunc scriptedRemote "7"
        (scriptedWorld [Except.ok (job7 "failed" "")])).1.err =
      some (GoError.errorString "failed") ∧
    (isJobRefreshFunc scriptedRemote "7"
        (scriptedWorld [Except.ok (job7 "failed" "")])).1.err.map GoError.Error ≠
      (isJobRefreshFunc scriptedRemote "7"
        (scriptedWorld [Except.ok (job7 "canceled" "")])).1.err.map GoError.Error :=
  have h := refresh_classifies_terminal_statuses scriptedRemote "7"
    (scriptedWorld [Except.ok (job7 "failed" "")]) (job7 "failed" "") rfl
  ⟨h.2.2.2.2.2.1 rfl,
    h.2.2.2.2.2.2.2 scriptedRemote "7" (scriptedWorld [Except.ok (job7 "canceled" "")])
      (job7 "canceled" "") rfl (by decide) (by decide) (by decide)⟩

/-- C4: one invocation of the refresh function reads the status once or,
with a pause of 5 seconds in between, twice, and never a third time. When the
first read fails, the read is repeated exactly once: a successful retry gives
the very outcome that any invocation gives whose first read returns that job,
a failed retry gives the retry's error with no job and an empty state. -/
theorem refresh_retries_exactly_once {σ : Type} (client : AWX σ) (id : String)
    (w : World σ) :
    ((isJobRefreshFunc client id w).2.trace = w.trace ++ [Event.GetJob (Atoi id).1] ∨
      (isJobRefreshFunc client id w).2.trace =
        w.trace ++ [Event.GetJob (Atoi id).1, Event.Sleep 5, Event.GetJob (Atoi id).1]) ∧
    ∀ firstErr, (client.GetJob (Atoi id).1 w.remote).1 = Except.error firstErr →
      (isJobRefreshFunc client id w).2.trace =
        w.trace ++ [Event.GetJob (Atoi id).1, Event.Sleep 5, Event.GetJob (Atoi id).1] ∧
      (∀ job,
        (client.GetJob (Atoi id).1 (client.GetJob (Atoi id).1 w.remote).2).1 = Except.ok job →
        (isJobRefreshFunc client id w).1 = jobStatusOutcome job ∧
        ∀ {τ : Type} (client2 : AWX τ) (id2 : String) (w2 : World τ),
          (client2.GetJob (Atoi id2).1 w2.remote).1 = Except.ok job →
          (isJobRefreshFunc client2 id2 w2).1 = (isJobRefreshFunc client id w).1) ∧
      (∀ retryErr,
        (client.GetJob (Atoi id).1 (client.GetJob (Atoi id).1 w.remote).2).1 =
          Except.error retryErr →
        (isJobRefreshFunc client id w).1 =
          { result := none, state := "", err := some retryErr }) := by
  constructor
  · cases h1 : (client.GetJob (Atoi id).1 w.remote).1 with
    | ok job => left; simp [isJobRefreshFunc, AWX.callGetJob, h1, World.step]
    | error e =>
      right
      cases h2 : (client.GetJob (Atoi id).1 (client.GetJob (Atoi id).1 w.remote).2).1 <;>
        simp [isJobRefreshFunc, AWX.callGetJob, h1, h2, World.step, World.Sleep]
  · intro firstErr h1
    refine ⟨?_, ?_, ?_⟩
    · cases h2 : (client.GetJob (Atoi id).1 (client.GetJob (Atoi id).1 w.remote).2).1 <;>
        simp [isJobRefreshFunc, AWX.callGetJob, h1, h2, World.step, World.Sleep]
    · intro job h2
      have hout : (isJobRefreshFunc client id w).1 = jobStatusOutcome job := by
        simp [isJobRefreshFunc, AWX.callGetJob, h1, h2, World.step, World.Sleep]
      refine ⟨hout, ?_⟩
      intro τ client2 id2 w2 hread2
      rw [hout, isJobRefreshFunc_of_read client2 id2 w2 job hread2]
    · intro retryErr h2
      simp [isJobRefreshFunc, AWX.callGetJob, h1, h2, World.step, World.Sleep]

/-- Witness of C4: the first read of the scripted remote fails, the retry
returns a running job. -/
theorem refresh_retries_exactly_once_witness :
    (isJobRefreshFunc scriptedRemote "7"
        (scriptedWorld [Except.error (GoError.errorString "502 Bad Gateway"),
          Except.ok (job7 "running" "")])).2.trace =
      [Event.GetJob 7, Event.Sleep 5, Event.GetJob 7] ∧
    (isJobRefreshFunc scriptedRemote "7"
        (scriptedWorld [Except.error (GoError.errorString "502 Bad Gateway"),
          Except.ok (job7 "running" "")])).1 = jobStatusOutcome (job7 "running" "") :=
  have h := (refresh_retries_exactly_once scriptedRemote "7"
    (scriptedWorld [Except.error (GoError.errorString "502 Bad Gateway"),
      Except.ok (job7 "running" "")])).2 (GoError.errorString "502 Bad Gateway") rfl
  ⟨h.1, (h.2.1 (job7 "running" "") rfl).1⟩

/-! ## The wait for job completion -/

theorem SetId_Get (s : Schema) (d : ResourceData) (v key : String) :
    (d.SetId v).Get s key = d.Get s key := rfl

theorem isWaitForJobComplete_of_read {σ : Type} (client : AWX σ) (id : String) (fuel : Nat)
    (w : World σ) (job : Job)
    (hread : (client.GetJob (Atoi id).1 w.remote).1 = Except.ok job) :
    isWaitForJobComplete client id (fuel + 1) w =
      match (jobStatusOutcome job).err with
      | some err =>
        ((some job, some err),
          { remote := (client.GetJob (Atoi id).1 w.remote).2
            trace := w.trace ++ [Event.Sleep 30, Event.GetJob (Atoi id).1] })
      | none =>
        if (jobStateConf client id).Target.contains job.Status then
          ((some job, none),
            { remote := (client.GetJob (Atoi id).1 w.remote).2
              trace := w.trace ++ [Event.Sleep 30, Event.GetJob (Atoi id).1] })
        else if (jobStateConf client id).Pending.contains job.Status then
          waitLoop (jobStateConf client id) fuel 0 job.Status
            { remote := (client.GetJob (Atoi id).1 w.remote).2
              trace := w.trace ++ [Event.Sleep 30, Event.GetJob (Atoi id).1] }
        else
          ((some job, some (GoError.UnexpectedStateError job.Status
              (jobStateConf client id).Target)),
            { remote := (client.GetJob (Atoi id).1 w.remote).2
              trace := w.trace ++ [Event.Sleep 30, Event.GetJob (Atoi id).1] }) := by
  have hr : (jobStateConf client id).Refresh (w.Sleep 30) =
      (jobStatusOutcome job,
        { remote := (client.GetJob (Atoi id).1 w.remote).2
          trace := w.trace ++ [Event.Sleep 30, Event.GetJob (Atoi id).1] }) := by
    simp [jobStateConf, isJobRefreshFunc, AWX.callGetJob, World.Sleep, World.step, hread]
  have hres := jobStatusOutcome_result job
  unfold isWaitForJobComplete StateChangeConf.WaitForStateContext
  have hd : (jobStateConf client id).Delay = 30 := rfl
  rw [hd, waitLoop, hr]
  simp only [hres.1, hres.2]
  cases (jobStatusOutcome job).err with
  | some err => rfl
  | none =>
    simp only []
    split_ifs <;> first | rfl | (exfalso; simp [jobStateConf] at *)

/-- C3 fails as stated: a failed job 7 whose failure explanation is "disk full"
yields the error "failed" and the single diagnostic "Job failed" /
"Job 7 status: failed", the same diagnostics as a failed job without any
explanation; neither text contains the explanation. -/
theorem failed_job_diagnostic_drops_detail :
    (job7 "failed" "disk full").Status = JobStatusFailed ∧
    (isJobRefreshFunc scriptedRemote "7"
        (scriptedWorld [Except.ok (job7 "failed" "disk full")])).1.err =
      some (GoError.errorString "failed") ∧
    (resourceJobTemplateLaunchCreate sampleUtils scriptedRemote 10 launchMonitored
        (scriptedWorld [Except.ok (job7 "pending" ""),
          Except.ok (job7 "failed" "disk full")])).map (fun r => r.1) =
      some [{ Severity := Severity.Error, Summary := "Job failed",
              Detail := "Job 7 status: failed" }] ∧
    (resourceJobTemplateLaunchCreate sampleUtils scriptedRemote 10 launchMonitored
        (scriptedWorld [Except.ok (job7 "pending" ""),
          Except.ok (job7 "failed" "disk full")])).map (fun r => r.1) =
      (resourceJobTemplateLaunchCreate sampleUtils scriptedRemote 10 launchMonitored
        (scriptedWorld [Except.ok (job7 "pending" ""),
          Except.ok (job7 "failed" "")])).map (fun r => r.1) ∧
    stringsContains "failed" "disk full" = false ∧
    stringsContains "Job failed" "disk full" = false ∧
    stringsContains "Job 7 status: failed" "disk full" = false := by
  decide

/-- C5 fails as stated: the token "bogus" is none of the eight known tokens,
yet it is not in the Pending list, and a wait that observes it stops at once
with an unexpected-state error instead of polling on. -/
theorem unknown_status_aborts_wait :
    "bogus" ∉ [JobStatusNew, JobStatusPending, JobStatusWaiting, JobStatusRunning,
      JobStatusSuccessful, JobStatusCanceled, JobStatusError, JobStatusFailed] ∧
    (isJobRefreshFunc scriptedRemote "7"
        (scriptedWorld [Except.ok (job7 "bogus" "")])).1.err = none ∧
    "bogus" ∉ (jobStateConf scriptedRemote "7").Pending ∧
    (isWaitForJobComplete scriptedRemote "7" 10
        (scriptedWorld [Except.ok (job7 "bogus" ""), Except.ok (job7 "successful" "")])).1.2 =
      some (GoError.UnexpectedStateError "bogus"
        [JobStatusSuccessful, JobStatusCanceled, JobStatusError, JobStatusFailed]) ∧
    (isWaitForJobComplete scriptedRemote "7" 10
        (scriptedWorld [Except.ok (job7 "bogus" ""),
          Except.ok (job7 "successful" "")])).2.trace =
      [Event.Sleep 30, Event.GetJob 7] := by
  decide

/-! ## Reading a job -/

/-- C10: in `resourceJobRead`, when the status read and its single retry both
fail: if the text of the retry's error contains "404 Not Found", the id is
cleared and the diagnostics are exactly those of the id conversion; otherwise
the result is `buildDiagNotFoundFail("job", jobID, retryErr)` and the resource
data, its id included, is unchanged. Either way exactly two reads, 3 seconds
apart, were issued. -/
theorem jobRead_after_two_failed_reads {σ : Type} (u : Utils) (client : AWX σ)
    (d : ResourceData) (w : World σ) (firstErr retryErr : GoError)
    (hfirst : (client.GetJob (u.convertStateIDToNummeric "Read Job" d).1 w.remote).1 =
      Except.error firstErr)
    (hretry : (client.GetJob (u.convertStateIDToNummeric "Read Job" d).1
      (client.GetJob (u.convertStateIDToNummeric "Read Job" d).1 w.remote).2).1 =
        Except.error retryErr) :
    (stringsContains retryErr.Error "404 Not Found" = true →
      (resourceJobRead u client d w).1 = (u.convertStateIDToNummeric "Read Job" d).2 ∧
      (resourceJobRead u client d w).2.1 = d.SetId "" ∧
      (resourceJobRead u client d w).2.1.Id = "") ∧
    (stringsContains retryErr.Error "404 Not Found" = false →
      (resourceJobRead u client d w).1 =
        u.buildDiagNotFoundFail "job" (u.convertStateIDToNummeric "Read Job" d).1 retryErr ∧
      (resourceJobRead u client d w).2.1 = d) ∧
    (resourceJobRead u client d w).2.2.trace =
      w.trace ++ [Event.GetJob (u.convertStateIDToNummeric "Read Job" d).1, Event.Sleep 3,
        Event.GetJob (u.convertStateIDToNummeric "Read Job" d).1] := by
  refine ⟨?_, ?_, ?_⟩
  · intro h
    simp [resourceJobRead, AWX.callGetJob, hfirst, hretry, World.step, World.Sleep, h,
      ResourceData.SetId, ResourceData.Id]
  · intro h
    simp [resourceJobRead, AWX.callGetJob, hfirst, hretry, World.step, World.Sleep, h]
  · by_cases h : stringsContains retryErr.Error "404 Not Found" = true <;>
      simp [resourceJobRead, AWX.callGetJob, hfirst, hretry, World.step, World.Sleep, h]

/-- Witness of C10: the scripted remote has no answer left, so both reads of
job 7 fail with a 404. -/
theorem jobRead_after_two_failed_reads_witness :
    (resourceJobRead sampleUtils scriptedRemote launchedJob7 (scriptedWorld [])).1 =
      (sampleUtils.convertStateIDToNummeric "Read Job" launchedJob7).2 ∧
    (resourceJobRead sampleUtils scriptedRemote launchedJob7 (scriptedWorld [])).2.1 =
      launchedJob7.SetId "" ∧
    (resourceJobRead sampleUtils scriptedRemote launchedJob7 (scriptedWorld [])).2.1.Id = "" :=
  (jobRead_after_two_failed_reads sampleUtils scriptedRemote launchedJob7 (scriptedWorld [])
    (GoError.errorString "404 Not Found") (GoError.errorString "404 Not Found")
    rfl rfl).1 (by decide)

/-! ## Payload maps -/

theorem Params.get_set (params : Params) (key : String) (v : Value) (k : String) :
    (params.set key v).get k = if k = key then some v else params.get k := by
  induction params with
  | nil =>
    simp only [Params.set, Params.get]
    by_cases h : k = key
    · subst h; simp
    · have h2 : ¬ key = k := fun e => h e.symm
      simp [h, h2]
  | cons e rest ih =>
    obtain ⟨k0, x⟩ := e
    simp only [Params.set]
    by_cases h0 : k0 = key
    · subst h0
      simp only [if_true, Params.get]
      by_cases h : k = k0
      · subst h; simp
      · have h2 : ¬ k0 = k := fun e => h e.symm
        simp [h, h2]
    · simp only [h0, if_false, Params.get, ih]
      by_cases h : k = key
      · subst h
        simp [h0]
      · simp [h]

theorem GetOk_hasType (s : Schema) (d : ResourceData) (key : String) (ty : ValueType)
    (h : s.lookup key = some ty) : ((d.GetOk s key).1).hasType ty = true := by
  unfold ResourceData.GetOk readField
  simp only [h]
  cases hm : d.values.lookup key with
  | none => cases ty <;> rfl
  | some v =>
    by_cases hv : v.hasType ty = true
    · simp [hv]
    · simp [hv]; cases ty <;> rfl

theorem GetOk_undeclared (s : Schema) (d : ResourceData) (key : String)
    (h : s.lookup key = none) : (d.GetOk s key).2 = false := by
  unfold ResourceData.GetOk
  simp [h]

theorem Cast.apply_isSome (u : Utils) (c : Cast) (ty : ValueType) (v : Value)
    (hc : c.accepts ty = true) (hv : v.hasType ty = true) : ∃ x, c.apply u v = some x := by
  cases c <;> cases ty <;> simp [Cast.accepts] at hc <;> cases v <;>
    simp [Value.hasType] at hv <;>
    simp [Cast.apply, Value.assertString, Value.assertInt, Value.assertBool,
      Value.assertSetList]

theorem setIfOk_cases (u : Utils) (s : Schema) (d : ResourceData) (attr key : String)
    (c : Cast) (params : Params)
    (h : (match s.lookup attr with
      | none => true
      | some ty => c.accepts ty) = true) :
    ((d.GetOk s attr).2 = false ∧ setIfOk u s d attr key c params = some params) ∨
    ((d.GetOk s attr).2 = true ∧ ∃ x, c.apply u (d.GetOk s attr).1 = some x ∧
      setIfOk u s d attr key c params = some (params.set key x)) := by
  cases hok : (d.GetOk s attr).2 with
  | false => left; exact ⟨rfl, by simp [setIfOk, hok]⟩
  | true =>
    right
    refine ⟨rfl, ?_⟩
    cases hl : s.lookup attr with
    | none =>
      have := GetOk_undeclared s d attr hl
      rw [hok] at this
      exact absurd this (by decide)
    | some ty =>
      rw [hl] at h
      obtain ⟨x, hx⟩ := Cast.apply_isSome u c ty _ h (GetOk_hasType s d attr ty hl)
      exact ⟨x, hx, by simp [setIfOk, hok, hx]⟩

theorem setAllIfOk_get (u : Utils) (s : Schema) (d : ResourceData) :
    ∀ (rows : List (String × String × Cast)) (params : Params),
      rowsWellTyped s rows = true → (rows.map (fun r => r.2.1)).Nodup →
      ∃ out, setAllIfOk u s d rows params = some out ∧
        ∀ k v, out.get k = some v ↔
          (∃ attr c, (attr, k, c) ∈ rows ∧ (d.GetOk s attr).2 = true ∧
            c.apply u (d.GetOk s attr).1 = some v) ∨
          ((∀ attr c, (attr, k, c) ∈ rows → (d.GetOk s attr).2 = false) ∧
            params.get k = some v) := by
  intro rows
  induction rows with
  | nil =>
    intro params _ _
    exact ⟨params, rfl, by simp⟩
  | cons row rest ih =>
    intro params hwt hnd
    obtain ⟨a0, k0, c0⟩ := row
    simp only [rowsWellTyped, List.all_cons, Bool.and_eq_true] at hwt
    simp only [List.map_cons, List.nodup_cons, List.mem_map, not_exists, not_and] at hnd
    obtain ⟨hfresh, hnd⟩ := hnd
    have hfresh2 : ∀ attr c, (attr, k0, c) ∉ rest := fun attr c hmem =>
      hfresh (attr, k0, c) hmem rfl
    rcases setIfOk_cases u s d a0 k0 c0 params hwt.1 with ⟨hok, hset⟩ | ⟨hok, x, hx, hset⟩
    · obtain ⟨out, hout, hiff⟩ := ih params hwt.2 hnd
      refine ⟨out, by simp [setAllIfOk, hset, hout], ?_⟩
      intro k v
      rw [hiff k v]
      constructor
      · rintro (⟨attr, c, hmem, h1, h2⟩ | ⟨hall, hg⟩)
        · exact Or.inl ⟨attr, c, List.mem_cons_of_mem _ hmem, h1, h2⟩
        · refine Or.inr ⟨?_, hg⟩
          intro attr c hmem
          rcases List.mem_cons.mp hmem with heq | hmem
          · have : attr = a0 := (Prod.mk.inj heq).1
            rw [this]; exact hok
          · exact hall attr c hmem
      · rintro (⟨attr, c, hmem, h1, h2⟩ | ⟨hall, hg⟩)
        · rcases List.mem_cons.mp hmem with heq | hmem
          · have : attr = a0 := (Prod.mk.inj heq).1
            rw [this, hok] at h1
            exact absurd h1 (by decide)
          · exact Or.inl ⟨attr, c, hmem, h1, h2⟩
        · exact Or.inr ⟨fun attr c hmem => hall attr c (List.mem_cons_of_mem _ hmem), hg⟩
    · obtain ⟨out, hout, hiff⟩ := ih (params.set k0 x) hwt.2 hnd
      refine ⟨out, by simp [setAllIfOk, hset, hout], ?_⟩
      intro k v
      rw [hiff k v, Params.get_set]
      by_cases hk : k = k0
      · subst hk
        simp only [if_true]
        constructor
        · rintro (⟨attr, c, hmem, _, _⟩ | ⟨_, hg⟩)
          · exact absurd hmem (hfresh2 attr c)
          · refine Or.inl ⟨a0, c0, List.mem_cons_self _ _, hok, ?_⟩
            rw [hx]; exact hg
        · rintro (⟨attr, c, hmem, h1, h2⟩ | ⟨hall, _⟩)
          · rcases List.mem_cons.mp hmem with heq | hmem
            · have ha : attr = a0 := (Prod.mk.inj heq).1
              have hc : c = c0 := (Prod.mk.inj (Prod.mk.inj heq).2).2
              rw [ha, hc, hx] at h2
              exact Or.inr ⟨fun attr c hmem => absurd hmem (hfresh2 attr c), h2⟩
            · exact absurd hmem (hfresh2 attr c)
          · have := hall a0 c0 (List.mem_cons_self _ _)
            rw [hok] at this
            exact absurd this (by decide)
      · simp only [hk, if_false]
        have hmem_iff : ∀ attr c, (attr, k, c) ∈ (a0, k0, c0) :: rest ↔ (attr, k, c) ∈ rest := by
          intro attr c
          constructor
          · intro hmem
            rcases List.mem_cons.mp hmem with heq | hmem
            · exact absurd (Prod.mk.inj (Prod.mk.inj heq).2).1 hk
            · exact hmem
          · exact List.mem_cons_of_mem _
        simp only [hmem_iff]

theorem Cast.apply_same (u : Utils) (s : Schema) (d : ResourceData) (attr : String)
    (c : Cast)
    (h : (match s.lookup attr with
      | none => false
      | some ty => c.accepts ty && c != Cast.expandIntList && c != Cast.AtoipOr) = true) :
    c.apply u (d.GetOk s attr).1 = some (d.GetOk s attr).1 := by
  cases hl : s.lookup attr with
  | none => rw [hl] at h; simp at h
  | some ty =>
    rw [hl] at h
    have ht := GetOk_hasType s d attr ty hl
    revert ht
    generalize (d.GetOk s attr).1 = v
    intro ht
    cases c <;> cases ty <;> simp [Cast.accepts] at h <;> cases v <;>
      simp [Value.hasType] at ht <;>
      simp [Cast.apply, Value.assertString, Value.assertInt, Value.assertBool]

theorem Cast.apply_expandIntList (u : Utils) (s : Schema) (d : ResourceData) (attr : String)
    (h : s.lookup attr = some ValueType.TypeSet) :
    ∃ xs, (d.GetOk s attr).1 = Value.set xs ∧
      Cast.expandIntList.apply u (d.GetOk s attr).1 =
        some (Value.intList (u.expandIntList (xs.map Value.int))) := by
  have ht := GetOk_hasType s d attr _ h
  revert ht
  generalize (d.GetOk s attr).1 = v
  intro ht
  cases v <;> simp [Value.hasType] at ht
  exact ⟨_, rfl, rfl⟩

/-! ## The job launch: override parameters -/

/-- C6 fails as stated: `diff_mode = false` and `verbosity = 0` are set in the
configuration, yet the map passed to `Launch` holds the key `limit` only. -/
theorem zero_valued_override_not_transmitted :
    launchWithZeroOverrides.values.lookup "diff_mode" = some (Value.bool false) ∧
    launchWithZeroOverrides.values.lookup "verbosity" = some (Value.int 0) ∧
    launchParams sampleUtils launchWithZeroOverrides =
      some [("limit", Value.string "host-a")] ∧
    (resourceJobTemplateLaunchCreate sampleUtils scriptedRemote 3 launchWithZeroOverrides
        (scriptedWorld [Except.ok (job7 "pending" "")])).map (fun r => r.2.2.trace) =
      some [Event.GetJobTemplateByID 42,
        Event.Launch 42 [("limit", Value.string "host-a")], Event.GetJob 7] := by
  decide

/-! ## Updating a job template -/

theorem jobTemplateUpdateParams_eq (u : Utils) (d : ResourceData) :
    ∃ name jobType inventoryID projectID playbook,
      d.Get resourceJobTemplateSchema "name" = Value.string name ∧
      d.Get resourceJobTemplateSchema "job_type" = Value.string jobType ∧
      d.Get resourceJobTemplateSchema "inventory_id" = Value.string inventoryID ∧
      d.Get resourceJobTemplateSchema "project_id" = Value.int projectID ∧
      d.Get resourceJobTemplateSchema "playbook" = Value.string playbook ∧
      jobTemplateUpdateParams u d =
        setAllIfOk u resourceJobTemplateSchema d jobTemplateUpdateOptional
          [("name", Value.string name),
           ("job_type", Value.string jobType),
           ("inventory", Value.ofIntPtr (u.AtoipOr inventoryID none)),
           ("project", Value.int projectID),
           ("playbook", Value.string playbook)] := by
  obtain ⟨name, h1⟩ := Get_string resourceJobTemplateSchema d "name" (by decide)
  obtain ⟨jobType, h2⟩ := Get_string resourceJobTemplateSchema d "job_type" (by decide)
  obtain ⟨inventoryID, h3⟩ := Get_string resourceJobTemplateSchema d "inventory_id" (by decide)
  obtain ⟨projectID, h4⟩ := Get_int resourceJobTemplateSchema d "project_id" (by decide)
  obtain ⟨playbook, h5⟩ := Get_string resourceJobTemplateSchema d "playbook" (by decide)
  refine ⟨name, jobType, inventoryID, projectID, playbook, h1, h2, h3, h4, h5, ?_⟩
  simp [jobTemplateUpdateParams, h1, h2, h3, h4, h5, Value.assertString, Value.assertInt]

theorem jobTemplateUpdateParams_total (u : Utils) (d : ResourceData) :
    ∃ params, jobTemplateUpdateParams u d = some params := by
  obtain ⟨name, jobType, inventoryID, projectID, playbook, -, -, -, -, -, h⟩ :=
    jobTemplateUpdateParams_eq u d
  obtain ⟨params, hp, -⟩ := setAllIfOk_get u resourceJobTemplateSchema d
    jobTemplateUpdateOptional
    [("name", Value.string name),
     ("job_type", Value.string jobType),
     ("inventory", Value.ofIntPtr (u.AtoipOr inventoryID none)),
     ("project", Value.int projectID),
     ("playbook", Value.string playbook)] (by decide) (by decide)
  exact ⟨params, h.trans hp⟩

theorem resourceJobTemplateRead_trace {σ : Type} (u : Utils) (client : AWX σ)
    (d : ResourceData) (w : World σ) :
    (resourceJobTemplateRead u client d w).2.2.trace = w.trace ∨
    (resourceJobTemplateRead u client d w).2.2.trace =
      w.trace ++ [Event.GetJobTemplateByID (u.convertStateIDToNummeric "Read JobTemplate" d).1] := by
  unfold resourceJobTemplateRead
  by_cases h : (u.convertStateIDToNummeric "Read JobTemplate" d).2.HasError = true
  · left; simp [h]
  · right
    simp only [h]
    cases hr : (client.GetJobTemplateByID
        (u.convertStateIDToNummeric "Read JobTemplate" d).1 w.remote).1 <;>
      simp [AWX.callGetJobTemplateByID, World.step, hr]

theorem resourceJobTemplateUpdate_of_read {σ : Type} (u : Utils) (client : AWX σ)
    (d : ResourceData) (w : World σ) (tmpl : JobTemplate) (params : Params)
    (hconv : (u.convertStateIDToNummeric "Update JobTemplate" d).2.HasError = false)
    (hread : (client.GetJobTemplateByID (u.convertStateIDToNummeric "Update JobTemplate" d).1
      w.remote).1 = Except.ok tmpl)
    (hparams : jobTemplateUpdateParams u d = some params) :
    ∃ r, resourceJobTemplateUpdate u client d w = some r ∧
      ∃ rest, r.2.2.trace =
        w.trace ++ [Event.GetJobTemplateByID (u.convertStateIDToNummeric "Update JobTemplate" d).1,
          Event.UpdateJobTemplate (u.convertStateIDToNummeric "Update JobTemplate" d).1 params]
          ++ rest ∧
        ∀ e ∈ rest, ∃ id, e = Event.GetJobTemplateByID id := by
  obtain ⟨name, hname⟩ := Get_string resourceJobTemplateSchema d "name" (by decide)
  obtain ⟨projectID, hproj⟩ := Get_int resourceJobTemplateSchema d "project_id" (by decide)
  cases hupd : (client.UpdateJobTemplate (u.convertStateIDToNummeric "Update JobTemplate" d).1
      params (client.GetJobTemplateByID (u.convertStateIDToNummeric "Update JobTemplate" d).1
        w.remote).2).1 with
  | error err =>
    refine ⟨_, by
      simp [resourceJobTemplateUpdate, hconv, AWX.callGetJobTemplateByID, hread, hparams,
        AWX.callUpdateJobTemplate, hupd, World.step, hname, hproj, Value.assertString,
        Value.assertInt]
      rfl, [], by simp, by simp⟩
  | ok _ =>
    refine ⟨_, by
      simp [resourceJobTemplateUpdate, hconv, AWX.callGetJobTemplateByID, hread, hparams,
        AWX.callUpdateJobTemplate, hupd, World.step]
      rfl, ?_⟩
    rcases resourceJobTemplateRead_trace u client d
      { remote := (client.UpdateJobTemplate
          (u.convertStateIDToNummeric "Update JobTemplate" d).1 params
          (client.GetJobTemplateByID (u.convertStateIDToNummeric "Update JobTemplate" d).1
            w.remote).2).2
        trace := w.trace ++
          [Event.GetJobTemplateByID (u.convertStateIDToNummeric "Update JobTemplate" d).1,
            Event.UpdateJobTemplate (u.convertStateIDToNummeric "Update JobTemplate" d).1
              params] } with h | h
    · exact ⟨[], by simpa using h, by simp⟩
    · exact ⟨[Event.GetJobTemplateByID (u.convertStateIDToNummeric "Read JobTemplate" d).1],
        by simpa using h, by simp⟩

/-- C7: `resourceJobTemplateUpdate` always returns, and the first remote call
it issues, if it issues any, is `GetJobTemplateByID` of the converted id, so
no write precedes the read; when the id converts without error and that read
fails with `err`, the result is `buildDiagNotFoundFail("job template", id, err)`,
the resource data is unchanged and the read is the only remote call: no
`UpdateJobTemplate` is issued. -/
theorem jobTemplateUpdate_reads_before_writing {σ : Type} (u : Utils) (client : AWX σ)
    (d : ResourceData) (w : World σ) :
    (∃ r, resourceJobTemplateUpdate u client d w = some r ∧
      (r.2.2.trace = w.trace ∨
        ∃ rest, r.2.2.trace = w.trace ++
          Event.GetJobTemplateByID (u.convertStateIDToNummeric "Update JobTemplate" d).1 ::
            rest)) ∧
    ((u.convertStateIDToNummeric "Update JobTemplate" d).2.HasError = false →
      ∀ err,
        (client.GetJobTemplateByID (u.convertStateIDToNummeric "Update JobTemplate" d).1
          w.remote).1 = Except.error err →
        resourceJobTemplateUpdate u client d w =
          some (u.buildDiagNotFoundFail "job template"
              (u.convertStateIDToNummeric "Update JobTemplate" d).1 err, d,
            { remote := (client.GetJobTemplateByID
                (u.convertStateIDToNummeric "Update JobTemplate" d).1 w.remote).2
              trace := w.trace ++
                [Event.GetJobTemplateByID
                  (u.convertStateIDToNummeric "Update JobTemplate" d).1] })) := by
  have hfail : (u.convertStateIDToNummeric "Update JobTemplate" d).2.HasError = false →
      ∀ err,
        (client.GetJobTemplateByID (u.convertStateIDToNummeric "Update JobTemplate" d).1
          w.remote).1 = Except.error err →
        resourceJobTemplateUpdate u client d w =
          some (u.buildDiagNotFoundFail "job template"
              (u.convertStateIDToNummeric "Update JobTemplate" d).1 err, d,
            { remote := (client.GetJobTemplateByID
                (u.convertStateIDToNummeric "Update JobTemplate" d).1 w.remote).2
              trace := w.trace ++
                [Event.GetJobTemplateByID
                  (u.convertStateIDToNummeric "Update JobTemplate" d).1] }) := by
    intro hconv err hread
    simp [resourceJobTemplateUpdate, hconv, AWX.callGetJobTemplateByID, hread, World.step]
  refine ⟨?_, hfail⟩
  cases hconv : (u.convertStateIDToNummeric "Update JobTemplate" d).2.HasError with
  | true =>
    exact ⟨_, by simp [resourceJobTemplateUpdate, hconv]; rfl, Or.inl rfl⟩
  | false =>
    cases hread : (client.GetJobTemplateByID
        (u.convertStateIDToNummeric "Update JobTemplate" d).1 w.remote).1 with
    | error err => exact ⟨_, hfail hconv err hread, Or.inr ⟨[], rfl⟩⟩
    | ok tmpl =>
      obtain ⟨params, hparams⟩ := jobTemplateUpdateParams_total u d
      obtain ⟨r, hr, rest, htrace, -⟩ :=
        resourceJobTemplateUpdate_of_read u client d w tmpl params hconv hread hparams
      exact ⟨r, hr, Or.inr
        ⟨Event.UpdateJobTemplate (u.convertStateIDToNummeric "Update JobTemplate" d).1 params ::
          rest, by rw [htrace]; simp⟩⟩

/-- Witness of C7: the scripted remote has no job template 41. -/
theorem jobTemplateUpdate_reads_before_writing_witness :
    resourceJobTemplateUpdate sampleUtils scriptedRemote jobTemplateMissing (scriptedWorld []) =
      some (sampleUtils.buildDiagNotFoundFail "job template" 41
          (GoError.errorString "404 Not Found"), jobTemplateMissing,
        { remote := [], trace := [] ++ [Event.GetJobTemplateByID 41] }) :=
  (jobTemplateUpdate_reads_before_writing sampleUtils scriptedRemote jobTemplateMissing
    (scriptedWorld [])).2 (by decide) (GoError.errorString "404 Not Found") rfl

/-! ## Updating a credential -/

/-- C8: when no attribute of a credential differs from its prior value,
`resourceCredentialUpdate` builds no payload and issues no
`UpdateCredentialsByID`: it hands the untouched resource data and world
straight to the closing read. -/
theorem credentialUpdate_without_change_issues_no_update {σ : Type} (u : Utils)
    (client : AWX σ)
    (resourceCredentialSCMRead :
      ResourceData → World σ → Option (Diagnostics × ResourceData × World σ))
    (d : ResourceData) (w : World σ)
    (hsame : ∀ key, d.HasChange resourceCredentialSchema key = false) :
    resourceCredentialUpdate u client resourceCredentialSCMRead d w =
      resourceCredentialSCMRead d w := by
  have h : d.HasChanges resourceCredentialSchema
      ["name", "description", "inputs", "organisation_id"] = false := by
    simp [ResourceData.HasChanges, hsame]
  simp [resourceCredentialUpdate, h]

/-- Witness of C8: a credential whose prior state equals its desired values;
the trace of the run stays empty. -/
theorem credentialUpdate_without_change_issues_no_update_witness :
    resourceCredentialUpdate sampleUtils scriptedRemote silentRead credentialUnchanged
        (scriptedWorld []) =
      silentRead credentialUnchanged (scriptedWorld []) ∧
    (silentRead credentialUnchanged (scriptedWorld [])).map (fun r => r.2.2.trace) = some [] :=
  ⟨credentialUpdate_without_change_issues_no_update sampleUtils scriptedRemote silentRead
    credentialUnchanged (scriptedWorld [])
    (fun key => by simp [ResourceData.HasChange, credentialUnchanged]), rfl⟩

/-! ## The payload of a job template update -/

theorem no_row_of_all (rows : List (String × String × Cast)) (k : String)
    (h : rows.all (fun r => r.2.1 != k) = true) : ∀ attr c, (attr, k, c) ∉ rows := by
  intro attr c hmem
  have := List.all_eq_true.mp h _ hmem
  simp at this

/-- C9 fails as stated: for a job template whose desired values all equal the
prior ones, `resourceJobTemplateUpdate` still reads the template and calls
`UpdateJobTemplate` with the five unchanged fields `name`, `job_type`,
`inventory`, `project` and `playbook`. -/
theorem unchanged_job_template_is_still_updated :
    jobTemplateUnchanged.HasChanges resourceJobTemplateSchema
      (resourceJobTemplateSchema.map Prod.fst) = false ∧
    (resourceJobTemplateUpdate sampleUtils scriptedRemote jobTemplateUnchanged
        (scriptedWorld [])).map (fun r => r.2.2.trace) =
      some [Event.GetJobTemplateByID 42,
        Event.UpdateJobTemplate 42
          [("name", Value.string "baseconfig"), ("job_type", Value.string "run"),
           ("inventory", Value.int 1), ("project", Value.int 2),
           ("playbook", Value.string "site.yml")],
        Event.GetJobTemplateByID 42] := by
  decide

/-! ## Reads of an absent record -/

/-- C11 fails as stated: the scripted remote holds neither the job template 41
nor the credential 6; `resourceJobTemplateRead` and `resourceCredentialRead`
both return an error diagnostic and keep the resource id. -/
theorem absent_record_read_returns_error :
    (resourceJobTemplateRead sampleUtils scriptedRemote jobTemplateMissing
        (scriptedWorld [])).1.HasError = true ∧
    (resourceJobTemplateRead sampleUtils scriptedRemote jobTemplateMissing
        (scriptedWorld [])).2.1.Id = "41" ∧
    (resourceCredentialRead scriptedRemote credentialMissing (scriptedWorld [])).1 =
      [{ Severity := Severity.Error, Summary := "Unable to fetch credential",
         Detail := "Unable to credential with id 6: 404 Not Found" }] ∧
    (resourceCredentialRead scriptedRemote credentialMissing (scriptedWorld [])).2.1.Id =
      "6" := by
  decide

/-- C11, amended: when the remote read fails, whatever the reason,
`resourceJobTemplateRead` (for an id that converts) returns
`buildDiagNotFoundFail("job template", id, err)` and `resourceCredentialRead`
returns the single error diagnostic "Unable to fetch credential"; both leave
the resource data, its id included, unchanged. -/
theorem failed_read_reports_error_and_keeps_id {σ : Type} (u : Utils) (client : AWX σ)
    (d : ResourceData) (w : World σ) :
    ((u.convertStateIDToNummeric "Read JobTemplate" d).2.HasError = false →
      ∀ err,
        (client.GetJobTemplateByID (u.convertStateIDToNummeric "Read JobTemplate" d).1
          w.remote).1 = Except.error err →
        resourceJobTemplateRead u client d w =
          (u.buildDiagNotFoundFail "job template"
              (u.convertStateIDToNummeric "Read JobTemplate" d).1 err, d,
            { remote := (client.GetJobTemplateByID
                (u.convertStateIDToNummeric "Read JobTemplate" d).1 w.remote).2
              trace := w.trace ++
                [Event.GetJobTemplateByID
                  (u.convertStateIDToNummeric "Read JobTemplate" d).1] })) ∧
    (∀ err, (client.GetCredentialsByID (Atoi d.Id).1 w.remote).1 = Except.error err →
      resourceCredentialRead client d w =
        ([{ Severity := Severity.Error, Summary := "Unable to fetch credential",
            Detail := "Unable to credential with id " ++ Itoa (Atoi d.Id).1 ++ ": " ++
              err.Error }], d,
          { remote := (client.GetCredentialsByID (Atoi d.Id).1 w.remote).2
            trace := w.trace ++ [Event.GetCredentialsByID (Atoi d.Id).1] })) := by
  constructor
  · intro hconv err hread
    simp [resourceJobTemplateRead, hconv, AWX.callGetJobTemplateByID, hread, World.step]
  · intro err hread
    simp [resourceCredentialRead, AWX.callGetCredentialsByID, hread, World.step]

/-- Witness of C11 (amended): the credential 6 is not held by the scripted
remote. -/
theorem failed_read_reports_error_and_keeps_id_witness :
    resourceCredentialRead scriptedRemote credentialMissing (scriptedWorld []) =
      ([{ Severity := Severity.Error, Summary := "Unable to fetch credential",
          Detail := "Unable to credential with id " ++ Itoa (Atoi credentialMissing.Id).1 ++
            ": " ++ (GoError.errorString "404 Not Found").Error }], credentialMissing,
        { remote := (scriptedRemote.GetCredentialsByID (Atoi credentialMissing.Id).1
            (scriptedWorld []).remote).2
          trace := (scriptedWorld []).trace ++
            [Event.GetCredentialsByID (Atoi credentialMissing.Id).1] }) :=
  (failed_read_reports_error_and_keeps_id sampleUtils scriptedRemote credentialMissing
    (scriptedWorld [])).2 (GoError.errorString "404 Not Found") rfl

/-! ## Deleting a job -/

/-- C12: whatever the remote answers to the job lookup, `resourceJobDelete`
leaves the resource id empty and returns exactly the diagnostics of the id
conversion, after one `GetJob`; so the diagnostics for a job that is absent
remotely are those for a job that exists, and no error is added. -/
theorem jobDelete_clears_id_without_error {σ : Type} (u : Utils) (client : AWX σ)
    (d : ResourceData) (w : World σ) :
    (resourceJobDelete u client d w).2.1.Id = "" ∧
    (resourceJobDelete u client d w).1 = (u.convertStateIDToNummeric "Delete Job" d).2 ∧
    (resourceJobDelete u client d w).2.2.trace =
      w.trace ++ [Event.GetJob (u.convertStateIDToNummeric "Delete Job" d).1] ∧
    (∀ {τ : Type} (client2 : AWX τ) (w2 : World τ),
      (resourceJobDelete u client2 d w2).1 = (resourceJobDelete u client d w).1) := by
  have h : ∀ {τ : Type} (c : AWX τ) (v : World τ),
      (resourceJobDelete u c d v).1 = (u.convertStateIDToNummeric "Delete Job" d).2 := by
    intro τ c v
    unfold resourceJobDelete
    cases hr : (c.GetJob (u.convertStateIDToNummeric "Delete Job" d).1 v.remote).1 <;>
      simp [AWX.callGetJob, hr]
  refine ⟨?_, h client w, ?_, fun client2 w2 => (h client2 w2).trans (h client w).symm⟩
  · unfold resourceJobDelete
    cases hr : (client.GetJob (u.convertStateIDToNummeric "Delete Job" d).1 w.remote).1 <;>
      simp [AWX.callGetJob, hr, ResourceData.SetId, ResourceData.Id]
  · unfold resourceJobDelete
    cases hr : (client.GetJob (u.convertStateIDToNummeric "Delete Job" d).1 w.remote).1 <;>
      simp [AWX.callGetJob, hr, World.step]

/-! ## Identifiers that are not numbers -/

/-- C13 fails on the code: for the stored identifier "abc", which `strconv.Atoi`
rejects, `resourceCredentialRead` queries the credential 0 and reports that
read's failure, and `resourceCredentialUpdate` sends the update to the
credential 0; neither stops before the remote call. -/
theorem unparsable_credential_id_reaches_remote :
    (Atoi credentialBadId.Id).2.isSome = true ∧
    (resourceCredentialRead scriptedRemote credentialBadId (scriptedWorld [])).2.2.trace =
      [Event.GetCredentialsByID 0] ∧
    (resourceCredentialRead scriptedRemote credentialBadId (scriptedWorld [])).1 =
      [{ Severity := Severity.Error, Summary := "Unable to fetch credential",
         Detail := "Unable to credential with id 0: 404 Not Found" }] ∧
    (resourceCredentialUpdate sampleUtils scriptedRemote silentRead credentialBadId
        (scriptedWorld [])).map (fun r => (r.1, r.2.2.trace)) =
      some ([], [Event.UpdateCredentialsByID 0
        [("name", Value.string "vault"), ("description", Value.string ""),
         ("organization", Value.int 1), ("credential_type", Value.int 3),
         ("inputs", Value.string "a: 1")]]) := by
  decide

/-! ## Creating a credential -/

/-- C15 fails on the code: the scripted remote creates the credential as id 9
and then fails to read it back; `resourceCredentialCreate` issues that read but
returns no diagnostic at all, although the read by itself reports an error. -/
theorem credentialCreate_drops_read_diagnostics :
    (resourceCredentialCreate sampleUtils scriptedRemote credentialNew
        (scriptedWorld [])).map (fun r => (r.1, r.2.1.Id, r.2.2.trace)) =
      some ([], "9",
        [Event.CreateCredentials
          [("name", Value.string "vault"), ("description", Value.string ""),
           ("organisation_id", Value.int 1), ("credential_type", Value.int 3),
           ("inputs", Value.string "a: 1")],
         Event.GetCredentialsByID 9]) ∧
    (resourceCredentialRead scriptedRemote (credentialNew.SetId "9")
        (scriptedWorld [])).1 =
      [{ Severity := Severity.Error, Summary := "Unable to fetch credential",
         Detail := "Unable to credential with id 9: 404 Not Found" }] := by
  decide

/-! ## Structured text in payloads -/

theorem jobTemplateCreateParams_eq (u : Utils) (d : ResourceData) :
    ∃ name jobType inventoryID projectID playbook,
      jobTemplateCreateParams u d =
        setAllIfOk u resourceJobTemplateSchema d jobTemplateCreateOptional
          [("name", Value.string name),
           ("job_type", Value.string jobType),
           ("inventory", Value.ofIntPtr (u.AtoipOr inventoryID none)),
           ("project", Value.int projectID),
           ("playbook", Value.string playbook)] := by
  obtain ⟨name, h1⟩ := Get_string resourceJobTemplateSchema d "name" (by decide)
  obtain ⟨jobType, h2⟩ := Get_string resourceJobTemplateSchema d "job_type" (by decide)
  obtain ⟨inventoryID, h3⟩ := Get_string resourceJobTemplateSchema d "inventory_id" (by decide)
  obtain ⟨projectID, h4⟩ := Get_int resourceJobTemplateSchema d "project_id" (by decide)
  obtain ⟨playbook, h5⟩ := Get_string resourceJobTemplateSchema d "playbook" (by decide)
  refine ⟨name, jobType, inventoryID, projectID, playbook, ?_⟩
  simp [jobTemplateCreateParams, h1, h2, h3, h4, h5, Value.assertString, Value.assertInt]

theorem setAllIfOk_sends_raw (u : Utils) (s : Schema) (d : ResourceData)
    (rows : List (String × String × Cast)) (params : Params) (attr key : String)
    (hwt : rowsWellTyped s rows = true) (hnd : (rows.map (fun r => r.2.1)).Nodup)
    (hmem : (attr, key, Cast.string) ∈ rows)
    (hty : s.lookup attr = some ValueType.TypeString) :
    ∃ out, setAllIfOk u s d rows params = some out ∧
      ((d.GetOk s attr).2 = true → out.get key = some (d.GetOk s attr).1) := by
  obtain ⟨out, hout, hiff⟩ := setAllIfOk_get u s d rows params hwt hnd
  refine ⟨out, hout, fun hok => (hiff key _).mpr (Or.inl ⟨attr, Cast.string, hmem, hok, ?_⟩)⟩
  apply Cast.apply_same
  simp [hty, Cast.accepts]

/-- C14 fails as stated: with a `normalizeJsonYaml` that turns the YAML text
`a: 1` into JSON, the extra variables `a: 1` of a job launch and of a job
template (create and update) enter the payload as declared, not in the
canonical form. -/
theorem extra_vars_transmitted_as_declared :
    canonUtils.normalizeJsonYaml (Value.string "a: 1") = "\x7b\"a\":1\x7d" ∧
    launchParams canonUtils launchWithExtraVars = some [("extra_vars", Value.string "a: 1")] ∧
    (jobTemplateCreateParams canonUtils jobTemplateFull).map
      (fun p => p.get "extra_vars") = some (some (Value.string "a: 1")) ∧
    (jobTemplateUpdateParams canonUtils jobTemplateFull).map
      (fun p => p.get "extra_vars") = some (some (Value.string "a: 1")) := by
  decide

/-- C14, amended: the `inputs` of a credential enter the create and the update
payload as `normalizeJsonYaml` of the declared value; the `extra_vars` of a job
template (create and update) and of a job launch enter the payload, when set
to a non-empty text, as the declared value itself. -/
theorem payload_structured_text (u : Utils) (d : ResourceData) :
    (∃ p, newCredential u d = some p ∧
      p.get "inputs" =
        some (Value.string (u.normalizeJsonYaml (d.Get resourceCredentialSchema "inputs")))) ∧
    (∃ p, updatedCredential u d = some p ∧
      p.get "inputs" =
        some (Value.string (u.normalizeJsonYaml (d.Get resourceCredentialSchema "inputs")))) ∧
    (∃ p, jobTemplateCreateParams u d = some p ∧
      ((d.GetOk resourceJobTemplateSchema "extra_vars").2 = true →
        p.get "extra_vars" = some (d.GetOk resourceJobTemplateSchema "extra_vars").1)) ∧
    (∃ p, jobTemplateUpdateParams u d = some p ∧
      ((d.GetOk resourceJobTemplateSchema "extra_vars").2 = true →
        p.get "extra_vars" = some (d.GetOk resourceJobTemplateSchema "extra_vars").1)) ∧
    (∃ p, launchParams u d = some p ∧
      ((d.GetOk resourceJobTemplateLaunchSchema "extra_vars").2 = true →
        p.get "extra_vars" =
          some (d.GetOk resourceJobTemplateLaunchSchema "extra_vars").1)) := by
  obtain ⟨name, h1⟩ := Get_string resourceCredentialSchema d "name" (by decide)
  obtain ⟨descr, h2⟩ := Get_string resourceCredentialSchema d "description" (by decide)
  obtain ⟨org, h3⟩ := Get_int resourceCredentialSchema d "organisation_id" (by decide)
  refine ⟨⟨_, by
      simp [newCredential, h1, h2, h3, Value.assertString, Value.assertInt]
      rfl, by simp [Params.get]⟩,
    ⟨_, by
      simp [updatedCredential, h1, h2, h3, Value.assertString, Value.assertInt]
      rfl, by simp [Params.get]⟩, ?_, ?_, ?_⟩
  · obtain ⟨name, jobType, inventoryID, projectID, playbook, heq⟩ :=
      jobTemplateCreateParams_eq u d
    rw [heq]
    exact setAllIfOk_sends_raw u resourceJobTemplateSchema d jobTemplateCreateOptional _
      "extra_vars" "extra_vars" (by decide) (by decide) (by decide) (by decide)
  · obtain ⟨name, jobType, inventoryID, projectID, playbook, -, -, -, -, -, heq⟩ :=
      jobTemplateUpdateParams_eq u d
    rw [heq]
    exact setAllIfOk_sends_raw u resourceJobTemplateSchema d jobTemplateUpdateOptional _
      "extra_vars" "extra_vars" (by decide) (by decide) (by decide) (by decide)
  · exact setAllIfOk_sends_raw u resourceJobTemplateLaunchSchema d launchOverrides []
      "extra_vars" "extra_vars" (by decide) (by decide) (by decide) (by decide)

/-- Witness of C14 (amended): the launch with the extra variables `a: 1`. -/
theorem payload_structured_text_witness :
    ∃ p, launchParams canonUtils launchWithExtraVars = some p ∧
      p.get "extra_vars" = some (Value.string "a: 1") := by
  obtain ⟨p, hp, h⟩ := (payload_structured_text canonUtils launchWithExtraVars).2.2.2.2
  exact ⟨p, hp, h (by decide)⟩

/-! ## The job launch: monitoring and the failure branch -/

/-- C17 fails on the code: the schema of `resourceJobTemplateLaunch` declares
neither `name` nor `project_id`, so `d.Get` yields nil for them, and whenever
the template lookup succeeds and `Launch` fails, the type assertion
`d.Get("name").(string)` of the failure branch panics:
`resourceJobTemplateLaunchCreate` returns no diagnostic. -/
theorem launchCreate_panics_when_launch_fails {σ : Type} (u : Utils) (client : AWX σ)
    (fuel : Nat) (d : ResourceData) (w : World σ) (tid : Int) (tmpl : JobTemplate)
    (params : Params) (err : GoError)
    (hid : d.Get resourceJobTemplateLaunchSchema "job_template_id" = Value.int tid)
    (htmpl : (client.GetJobTemplateByID tid w.remote).1 = Except.ok tmpl)
    (hparams : launchParams u d = some params)
    (hlaunch : (client.Launch tid params (client.GetJobTemplateByID tid w.remote).2).1 =
      Except.error err) :
    resourceJobTemplateLaunchSchema.lookup "name" = none ∧
    resourceJobTemplateLaunchSchema.lookup "project_id" = none ∧
    d.Get resourceJobTemplateLaunchSchema "name" = Value.nil ∧
    resourceJobTemplateLaunchCreate u client fuel d w = none := by
  have hname : d.Get resourceJobTemplateLaunchSchema "name" = Value.nil := by
    have hl : resourceJobTemplateLaunchSchema.lookup "name" = none := by decide
    simp [ResourceData.Get, readOrZero, hl]
  refine ⟨by decide, by decide, hname, ?_⟩
  simp [resourceJobTemplateLaunchCreate, hid, Value.assertInt, AWX.callGetJobTemplateByID,
    htmpl, hparams, AWX.callLaunch, hlaunch, World.step, hname, Value.assertString]

/-- Failing input of C17: the job template 42 exists and the remote refuses the
launch. -/
theorem launchCreate_panics_when_launch_fails_witness :
    resourceJobTemplateLaunchCreate sampleUtils launchRefusingRemote 3 launchMonitored
      (scriptedWorld []) = none :=
  (launchCreate_panics_when_launch_fails sampleUtils launchRefusingRemote 3 launchMonitored
    (scriptedWorld []) 42 (JobTemplate.unset 42) [("limit", Value.string "host-a")]
    (GoError.errorString "400 Bad Request") (by decide) rfl (by decide) rfl).2.2.2

/-! ## The data sources: an empty result list -/

/-- C18 fails on the code: the three data source reads guard the index `[0]`
against more than one result only. Whenever a selector is set and the list
call returns the empty list, the index expression panics and the read returns
no diagnostic. -/
theorem dataSource_read_panics_on_empty_list {σ : Type}
    (buildDiagnosticsMessage : String → String → List Value → Diagnostics)
    (client : AWX σ) (d : ResourceData) (w : World σ) :
    (∀ params, selectorParams dataSourceCredentialSchema d = some params →
      params.length ≠ 0 → (client.ListCredentials params w.remote).1 = Except.ok [] →
      dataSourceCredentialRead buildDiagnosticsMessage client d w = none) ∧
    (∀ params, selectorParams dataSourceCredentialTypeSchema d = some params →
      params.length ≠ 0 → (client.ListCredentialTypes params w.remote).1 = Except.ok [] →
      dataSourceCredentialTypeRead buildDiagnosticsMessage client d w = none) ∧
    (∀ params, selectorParams dataSourceExecutionEnvironmentSchema d = some params →
      params.length ≠ 0 →
      (client.ListExecutionEnvironments params w.remote).1 = Except.ok [] →
      dataSourceExecutionEnvironmentsRead buildDiagnosticsMessage client d w = none) := by
  refine ⟨?_, ?_, ?_⟩
  · intro params hp hlen hlist
    have hne : ¬ params = [] := fun h => hlen (by rw [h]; rfl)
    simp [hne, dataSourceCredentialRead, hp, hlen, AWX.callListCredentials, hlist, indexFirst]
  · intro params hp hlen hlist
    have hne : ¬ params = [] := fun h => hlen (by rw [h]; rfl)
    simp [hne, dataSourceCredentialTypeRead, hp, hlen, AWX.callListCredentialTypes, hlist,
      indexFirst]
  · intro params hp hlen hlist
    have hne : ¬ params = [] := fun h => hlen (by rw [h]; rfl)
    simp [hne, dataSourceExecutionEnvironmentsRead, hp, hlen, AWX.callListExecutionEnvironments,
      hlist, indexFirst]

/-- Failing input of C18: a query by the name "nobody", which matches no record
of the scripted remote. -/
theorem dataSource_read_panics_on_empty_list_witness :
    dataSourceCredentialRead sampleDiagnosticsMessage scriptedRemote selectUnknownName
      (scriptedWorld []) = none ∧
    dataSourceCredentialTypeRead sampleDiagnosticsMessage scriptedRemote selectUnknownName
      (scriptedWorld []) = none ∧
    dataSourceExecutionEnvironmentsRead sampleDiagnosticsMessage scriptedRemote
      selectUnknownName (scriptedWorld []) = none :=
  have h := dataSource_read_panics_on_empty_list sampleDiagnosticsMessage scriptedRemote
    selectUnknownName (scriptedWorld [])
  ⟨h.1 [("name", "nobody")] (by decide) (by decide) rfl,
    h.2.1 [("name", "nobody")] (by decide) (by decide) rfl,
    h.2.2 [("name", "nobody")] (by decide) (by decide) rfl⟩

/-! ## Create and update payloads -/

/-- C19 fails on the code: for one and the same attribute snapshot, the job
template credential goes under the key `credential` on create and under
`credential_id` on update, and the organisation of a credential goes under
`organisation_id` on create and under `organization` on update. -/
theorem create_and_update_payload_keys_differ :
    (jobTemplateCreateParams sampleUtils jobTemplateFull).map
      (fun p => (p.get "credential", p.get "credential_id")) =
      some (some (Value.int 5), none) ∧
    (jobTemplateUpdateParams sampleUtils jobTemplateFull).map
      (fun p => (p.get "credential", p.get "credential_id")) =
      some (none, some (Value.int 5)) ∧
    (newCredential sampleUtils credentialNew).map
      (fun p => (p.get "organisation_id", p.get "organization")) =
      some (some (Value.int 1), none) ∧
    (updatedCredential sampleUtils credentialNew).map
      (fun p => (p.get "organisation_id", p.get "organization")) =
      some (none, some (Value.int 1)) := by
  decide

/-! ## Attribute names of the job template resource -/

/-- C20 fails on the code: create and update read `ask_job_slice_on_launch`,
which the schema does not declare, so the declared flag
`ask_job_slice_count_on_launch` is never transmitted; and
`setJobTemplateResourceData` writes `ask_inventory_groups_on_launch`, which
the schema does not declare, so the declared flag
`ask_instance_groups_on_launch` is not refreshed from the remote record
(while `ask_job_slice_count_on_launch` is). -/
theorem job_template_attribute_names_mismatch :
    jobTemplateCreateOptional.any (fun r => r.1 == "ask_job_slice_on_launch") = true ∧
    jobTemplateUpdateOptional.any (fun r => r.1 == "ask_job_slice_on_launch") = true ∧
    resourceJobTemplateSchema.lookup "ask_job_slice_on_launch" = none ∧
    resourceJobTemplateSchema.lookup "ask_job_slice_count_on_launch" =
      some ValueType.TypeBool ∧
    jobTemplateFull.Get resourceJobTemplateSchema "ask_job_slice_count_on_launch" =
      Value.bool true ∧
    (jobTemplateCreateParams sampleUtils jobTemplateFull).map
      (fun p => (p.get "ask_job_slice_count_on_launch", p.get "ask_job_slice_on_launch")) =
      some (none, none) ∧
    (jobTemplateUpdateParams sampleUtils jobTemplateFull).map
      (fun p => (p.get "ask_job_slice_count_on_launch", p.get "ask_job_slice_on_launch")) =
      some (none, none) ∧
    resourceJobTemplateSchema.lookup "ask_inventory_groups_on_launch" = none ∧
    resourceJobTemplateSchema.lookup "ask_instance_groups_on_launch" =
      some ValueType.TypeBool ∧
    remoteTemplateWithPrompts.AskInstanceGroupsOnLaunch = Value.bool true ∧
    (setJobTemplateResourceData sampleUtils jobTemplateUnchanged
      remoteTemplateWithPrompts).Get resourceJobTemplateSchema
        "ask_instance_groups_on_launch" = Value.bool false ∧
    (setJobTemplateResourceData sampleUtils jobTemplateUnchanged
      remoteTemplateWithPrompts).Get resourceJobTemplateSchema
        "ask_job_slice_count_on_launch" = Value.bool true := by
  decide

/-! ## The wait, read by read -/

theorem isJobRefreshFunc_of_result {σ : Type} (client : AWX σ) (id : String) (w : World σ)
    (job : Job) (h : (isJobRefreshFunc client id w).1.result = some job) :
    (isJobRefreshFunc client id w).1 = jobStatusOutcome job := by
  unfold isJobRefreshFunc at h ⊢
  cases h1 : (client.GetJob (Atoi id).1 w.remote).1 with
  | ok j =>
    simp only [AWX.callGetJob, h1] at h ⊢
    rw [(jobStatusOutcome_result j).1] at h
    cases h
    rfl
  | error e =>
    simp only [AWX.callGetJob, h1, World.Sleep, World.step] at h ⊢
    cases h2 : (client.GetJob (Atoi id).1 (client.GetJob (Atoi id).1 w.remote).2).1 with
    | ok j =>
      simp only [h2] at h ⊢
      rw [(jobStatusOutcome_result j).1] at h
      cases h
      rfl
    | error e2 =>
      simp only [h2] at h
      cases h

theorem isJobRefreshFunc_trace {σ : Type} (client : AWX σ) (id : String) (w : World σ) :
    ∃ rest, (isJobRefreshFunc client id w).2.trace =
      w.trace ++ Event.GetJob (Atoi id).1 :: rest := by
  cases h1 : (client.GetJob (Atoi id).1 w.remote).1 with
  | ok job => exact ⟨[], by simp [isJobRefreshFunc, AWX.callGetJob, h1, World.step]⟩
  | error e =>
    refine ⟨[Event.Sleep 5, Event.GetJob (Atoi id).1], ?_⟩
    cases h2 : (client.GetJob (Atoi id).1 (client.GetJob (Atoi id).1 w.remote).2).1 <;>
      simp [isJobRefreshFunc, AWX.callGetJob, h1, h2, World.step, World.Sleep]

theorem waitLoop_step {σ : Type} (client : AWX σ) (id : String) (fuel tick : Nat)
    (last : String) (w : World σ) (job : Job)
    (h : (isJobRefreshFunc client id w).1.result = some job) :
    waitLoop (jobStateConf client id) (fuel + 1) tick last w =
      match (jobStatusOutcome job).err with
      | some err => ((some job, some err), (isJobRefreshFunc client id w).2)
      | none =>
        if (jobStateConf client id).Target.contains job.Status then
          ((some job, none), (isJobRefreshFunc client id w).2)
        else if (jobStateConf client id).Pending.contains job.Status then
          waitLoop (jobStateConf client id) fuel 0 job.Status (isJobRefreshFunc client id w).2
        else
          ((some job, some (GoError.UnexpectedStateError job.Status
              (jobStateConf client id).Target)), (isJobRefreshFunc client id w).2) := by
  have hout := isJobRefreshFunc_of_result client id w job h
  have hres := jobStatusOutcome_result job
  have hr : (jobStateConf client id).Refresh w = isJobRefreshFunc client id w := rfl
  rw [waitLoop, hr, hout]
  simp only [hres.1, hres.2]
  cases (jobStatusOutcome job).err with
  | some err => rfl
  | none =>
    simp only []
    split_ifs <;> first | rfl | (exfalso; simp [jobStateConf] at *)

theorem waitLoop_step_nonTerminal {σ : Type} (client : AWX σ) (id : String)
    (fuel tick : Nat) (last : String) (w : World σ)
    (h : observesNonTerminal client id w = true) :
    ∃ state, waitLoop (jobStateConf client id) (fuel + 1) tick last w =
      waitLoop (jobStateConf client id) fuel 0 state (isJobRefreshFunc client id w).2 := by
  unfold observesNonTerminal at h
  cases hres : (isJobRefreshFunc client id w).1.result with
  | none => rw [hres] at h; simp at h
  | some job =>
    rw [hres] at h
    have hmem : job.Status ∈
        [JobStatusNew, JobStatusPending, JobStatusWaiting, JobStatusRunning] := by
      simpa using h
    simp only [List.mem_cons, List.mem_singleton, List.not_mem_nil, or_false] at hmem
    have herr : (jobStatusOutcome job).err = none := by
      rw [jobStatusOutcome_err]
      rcases hmem with e | e | e | e <;> rw [e] <;> decide
    have ht : (jobStateConf client id).Target.contains job.Status = false := by
      show [JobStatusSuccessful, JobStatusCanceled, JobStatusError,
        JobStatusFailed].contains job.Status = false
      rcases hmem with e | e | e | e <;> rw [e] <;> decide
    have hp : (jobStateConf client id).Pending.contains job.Status = true := by
      show [JobStatusNew, JobStatusPending, JobStatusWaiting,
        JobStatusRunning].contains job.Status = true
      rcases hmem with e | e | e | e <;> rw [e] <;> decide
    refine ⟨job.Status, ?_⟩
    rw [waitLoop_step client id fuel tick last w job hres, herr]
    simp only [ht, hp, Bool.false_eq_true, if_false, if_true]

theorem waitLoop_after_nonTerminal {σ : Type} (client : AWX σ) (id : String) (fuel : Nat) :
    ∀ (n tick : Nat) (last : String) (w : World σ),
      (∀ i, i < n →
        observesNonTerminal client id (afterRefreshes (isJobRefreshFunc client id) i w) = true) →
      ∃ tick2 last2, waitLoop (jobStateConf client id) (n + fuel) tick last w =
        waitLoop (jobStateConf client id) fuel tick2 last2
          (afterRefreshes (isJobRefreshFunc client id) n w) := by
  intro n
  induction n with
  | zero =>
    intro tick last w _
    exact ⟨tick, last, by simp [afterRefreshes]⟩
  | succ n ih =>
    intro tick last w h
    obtain ⟨state, hstep⟩ := waitLoop_step_nonTerminal client id (n + fuel) tick last w
      (h 0 (Nat.succ_pos n))
    obtain ⟨tick2, last2, hrest⟩ := ih 0 state (isJobRefreshFunc client id w).2
      (fun i hi => h (i + 1) (Nat.succ_lt_succ hi))
    refine ⟨tick2, last2, ?_⟩
    have harith : n + 1 + fuel = n + fuel + 1 := by omega
    rw [harith, hstep, hrest]
    rfl

theorem isWaitForJobComplete_after_nonTerminal {σ : Type} (client : AWX σ) (id : String)
    (n fuel : Nat) (w : World σ) (job : Job)
    (hpending : ∀ i, i < n →
      observesNonTerminal client id
        (afterRefreshes (isJobRefreshFunc client id) i (w.Sleep 30)) = true)
    (hobserved : (isJobRefreshFunc client id
      (afterRefreshes (isJobRefreshFunc client id) n (w.Sleep 30))).1.result = some job) :
    isWaitForJobComplete client id (n + (fuel + 1)) w =
      match (jobStatusOutcome job).err with
      | some err =>
        ((some job, some err),
          (isJobRefreshFunc client id
            (afterRefreshes (isJobRefreshFunc client id) n (w.Sleep 30))).2)
      | none =>
        if (jobStateConf client id).Target.contains job.Status then
          ((some job, none),
            (isJobRefreshFunc client id
              (afterRefreshes (isJobRefreshFunc client id) n (w.Sleep 30))).2)
        else if (jobStateConf client id).Pending.contains job.Status then
          waitLoop (jobStateConf client id) fuel 0 job.Status
            (isJobRefreshFunc client id
              (afterRefreshes (isJobRefreshFunc client id) n (w.Sleep 30))).2
        else
          ((some job, some (GoError.UnexpectedStateError job.Status
              (jobStateConf client id).Target)),
            (isJobRefreshFunc client id
              (afterRefreshes (isJobRefreshFunc client id) n (w.Sleep 30))).2) := by
  obtain ⟨tick2, last2, h⟩ :=
    waitLoop_after_nonTerminal client id (fuel + 1) n 0 "" (w.Sleep 30) hpending
  unfold isWaitForJobComplete StateChangeConf.WaitForStateContext
  have hd : (jobStateConf client id).Delay = 30 := rfl
  rw [hd, h, waitLoop_step client id fuel tick2 last2 _ job hobserved]

theorem launchCreate_monitored {σ : Type} (u : Utils) (client : AWX σ)
    (fuel : Nat) (d : ResourceData) (w : World σ) (tid : Int) (tmpl : JobTemplate)
    (params : Params) (res : JobLaunch)
    (hid : d.Get resourceJobTemplateLaunchSchema "job_template_id" = Value.int tid)
    (htmpl : (client.GetJobTemplateByID tid w.remote).1 = Except.ok tmpl)
    (hparams : launchParams u d = some params)
    (hlaunch : (client.Launch tid params (client.GetJobTemplateByID tid w.remote).2).1 =
      Except.ok res)
    (hmon : d.Get resourceJobTemplateLaunchSchema "monitor_for_completion" = Value.bool true) :
    resourceJobTemplateLaunchCreate u client fuel d w =
      match (isWaitForJobComplete client (Itoa res.ID) fuel
          (worldAfterLaunch client tid params w)).1.2 with
      | some err =>
        some ([{ Severity := Severity.Error
                 Summary := "Job " ++ err.Error
                 Detail := "Job " ++ Itoa res.ID ++ " status: " ++ err.Error }],
          d.SetId (Itoa res.ID),
          (isWaitForJobComplete client (Itoa res.ID) fuel
            (worldAfterLaunch client tid params w)).2)
      | none =>
        some (resourceJobRead u client (d.SetId (Itoa res.ID))
          (isWaitForJobComplete client (Itoa res.ID) fuel
            (worldAfterLaunch client tid params w)).2) := by
  simp [resourceJobTemplateLaunchCreate, hid, Value.assertInt, AWX.callGetJobTemplateByID,
    htmpl, hparams, AWX.callLaunch, hlaunch, World.step, SetId_Get, hmon, Value.assertBool,
    worldAfterLaunch]

/-- C3, amended: at whichever status read of a monitored launch the wait
observes a job with status `Failed` (respectively `Error`), after any number
of reads of non-terminal statuses, the refresh outcome holds the job record,
its status and the fixed error "failed" (respectively "error"), and
`resourceJobTemplateLaunchCreate` returns exactly one error diagnostic whose
summary is "Job failed" ("Job error") and whose detail is
"Job <id> status: failed" ("... error"), with <id> the ID of the launched job;
the resource id is that ID and no status is read after the observation. -/
theorem launchCreate_failed_job_diagnostic {σ : Type} (u : Utils) (client : AWX σ)
    (n fuel : Nat) (d : ResourceData) (w : World σ) (tid : Int) (tmpl : JobTemplate)
    (params : Params) (res : JobLaunch) (job : Job)
    (hid : d.Get resourceJobTemplateLaunchSchema "job_template_id" = Value.int tid)
    (htmpl : (client.GetJobTemplateByID tid w.remote).1 = Except.ok tmpl)
    (hparams : launchParams u d = some params)
    (hlaunch : (client.Launch tid params (client.GetJobTemplateByID tid w.remote).2).1 =
      Except.ok res)
    (hmon : d.Get resourceJobTemplateLaunchSchema "monitor_for_completion" = Value.bool true)
    (hpending : ∀ i, i < n →
      observesNonTerminal client (Itoa res.ID)
        (afterRefreshes (isJobRefreshFunc client (Itoa res.ID)) i
          ((worldAfterLaunch client tid params w).Sleep 30)) = true)
    (hobserved : (isJobRefreshFunc client (Itoa res.ID)
      (afterRefreshes (isJobRefreshFunc client (Itoa res.ID)) n
        ((worldAfterLaunch client tid params w).Sleep 30))).1.result = some job) :
    (job.Status = JobStatusFailed →
      (isJobRefreshFunc client (Itoa res.ID)
        (afterRefreshes (isJobRefreshFunc client (Itoa res.ID)) n
          ((worldAfterLaunch client tid params w).Sleep 30))).1 =
        { result := some job, state := job.Status,
          err := some (GoError.errorString "failed") } ∧
      resourceJobTemplateLaunchCreate u client (n + (fuel + 1)) d w =
        some ([{ Severity := Severity.Error, Summary := "Job failed",
                 Detail := "Job " ++ Itoa res.ID ++ " status: failed" }],
          d.SetId (Itoa res.ID),
          (isJobRefreshFunc client (Itoa res.ID)
            (afterRefreshes (isJobRefreshFunc client (Itoa res.ID)) n
              ((worldAfterLaunch client tid params w).Sleep 30))).2)) ∧
    (job.Status = JobStatusError →
      (isJobRefreshFunc client (Itoa res.ID)
        (afterRefreshes (isJobRefreshFunc client (Itoa res.ID)) n
          ((worldAfterLaunch client tid params w).Sleep 30))).1 =
        { result := some job, state := job.Status,
          err := some (GoError.errorString "error") } ∧
      resourceJobTemplateLaunchCreate u client (n + (fuel + 1)) d w =
        some ([{ Severity := Severity.Error, Summary := "Job error",
                 Detail := "Job " ++ Itoa res.ID ++ " status: error" }],
          d.SetId (Itoa res.ID),
          (isJobRefreshFunc client (Itoa res.ID)
            (afterRefreshes (isJobRefreshFunc client (Itoa res.ID)) n
              ((worldAfterLaunch client tid params w).Sleep 30))).2)) := by
  have hout := isJobRefreshFunc_of_result client (Itoa res.ID) _ job hobserved
  have hwait := isWaitForJobComplete_after_nonTerminal client (Itoa res.ID) n fuel
    (worldAfterLaunch client tid params w) job hpending hobserved
  have hcreate := launchCreate_monitored u client (n + (fuel + 1)) d w tid tmpl params res
    hid htmpl hparams hlaunch hmon
  have hres := jobStatusOutcome_result job
  constructor
  · intro hs
    have herr : (jobStatusOutcome job).err = some (GoError.errorString "failed") := by
      rw [jobStatusOutcome_err, hs]; decide
    refine ⟨?_, ?_⟩
    · rw [hout]
      cases hj : jobStatusOutcome job with
      | mk r st e => rw [hj] at hres herr; simp at hres herr; simp [hres.1, hres.2, herr]
    · rw [herr] at hwait
      rw [hcreate, hwait]
      simp only [GoError.Error]
      rw [String.append_assoc ("Job " ++ Itoa res.ID)]
      rfl
  · intro hs
    have herr : (jobStatusOutcome job).err = some (GoError.errorString "error") := by
      rw [jobStatusOutcome_err, hs]; decide
    refine ⟨?_, ?_⟩
    · rw [hout]
      cases hj : jobStatusOutcome job with
      | mk r st e => rw [hj] at hres herr; simp at hres herr; simp [hres.1, hres.2, herr]
    · rw [herr] at hwait
      rw [hcreate, hwait]
      simp only [GoError.Error]
      rw [String.append_assoc ("Job " ++ Itoa res.ID)]
      rfl

/-- Witness of C3 (amended): the scripted remote reports the launched job 7 as
pending at the first status read and as failed at the second. -/
theorem launchCreate_failed_job_diagnostic_witness :
    resourceJobTemplateLaunchCreate sampleUtils scriptedRemote (1 + (0 + 1)) launchMonitored
        (scriptedWorld [Except.ok (job7 "pending" ""),
          Except.ok (job7 "failed" "disk full")]) =
      some ([{ Severity := Severity.Error, Summary := "Job failed",
               Detail := "Job " ++ Itoa 7 ++ " status: failed" }],
        launchMonitored.SetId (Itoa 7),
        (isJobRefreshFunc scriptedRemote (Itoa 7)
          (afterRefreshes (isJobRefreshFunc scriptedRemote (Itoa 7)) 1
            ((worldAfterLaunch scriptedRemote 42 [("limit", Value.string "host-a")]
              (scriptedWorld [Except.ok (job7 "pending" ""),
                Except.ok (job7 "failed" "disk full")])).Sleep 30))).2) :=
  ((launchCreate_failed_job_diagnostic sampleUtils scriptedRemote 1 0 launchMonitored
    (scriptedWorld [Except.ok (job7 "pending" ""), Except.ok (job7 "failed" "disk full")])
    42 (JobTemplate.unset 42) [("limit", Value.string "host-a")] { ID := 7 }
    (job7 "failed" "disk full") (by decide) rfl (by decide) rfl (by decide)
    (fun i hi => by
      have h0 : i = 0 := by omega
      subst h0
      decide)
    (by decide)).1 rfl).2

/-- C5, amended: at whichever status read of the wait the refresh function
observes a status token that is none of the eight known tokens, after any
number of reads of non-terminal statuses, it returns the job, the token as
state and no error; the token is in neither the Pending nor the Target list of
`isWaitForJobComplete`, and the wait ends at that read with the SDK's
unexpected-state error, without reading the status again. The same holds for
the refresh loop entered in any state of its counters. -/
theorem unknown_status_is_unexpected_state {σ : Type} (client : AWX σ) (id : String)
    (n fuel : Nat) (w : World σ) (job : Job)
    (hpending : ∀ i, i < n →
      observesNonTerminal client id
        (afterRefreshes (isJobRefreshFunc client id) i (w.Sleep 30)) = true)
    (hobserved : (isJobRefreshFunc client id
      (afterRefreshes (isJobRefreshFunc client id) n (w.Sleep 30))).1.result = some job)
    (hunknown : job.Status ∉ [JobStatusNew, JobStatusPending, JobStatusWaiting,
      JobStatusRunning, JobStatusSuccessful, JobStatusCanceled, JobStatusError,
      JobStatusFailed]) :
    (isJobRefreshFunc client id
      (afterRefreshes (isJobRefreshFunc client id) n (w.Sleep 30))).1 =
      { result := some job, state := job.Status, err := none } ∧
    job.Status ∉ (jobStateConf client id).Pending ∧
    job.Status ∉ (jobStateConf client id).Target ∧
    isWaitForJobComplete client id (n + (fuel + 1)) w =
      ((some job, some (GoError.UnexpectedStateError job.Status
          [JobStatusSuccessful, JobStatusCanceled, JobStatusError, JobStatusFailed])),
        (isJobRefreshFunc client id
          (afterRefreshes (isJobRefreshFunc client id) n (w.Sleep 30))).2) ∧
    (∀ (tick : Nat) (last : String) (v : World σ),
      (isJobRefreshFunc client id v).1.result = some job →
      waitLoop (jobStateConf client id) (fuel + 1) tick last v =
        ((some job, some (GoError.UnexpectedStateError job.Status
            [JobStatusSuccessful, JobStatusCanceled, JobStatusError, JobStatusFailed])),
          (isJobRefreshFunc client id v).2)) := by
  simp only [List.mem_cons, List.mem_singleton, List.not_mem_nil, or_false, not_or] at hunknown
  obtain ⟨h1, h2, h3, h4, h5, h6, h7, h8⟩ := hunknown
  have herr : (jobStatusOutcome job).err = none := by
    rw [jobStatusOutcome_err]; simp [h5, h6, h7, h8]
  have hp : job.Status ∉ (jobStateConf client id).Pending := by
    simp [jobStateConf, h1, h2, h3, h4]
  have ht : job.Status ∉ (jobStateConf client id).Target := by
    simp [jobStateConf, h5, h6, h7, h8]
  have hp2 : ¬ ((jobStateConf client id).Pending.contains job.Status = true) := by
    simpa using hp
  have ht2 : ¬ ((jobStateConf client id).Target.contains job.Status = true) := by
    simpa using ht
  refine ⟨?_, hp, ht, ?_, ?_⟩
  · rw [isJobRefreshFunc_of_result client id _ job hobserved]
    have h := jobStatusOutcome_result job
    cases hj : jobStatusOutcome job with
    | mk r st e => rw [hj] at h herr; simp at h herr; simp [h.1, h.2, herr]
  · rw [isWaitForJobComplete_after_nonTerminal client id n fuel w job hpending hobserved, herr]
    dsimp only
    rw [if_neg ht2, if_neg hp2]
    rfl
  · intro tick last v hv
    rw [waitLoop_step client id fuel tick last v job hv, herr]
    dsimp only
    rw [if_neg ht2, if_neg hp2]
    rfl

/-- Witness of C5 (amended): the scripted remote reports the job 7 as pending
at the first status read and with the status "bogus" at the second. -/
theorem unknown_status_is_unexpected_state_witness :
    isWaitForJobComplete scriptedRemote "7" (1 + (0 + 1))
        (scriptedWorld [Except.ok (job7 "pending" ""), Except.ok (job7 "bogus" "")]) =
      ((some (job7 "bogus" ""), some (GoError.UnexpectedStateError (job7 "bogus" "").Status
          [JobStatusSuccessful, JobStatusCanceled, JobStatusError, JobStatusFailed])),
        (isJobRefreshFunc scriptedRemote "7"
          (afterRefreshes (isJobRefreshFunc scriptedRemote "7") 1
            ((scriptedWorld [Except.ok (job7 "pending" ""),
              Except.ok (job7 "bogus" "")]).Sleep 30))).2) ∧
    (isJobRefreshFunc scriptedRemote "7"
      (afterRefreshes (isJobRefreshFunc scriptedRemote "7") 1
        ((scriptedWorld [Except.ok (job7 "pending" ""),
          Except.ok (job7 "bogus" "")]).Sleep 30))).2.trace =
      [Event.Sleep 30, Event.GetJob 7, Event.GetJob 7] :=
  ⟨(unknown_status_is_unexpected_state scriptedRemote "7" 1 0
    (scriptedWorld [Except.ok (job7 "pending" ""), Except.ok (job7 "bogus" "")])
    (job7 "bogus" "")
    (fun i hi => by
      have h0 : i = 0 := by omega
      subst h0
      decide)
    (by decide) (by decide)).2.2.2.1, by decide⟩

/-! ## The job launch: monitoring -/

theorem waitLoop_trace {σ : Type} (client : AWX σ) (id : String) :
    ∀ (fuel tick : Nat) (last : String) (w : World σ),
      ∃ rest, (waitLoop (jobStateConf client id) fuel tick last w).2.trace = w.trace ++ rest ∧
        (0 < fuel → ∃ rest2, rest = Event.GetJob (Atoi id).1 :: rest2) := by
  intro fuel
  induction fuel with
  | zero =>
    intro tick last w
    exact ⟨[], by simp [waitLoop], fun h => absurd h (by decide)⟩
  | succ f ih =>
    intro tick last w
    obtain ⟨rest1, h1⟩ := isJobRefreshFunc_trace client id w
    have hr : (jobStateConf client id).Refresh w = isJobRefreshFunc client id w := rfl
    have key : (waitLoop (jobStateConf client id) (f + 1) tick last w).2 =
          (isJobRefreshFunc client id w).2 ∨
        ∃ t l, (waitLoop (jobStateConf client id) (f + 1) tick last w).2 =
          (waitLoop (jobStateConf client id) f t l (isJobRefreshFunc client id w).2).2 := by
      rw [waitLoop, hr]
      cases (isJobRefreshFunc client id w).1.err with
      | some e => left; rfl
      | none =>
        cases (isJobRefreshFunc client id w).1.result with
        | none =>
          dsimp only
          split_ifs
          · left; rfl
          · right; exact ⟨_, _, rfl⟩
        | some job =>
          dsimp only
          split_ifs <;> first | (left; rfl) | (right; exact ⟨_, _, rfl⟩)
    rcases key with h | ⟨t, l, h⟩
    · exact ⟨Event.GetJob (Atoi id).1 :: rest1, by rw [h, h1], fun _ => ⟨rest1, rfl⟩⟩
    · obtain ⟨rest2, h2, -⟩ := ih t l (isJobRefreshFunc client id w).2
      exact ⟨Event.GetJob (Atoi id).1 :: (rest1 ++ rest2), by rw [h, h2, h1]; simp,
        fun _ => ⟨_, rfl⟩⟩

theorem isWaitForJobComplete_trace {σ : Type} (client : AWX σ) (id : String) (fuel : Nat)
    (w : World σ) :
    ∃ rest, (isWaitForJobComplete client id fuel w).2.trace =
        w.trace ++ Event.Sleep 30 :: rest ∧
      (0 < fuel → ∃ rest2, rest = Event.GetJob (Atoi id).1 :: rest2) := by
  obtain ⟨rest, h, hpos⟩ := waitLoop_trace client id fuel 0 "" (w.Sleep 30)
  refine ⟨rest, ?_, hpos⟩
  unfold isWaitForJobComplete StateChangeConf.WaitForStateContext
  have hd : (jobStateConf client id).Delay = 30 := rfl
  rw [hd, h]
  simp [World.Sleep, World.step]

theorem resourceJobRead_trace {σ : Type} (u : Utils) (client : AWX σ) (d : ResourceData)
    (w : World σ) : ∃ rest, (resourceJobRead u client d w).2.2.trace = w.trace ++ rest := by
  unfold resourceJobRead
  cases h1 : (client.GetJob (u.convertStateIDToNummeric "Read Job" d).1 w.remote).1 with
  | ok job => exact ⟨_, by simp [AWX.callGetJob, h1, World.step]; rfl⟩
  | error e =>
    cases h2 : (client.GetJob (u.convertStateIDToNummeric "Read Job" d).1
        (client.GetJob (u.convertStateIDToNummeric "Read Job" d).1 w.remote).2).1 with
    | ok job =>
      exact ⟨[Event.GetJob (u.convertStateIDToNummeric "Read Job" d).1, Event.Sleep 3,
        Event.GetJob (u.convertStateIDToNummeric "Read Job" d).1],
        by simp [AWX.callGetJob, h1, h2, World.step, World.Sleep]⟩
    | error e2 =>
      refine ⟨[Event.GetJob (u.convertStateIDToNummeric "Read Job" d).1, Event.Sleep 3,
        Event.GetJob (u.convertStateIDToNummeric "Read Job" d).1], ?_⟩
      by_cases hc : stringsContains e2.Error "404 Not Found" = true <;>
        simp [AWX.callGetJob, h1, h2, World.step, World.Sleep, hc]

/-- C16: after a successful `Launch`, `resourceJobTemplateLaunchCreate` sets the
id to the decimal text of the job's ID and then: with `monitor_for_completion`
false it polls nothing and returns what `resourceJobRead` returns in the world
right after the launch; with `monitor_for_completion` true it runs
`isWaitForJobComplete`: its run continues the trace after the launch with the
delay of 30 seconds and, when the budget allows a refresh, a status read; a
wait that ends with an error gives exactly one error diagnostic built from
that error, no final read, and the id kept; a wait without error, such as one
that observes a successful job after any number of non-terminal reads, is
followed by `resourceJobRead` in the world right after the last status read. -/
theorem launchCreate_waits_iff_monitoring {σ : Type} (u : Utils) (client : AWX σ)
    (fuel : Nat) (d : ResourceData) (w : World σ) (tid : Int) (tmpl : JobTemplate)
    (params : Params) (res : JobLaunch)
    (hid : d.Get resourceJobTemplateLaunchSchema "job_template_id" = Value.int tid)
    (htmpl : (client.GetJobTemplateByID tid w.remote).1 = Except.ok tmpl)
    (hparams : launchParams u d = some params)
    (hlaunch : (client.Launch tid params (client.GetJobTemplateByID tid w.remote).2).1 =
      Except.ok res) :
    (∃ b, d.Get resourceJobTemplateLaunchSchema "monitor_for_completion" = Value.bool b) ∧
    (d.Get resourceJobTemplateLaunchSchema "monitor_for_completion" = Value.bool false →
      resourceJobTemplateLaunchCreate u client fuel d w =
        some (resourceJobRead u client (d.SetId (Itoa res.ID))
          (worldAfterLaunch client tid params w))) ∧
    (d.Get resourceJobTemplateLaunchSchema "monitor_for_completion" = Value.bool true →
      (∀ err,
        (isWaitForJobComplete client (Itoa res.ID) fuel
          (worldAfterLaunch client tid params w)).1.2 = some err →
        resourceJobTemplateLaunchCreate u client fuel d w =
          some ([{ Severity := Severity.Error
                   Summary := "Job " ++ err.Error
                   Detail := "Job " ++ Itoa res.ID ++ " status: " ++ err.Error }],
            d.SetId (Itoa res.ID),
            (isWaitForJobComplete client (Itoa res.ID) fuel
              (worldAfterLaunch client tid params w)).2)) ∧
      ((isWaitForJobComplete client (Itoa res.ID) fuel
          (worldAfterLaunch client tid params w)).1.2 = none →
        resourceJobTemplateLaunchCreate u client fuel d w =
          some (resourceJobRead u client (d.SetId (Itoa res.ID))
            (isWaitForJobComplete client (Itoa res.ID) fuel
              (worldAfterLaunch client tid params w)).2)) ∧
      (∃ r rest, resourceJobTemplateLaunchCreate u client fuel d w = some r ∧
        r.2.2.trace = (worldAfterLaunch client tid params w).trace ++ Event.Sleep 30 :: rest ∧
        (0 < fuel → ∃ rest2, rest = Event.GetJob (Atoi (Itoa res.ID)).1 :: rest2)) ∧
      (∀ (n f : Nat) (job : Job), fuel = n + (f + 1) →
        (∀ i, i < n →
          observesNonTerminal client (Itoa res.ID)
            (afterRefreshes (isJobRefreshFunc client (Itoa res.ID)) i
              ((worldAfterLaunch client tid params w).Sleep 30)) = true) →
        (isJobRefreshFunc client (Itoa res.ID)
          (afterRefreshes (isJobRefreshFunc client (Itoa res.ID)) n
            ((worldAfterLaunch client tid params w).Sleep 30))).1.result = some job →
        job.Status = JobStatusSuccessful →
        resourceJobTemplateLaunchCreate u client fuel d w =
          some (resourceJobRead u client (d.SetId (Itoa res.ID))
            (isJobRefreshFunc client (Itoa res.ID)
              (afterRefreshes (isJobRefreshFunc client (Itoa res.ID)) n
                ((worldAfterLaunch client tid params w).Sleep 30))).2))) := by
  refine ⟨Get_bool resourceJobTemplateLaunchSchema d "monitor_for_completion" (by decide),
    ?_, ?_⟩
  · intro hmon
    simp [resourceJobTemplateLaunchCreate, hid, Value.assertInt, AWX.callGetJobTemplateByID,
      htmpl, hparams, AWX.callLaunch, hlaunch, World.step, SetId_Get, hmon, Value.assertBool,
      worldAfterLaunch]
  · intro hmon
    have hcreate := launchCreate_monitored u client fuel d w tid tmpl params res
      hid htmpl hparams hlaunch hmon
    obtain ⟨rest, htrace, hpos⟩ := isWaitForJobComplete_trace client (Itoa res.ID) fuel
      (worldAfterLaunch client tid params w)
    refine ⟨?_, ?_, ?_, ?_⟩
    · intro err herr
      rw [hcreate, herr]
    · intro hnone
      rw [hcreate, hnone]
    · cases hw : (isWaitForJobComplete client (Itoa res.ID) fuel
          (worldAfterLaunch client tid params w)).1.2 with
      | some err =>
        rw [hw] at hcreate
        exact ⟨_, rest, hcreate, htrace, hpos⟩
      | none =>
        rw [hw] at hcreate
        obtain ⟨rest3, h3⟩ := resourceJobRead_trace u client (d.SetId (Itoa res.ID))
          (isWaitForJobComplete client (Itoa res.ID) fuel
            (worldAfterLaunch client tid params w)).2
        refine ⟨_, rest ++ rest3, hcreate, ?_, ?_⟩
        · rw [h3, htrace]; simp
        · intro hf
          obtain ⟨rest2, h2⟩ := hpos hf
          exact ⟨rest2 ++ rest3, by rw [h2]; rfl⟩
    · intro n f job hfuel hpending hobserved hs
      subst hfuel
      have hwait := isWaitForJobComplete_after_nonTerminal client (Itoa res.ID) n f
        (worldAfterLaunch client tid params w) job hpending hobserved
      have herr : (jobStatusOutcome job).err = none := by
        rw [jobStatusOutcome_err, hs]; decide
      have ht : (jobStateConf client (Itoa res.ID)).Target.contains job.Status = true := by
        show [JobStatusSuccessful, JobStatusCanceled, JobStatusError,
          JobStatusFailed].contains job.Status = true
        rw [hs]; decide
      rw [herr] at hwait
      simp only [ht, if_true] at hwait
      rw [hcreate, hwait]

/-- Witness of C16: on the scripted remote a launch without monitoring reads
the job once and polls nothing, and a monitored launch whose job is pending,
running and then successful waits 30 seconds, reads the status three times
and then reads the job. -/
theorem launchCreate_waits_iff_monitoring_witness :
    resourceJobTemplateLaunchCreate sampleUtils scriptedRemote 3 launchWithZeroOverrides
        (scriptedWorld [Except.ok (job7 "pending" "")]) =
      some (resourceJobRead sampleUtils scriptedRemote
        (launchWithZeroOverrides.SetId (Itoa 7))
        (worldAfterLaunch scriptedRemote 42 [("limit", Value.string "host-a")]
          (scriptedWorld [Except.ok (job7 "pending" "")]))) ∧
    resourceJobTemplateLaunchCreate sampleUtils scriptedRemote 3 launchMonitored
        (scriptedWorld [Except.ok (job7 "pending" ""), Except.ok (job7 "running" ""),
          Except.ok (job7 "successful" ""), Except.ok (job7 "successful" "")]) =
      some (resourceJobRead sampleUtils scriptedRemote (launchMonitored.SetId (Itoa 7))
        (isJobRefreshFunc scriptedRemote (Itoa 7)
          (afterRefreshes (isJobRefreshFunc scriptedRemote (Itoa 7)) 2
            ((worldAfterLaunch scriptedRemote 42 [("limit", Value.string "host-a")]
              (scriptedWorld [Except.ok (job7 "pending" ""), Except.ok (job7 "running" ""),
                Except.ok (job7 "successful" ""),
                Except.ok (job7 "successful" "")])).Sleep 30))).2) ∧
    (resourceJobTemplateLaunchCreate sampleUtils scriptedRemote 3 launchMonitored
        (scriptedWorld [Except.ok (job7 "pending" ""), Except.ok (job7 "running" ""),
          Except.ok (job7 "successful" ""),
          Except.ok (job7 "successful" "")])).map (fun r => r.2.2.trace) =
      some [Event.GetJobTemplateByID 42,
        Event.Launch 42 [("limit", Value.string "host-a")], Event.Sleep 30,
        Event.GetJob 7, Event.GetJob 7, Event.GetJob 7, Event.GetJob 7] :=
  ⟨(launchCreate_waits_iff_monitoring sampleUtils scriptedRemote 3 launchWithZeroOverrides
      (scriptedWorld [Except.ok (job7 "pending" "")]) 42 (JobTemplate.unset 42)
      [("limit", Value.string "host-a")] { ID := 7 } (by decide) rfl (by decide) rfl).2.1
      (by decide),
    ((launchCreate_waits_iff_monitoring sampleUtils scriptedRemote 3 launchMonitored
      (scriptedWorld [Except.ok (job7 "pending" ""), Except.ok (job7 "running" ""),
        Except.ok (job7 "successful" ""), Except.ok (job7 "successful" "")])
      42 (JobTemplate.unset 42) [("limit", Value.string "host-a")] { ID := 7 }
      (by decide) rfl (by decide) rfl).2.2 (by decide)).2.2.2 2 0 (job7 "successful" "") rfl
      (fun i hi => by
        have h0 : i = 0 ∨ i = 1 := by omega
        rcases h0 with h0 | h0 <;> subst h0 <;> decide)
      (by decide) rfl,
    by decide⟩

/-! ## Payload maps, key by key -/

theorem GetOk_true_iff (s : Schema) (d : ResourceData) (attr : String) (ty : ValueType)
    (h : s.lookup attr = some ty) :
    (d.GetOk s attr).2 = true ↔
      ∃ v, d.values.lookup attr = some v ∧ v.hasType ty = true ∧ v ≠ ty.Zero ∧
        (d.GetOk s attr).1 = v := by
  unfold ResourceData.GetOk readField
  simp only [h]
  cases hm : d.values.lookup attr with
  | none => simp
  | some v =>
    by_cases hv : v.hasType ty = true
    · simp [hv]
    · simp [hv]

theorem Params.get_eq_none (params : Params) (key : String)
    (h : key ∉ params.map Prod.fst) : params.get key = none := by
  induction params with
  | nil => rfl
  | cons e rest ih =>
    obtain ⟨k, x⟩ := e
    simp only [List.map_cons, List.mem_cons, not_or] at h
    have hk : ¬ k = key := fun e => h.1 e.symm
    simp only [Params.get, hk, if_false]
    exact ih h.2

theorem setAllIfOk_get_row (u : Utils) (s : Schema) (d : ResourceData)
    (rows : List (String × String × Cast)) (params : Params)
    (hwt : rowsWellTyped s rows = true) (hnd : (rows.map (fun r => r.2.1)).Nodup)
    (out : Params) (hout : setAllIfOk u s d rows params = some out)
    (attr key : String) (c : Cast) (hmem : (attr, key, c) ∈ rows) :
    out.get key =
      if (d.GetOk s attr).2 = true then c.apply u (d.GetOk s attr).1 else params.get key := by
  obtain ⟨out2, hout2, hiff⟩ := setAllIfOk_get u s d rows params hwt hnd
  have heq : out = out2 := Option.some.inj (hout.symm.trans hout2)
  subst heq
  have huniq : ∀ a c2, (a, key, c2) ∈ rows → a = attr ∧ c2 = c := by
    intro a c2 hm
    have h := List.inj_on_of_nodup_map hnd hm hmem rfl
    exact ⟨(Prod.mk.inj h).1, (Prod.mk.inj (Prod.mk.inj h).2).2⟩
  apply Option.ext
  intro v
  simp only [Option.mem_def]
  rw [hiff key v]
  by_cases hok : (d.GetOk s attr).2 = true
  · simp only [hok, if_true]
    constructor
    · rintro (⟨a, c2, hm, -, h2⟩ | ⟨hall, -⟩)
      · obtain ⟨ha, hc⟩ := huniq a c2 hm
        rw [ha, hc] at h2
        exact h2
      · have h0 := hall attr c hmem
        rw [hok] at h0
        exact absurd h0 (by decide)
    · intro h
      exact Or.inl ⟨attr, c, hmem, hok, h⟩
  · have hok2 : (d.GetOk s attr).2 = false := by simpa using hok
    simp only [hok2, Bool.false_eq_true, if_false]
    constructor
    · rintro (⟨a, c2, hm, h1, -⟩ | ⟨-, hg⟩)
      · obtain ⟨ha, -⟩ := huniq a c2 hm
        rw [ha, hok2] at h1
        exact absurd h1 (by decide)
      · exact hg
    · intro hg
      refine Or.inr ⟨?_, hg⟩
      intro a c2 hm
      obtain ⟨ha, -⟩ := huniq a c2 hm
      rw [ha]
      exact hok2

theorem setAllIfOk_get_other (u : Utils) (s : Schema) (d : ResourceData)
    (rows : List (String × String × Cast)) (params : Params)
    (hwt : rowsWellTyped s rows = true) (hnd : (rows.map (fun r => r.2.1)).Nodup)
    (out : Params) (hout : setAllIfOk u s d rows params = some out)
    (key : String) (hkey : key ∉ rows.map (fun r => r.2.1)) :
    out.get key = params.get key := by
  obtain ⟨out2, hout2, hiff⟩ := setAllIfOk_get u s d rows params hwt hnd
  have heq : out = out2 := Option.some.inj (hout.symm.trans hout2)
  subst heq
  have hno : ∀ a c, (a, key, c) ∉ rows := fun a c hm =>
    hkey (List.mem_map.mpr ⟨(a, key, c), hm, rfl⟩)
  apply Option.ext
  intro v
  simp only [Option.mem_def]
  rw [hiff key v]
  constructor
  · rintro (⟨a, c, hm, -, -⟩ | ⟨-, hg⟩)
    · exact absurd hm (hno a c)
    · exact hg
  · intro hg
    exact Or.inr ⟨fun a c hm => absurd hm (hno a c), hg⟩

theorem setAllIfOk_get_unchanged (u : Utils) (s : Schema) (d : ResourceData)
    (rows : List (String × String × Cast)) (params : Params)
    (hwt : rowsWellTyped s rows = true) (hnd : (rows.map (fun r => r.2.1)).Nodup)
    (out : Params) (hout : setAllIfOk u s d rows params = some out)
    (attr key : String) (h : sendsUnchanged s rows attr key = true) :
    out.get key =
      if (d.GetOk s attr).2 = true then some (d.GetOk s attr).1 else params.get key := by
  unfold sendsUnchanged at h
  obtain ⟨⟨a, k, c⟩, hmem, hr⟩ := List.any_eq_true.mp h
  simp only [Bool.and_eq_true, beq_iff_eq] at hr
  obtain ⟨⟨ha, hk⟩, hc⟩ := hr
  subst ha
  subst hk
  rw [setAllIfOk_get_row u s d rows params hwt hnd out hout a k c hmem,
    Cast.apply_same u s d a c hc]

/-! ## The job launch: the keys of the override parameters -/

/-- C6, amended: the map that `resourceJobTemplateLaunchCreate` passes to
`Launch` always exists. Each of `job_type`, `playbook`, `forks`, `limit`,
`verbosity`, `extra_vars`, `job_tags`, `skip_tags`, `timeout`, `scm_revision`
and `diff_mode` is in it under its own name, with the value `d.GetOk`
returns, exactly when `d.GetOk` reports the attribute as set; `credential_ids`
is in it under `credentials`, as the list `expandIntList` makes of the set,
and `execution_environment_id` under `execution_environment`, on the same
condition; every other key, `credential_ids` and `execution_environment_id`
among them, is absent. `d.GetOk` reports an attribute as set exactly when a
value of the attribute's type is stored and differs from the zero value of
that type, so an override set to "", 0, false or the empty set is not
transmitted. -/
theorem launchParams_holds_nonzero_overrides (u : Utils) (d : ResourceData) :
    ∃ params, launchParams u d = some params ∧
      (∀ attr ∈ ["job_type", "playbook", "forks", "limit", "verbosity", "extra_vars",
          "job_tags", "skip_tags", "timeout", "scm_revision", "diff_mode"],
        params.get attr =
          if (d.GetOk resourceJobTemplateLaunchSchema attr).2 = true
          then some (d.GetOk resourceJobTemplateLaunchSchema attr).1 else none) ∧
      (∃ xs, (d.GetOk resourceJobTemplateLaunchSchema "credential_ids").1 = Value.set xs ∧
        params.get "credentials" =
          if (d.GetOk resourceJobTemplateLaunchSchema "credential_ids").2 = true
          then some (Value.intList (u.expandIntList (xs.map Value.int))) else none) ∧
      (params.get "execution_environment" =
        if (d.GetOk resourceJobTemplateLaunchSchema "execution_environment_id").2 = true
        then some (d.GetOk resourceJobTemplateLaunchSchema "execution_environment_id").1
        else none) ∧
      (∀ key, key ∉ ["job_type", "playbook", "forks", "limit", "verbosity", "extra_vars",
          "job_tags", "skip_tags", "timeout", "scm_revision", "diff_mode", "credentials",
          "execution_environment"] → params.get key = none) ∧
      (∀ attr ty, resourceJobTemplateLaunchSchema.lookup attr = some ty →
        ((d.GetOk resourceJobTemplateLaunchSchema attr).2 = true ↔
          ∃ v, d.values.lookup attr = some v ∧ v.hasType ty = true ∧ v ≠ ty.Zero ∧
            (d.GetOk resourceJobTemplateLaunchSchema attr).1 = v)) := by
  obtain ⟨params, hp, -⟩ := setAllIfOk_get u resourceJobTemplateLaunchSchema d
    launchOverrides [] (by decide) (by decide)
  refine ⟨params, hp, ?_, ?_, ?_, ?_, ?_⟩
  · intro attr hmem
    have h : sendsUnchanged resourceJobTemplateLaunchSchema launchOverrides attr attr = true :=
      (by decide : ∀ a ∈ ["job_type", "playbook", "forks", "limit", "verbosity", "extra_vars",
          "job_tags", "skip_tags", "timeout", "scm_revision", "diff_mode"],
        sendsUnchanged resourceJobTemplateLaunchSchema launchOverrides a a = true) attr hmem
    exact setAllIfOk_get_unchanged u _ d launchOverrides [] (by decide) (by decide) params hp
      attr attr h
  · obtain ⟨xs, hxs, happ⟩ := Cast.apply_expandIntList u resourceJobTemplateLaunchSchema d
      "credential_ids" (by decide)
    refine ⟨xs, hxs, ?_⟩
    rw [setAllIfOk_get_row u _ d launchOverrides [] (by decide) (by decide) params hp
      "credential_ids" "credentials" Cast.expandIntList (by decide), happ]
    rfl
  · exact setAllIfOk_get_unchanged u _ d launchOverrides [] (by decide) (by decide) params hp
      "execution_environment_id" "execution_environment" (by decide)
  · intro key hkey
    rw [setAllIfOk_get_other u _ d launchOverrides [] (by decide) (by decide) params hp key
      hkey]
    rfl
  · intro attr ty h
    exact GetOk_true_iff _ d attr ty h

/-- Witness of C6 (amended): a configuration that sets `limit`, the credentials
3 and 4, the execution environment 4 and `diff_mode = false` transmits `limit`,
`credentials` and `execution_environment`, and transmits neither `diff_mode`
nor a key named `credential_ids` or `execution_environment_id`. -/
theorem launchParams_holds_nonzero_overrides_witness :
    ∃ params, launchParams sampleUtils launchWithCredentials = some params ∧
      params.get "limit" = some (Value.string "host-a") ∧
      params.get "diff_mode" = none ∧
      params.get "credentials" = some (Value.intList [3, 4]) ∧
      params.get "execution_environment" = some (Value.int 4) ∧
      params.get "credential_ids" = none ∧
      params.get "execution_environment_id" = none := by
  obtain ⟨params, hp, hown, ⟨xs, hxs, hcred⟩, henv, hother, -⟩ :=
    launchParams_holds_nonzero_overrides sampleUtils launchWithCredentials
  have hset : Value.set xs = Value.set [3, 4] := hxs.symm.trans (by decide)
  cases hset
  refine ⟨params, hp, ?_, ?_, ?_, ?_, ?_, ?_⟩
  · rw [hown "limit" (by decide)]; decide
  · rw [hown "diff_mode" (by decide)]; decide
  · rw [hcred]; decide
  · rw [henv]; decide
  · exact hother "credential_ids" (by decide)
  · exact hother "execution_environment_id" (by decide)

/-! ## The payload of a job template update, key by key -/

theorem Cast.apply_AtoipOr (u : Utils) (s : Schema) (d : ResourceData) (attr : String)
    (h : s.lookup attr = some ValueType.TypeString) :
    ∃ str, (d.GetOk s attr).1 = Value.string str ∧
      Cast.AtoipOr.apply u (d.GetOk s attr).1 =
        some (Value.ofIntPtr (u.AtoipOr str none)) := by
  have ht := GetOk_hasType s d attr _ h
  revert ht
  generalize (d.GetOk s attr).1 = v
  intro ht
  cases v <;> simp [Value.hasType] at ht
  exact ⟨_, rfl, rfl⟩

/-- C9, amended: whenever the id converts and the template read succeeds,
`resourceJobTemplateUpdate` issues exactly one `UpdateJobTemplate`, right after
the read and followed by reads only, whether or not a field changed. Its
payload is built from the desired values alone (any prior state gives the same
payload). It holds `name`, `job_type`, `inventory` (the conversion of
`inventory_id` by `AtoipOr`), `project` (the value of `project_id`) and
`playbook` with their desired values. Each of the 37 optional attributes
listed is in it under its own name, with the value `d.GetOk` returns, exactly
when `d.GetOk` reports the attribute as set; `custom_virtualenv` is in it,
converted by `AtoipOr`, and `webhook_credential_id` under `webhook_credential`,
on the same condition. No key is in it besides these and, possibly, the keys
of the credential and of the job slice prompt, about which this statement is
silent. `d.GetOk` reports an attribute as set exactly when a value of the
attribute's type is stored and differs from the zero value of that type. -/
theorem jobTemplateUpdate_sends_desired_values {σ : Type} (u : Utils) (client : AWX σ)
    (d : ResourceData) (w : World σ) (tmpl : JobTemplate)
    (hconv : (u.convertStateIDToNummeric "Update JobTemplate" d).2.HasError = false)
    (hread : (client.GetJobTemplateByID (u.convertStateIDToNummeric "Update JobTemplate" d).1
      w.remote).1 = Except.ok tmpl) :
    ∃ params inventoryID,
      jobTemplateUpdateParams u d = some params ∧
      (∀ prior, jobTemplateUpdateParams u { d with state := prior } = some params) ∧
      (∃ r rest, resourceJobTemplateUpdate u client d w = some r ∧
        r.2.2.trace = w.trace ++
          [Event.GetJobTemplateByID (u.convertStateIDToNummeric "Update JobTemplate" d).1,
            Event.UpdateJobTemplate (u.convertStateIDToNummeric "Update JobTemplate" d).1
              params] ++ rest ∧
        ∀ e ∈ rest, ∃ id, e = Event.GetJobTemplateByID id) ∧
      d.Get resourceJobTemplateSchema "inventory_id" = Value.string inventoryID ∧
      params.get "name" = some (d.Get resourceJobTemplateSchema "name") ∧
      params.get "job_type" = some (d.Get resourceJobTemplateSchema "job_type") ∧
      params.get "inventory" = some (Value.ofIntPtr (u.AtoipOr inventoryID none)) ∧
      params.get "project" = some (d.Get resourceJobTemplateSchema "project_id") ∧
      params.get "playbook" = some (d.Get resourceJobTemplateSchema "playbook") ∧
      (∀ attr ∈ ["description", "scm_branch", "forks", "limit", "verbosity", "extra_vars",
          "job_tags", "force_handlers", "skip_tags", "start_at_task", "timeout",
          "use_fact_cache", "organization_id", "execution_environment_id",
          "host_config_key", "ask_scm_branch_on_launch", "ask_diff_mode_on_launch",
          "ask_variables_on_launch", "ask_limit_on_launch", "ask_tags_on_launch",
          "ask_skip_tags_on_launch", "ask_job_type_on_launch", "ask_verbosity_on_launch",
          "ask_inventory_on_launch", "ask_credential_on_launch",
          "ask_execution_environment_on_launch", "ask_labels_on_launch",
          "ask_forks_on_launch", "ask_timeout_on_launch", "ask_instance_groups_on_launch",
          "survey_enabled", "become_enabled", "diff_mode", "allow_simultaneous",
          "job_slice_count", "webhook_service", "prevent_instance_group_fallback"],
        params.get attr =
          if (d.GetOk resourceJobTemplateSchema attr).2 = true
          then some (d.GetOk resourceJobTemplateSchema attr).1 else none) ∧
      (∃ str, (d.GetOk resourceJobTemplateSchema "custom_virtualenv").1 = Value.string str ∧
        params.get "custom_virtualenv" =
          if (d.GetOk resourceJobTemplateSchema "custom_virtualenv").2 = true
          then some (Value.ofIntPtr (u.AtoipOr str none)) else none) ∧
      (params.get "webhook_credential" =
        if (d.GetOk resourceJobTemplateSchema "webhook_credential_id").2 = true
        then some (d.GetOk resourceJobTemplateSchema "webhook_credential_id").1 else none) ∧
      (∀ key, key ∉ ["name", "job_type", "inventory", "project", "playbook",
          "description", "scm_branch", "forks", "limit", "verbosity", "extra_vars",
          "job_tags", "force_handlers", "skip_tags", "start_at_task", "timeout",
          "use_fact_cache", "organization_id", "execution_environment_id",
          "host_config_key", "ask_scm_branch_on_launch", "ask_diff_mode_on_launch",
          "ask_variables_on_launch", "ask_limit_on_launch", "ask_tags_on_launch",
          "ask_skip_tags_on_launch", "ask_job_type_on_launch", "ask_verbosity_on_launch",
          "ask_inventory_on_launch", "ask_credential_on_launch",
          "ask_execution_environment_on_launch", "ask_labels_on_launch",
          "ask_forks_on_launch", "ask_timeout_on_launch", "ask_instance_groups_on_launch",
          "survey_enabled", "become_enabled", "diff_mode", "allow_simultaneous",
          "job_slice_count", "webhook_service", "prevent_instance_group_fallback",
          "custom_virtualenv", "webhook_credential",
          "credential_id", "credential", "ask_job_slice_on_launch",
          "ask_job_slice_count_on_launch"] → params.get key = none) ∧
      (∀ attr ty, resourceJobTemplateSchema.lookup attr = some ty →
        ((d.GetOk resourceJobTemplateSchema attr).2 = true ↔
          ∃ v, d.values.lookup attr = some v ∧ v.hasType ty = true ∧ v ≠ ty.Zero ∧
            (d.GetOk resourceJobTemplateSchema attr).1 = v)) := by
  obtain ⟨name, jobType, inventoryID, projectID, playbook, h1, h2, h3, h4, h5, heq⟩ :=
    jobTemplateUpdateParams_eq u d
  obtain ⟨params, hp, -⟩ := setAllIfOk_get u resourceJobTemplateSchema d
    jobTemplateUpdateOptional
    [("name", Value.string name),
     ("job_type", Value.string jobType),
     ("inventory", Value.ofIntPtr (u.AtoipOr inventoryID none)),
     ("project", Value.int projectID),
     ("playbook", Value.string playbook)] (by decide) (by decide)
  have hparams : jobTemplateUpdateParams u d = some params := heq.trans hp
  obtain ⟨r, hr, rest, htrace, hrest⟩ :=
    resourceJobTemplateUpdate_of_read u client d w tmpl params hconv hread hparams
  have hbase : ∀ key, key ∉ jobTemplateUpdateOptional.map (fun r => r.2.1) →
      params.get key = Params.get
        [("name", Value.string name),
         ("job_type", Value.string jobType),
         ("inventory", Value.ofIntPtr (u.AtoipOr inventoryID none)),
         ("project", Value.int projectID),
         ("playbook", Value.string playbook)] key :=
    fun key hkey => setAllIfOk_get_other u _ d jobTemplateUpdateOptional _ (by decide)
      (by decide) params hp key hkey
  refine ⟨params, inventoryID, hparams, fun _ => hparams, ⟨r, rest, hr, htrace, hrest⟩, h3,
    ?_, ?_, ?_, ?_, ?_, ?_, ?_, ?_, ?_, ?_⟩
  · rw [hbase "name" (by decide), h1]; rfl
  · rw [hbase "job_type" (by decide), h2]; rfl
  · rw [hbase "inventory" (by decide)]; rfl
  · rw [hbase "project" (by decide), h4]; rfl
  · rw [hbase "playbook" (by decide), h5]; rfl
  · intro attr hmem
    have h : sendsUnchanged resourceJobTemplateSchema jobTemplateUpdateOptional attr attr =
        true :=
      (by decide : ∀ a ∈ ["description", "scm_branch", "forks", "limit", "verbosity",
          "extra_vars", "job_tags", "force_handlers", "skip_tags", "start_at_task", "timeout",
          "use_fact_cache", "organization_id", "execution_environment_id",
          "host_config_key", "ask_scm_branch_on_launch", "ask_diff_mode_on_launch",
          "ask_variables_on_launch", "ask_limit_on_launch", "ask_tags_on_launch",
          "ask_skip_tags_on_launch", "ask_job_type_on_launch", "ask_verbosity_on_launch",
          "ask_inventory_on_launch", "ask_credential_on_launch",
          "ask_execution_environment_on_launch", "ask_labels_on_launch",
          "ask_forks_on_launch", "ask_timeout_on_launch", "ask_instance_groups_on_launch",
          "survey_enabled", "become_enabled", "diff_mode", "allow_simultaneous",
          "job_slice_count", "webhook_service", "prevent_instance_group_fallback"],
        sendsUnchanged resourceJobTemplateSchema jobTemplateUpdateOptional a a = true)
        attr hmem
    have hnot : attr ∉ ["name", "job_type", "inventory", "project", "playbook"] :=
      (by decide : ∀ a ∈ ["description", "scm_branch", "forks", "limit", "verbosity",
          "extra_vars", "job_tags", "force_handlers", "skip_tags", "start_at_task", "timeout",
          "use_fact_cache", "organization_id", "execution_environment_id",
          "host_config_key", "ask_scm_branch_on_launch", "ask_diff_mode_on_launch",
          "ask_variables_on_launch", "ask_limit_on_launch", "ask_tags_on_launch",
          "ask_skip_tags_on_launch", "ask_job_type_on_launch", "ask_verbosity_on_launch",
          "ask_inventory_on_launch", "ask_credential_on_launch",
          "ask_execution_environment_on_launch", "ask_labels_on_launch",
          "ask_forks_on_launch", "ask_timeout_on_launch", "ask_instance_groups_on_launch",
          "survey_enabled", "become_enabled", "diff_mode", "allow_simultaneous",
          "job_slice_count", "webhook_service", "prevent_instance_group_fallback"],
        a ∉ ["name", "job_type", "inventory", "project", "playbook"]) attr hmem
    have hb : Params.get
        [("name", Value.string name),
         ("job_type", Value.string jobType),
         ("inventory", Value.ofIntPtr (u.AtoipOr inventoryID none)),
         ("project", Value.int projectID),
         ("playbook", Value.string playbook)] attr = none :=
      Params.get_eq_none _ attr hnot
    rw [setAllIfOk_get_unchanged u _ d jobTemplateUpdateOptional _ (by decide) (by decide)
      params hp attr attr h, hb]
  · obtain ⟨str, hstr, happ⟩ := Cast.apply_AtoipOr u resourceJobTemplateSchema d
      "custom_virtualenv" (by decide)
    refine ⟨str, hstr, ?_⟩
    rw [setAllIfOk_get_row u _ d jobTemplateUpdateOptional _ (by decide) (by decide) params hp
      "custom_virtualenv" "custom_virtualenv" Cast.AtoipOr (by decide), happ]
    rfl
  · rw [setAllIfOk_get_unchanged u _ d jobTemplateUpdateOptional _ (by decide) (by decide)
      params hp "webhook_credential_id" "webhook_credential" (by decide)]
    rfl
  · intro key hkey
    have hrow : key ∉ jobTemplateUpdateOptional.map (fun r => r.2.1) := fun hm =>
      hkey ((by decide : ∀ k ∈ jobTemplateUpdateOptional.map (fun r => r.2.1),
        k ∈ ["name", "job_type", "inventory", "project", "playbook",
          "description", "scm_branch", "forks", "limit", "verbosity", "extra_vars",
          "job_tags", "force_handlers", "skip_tags", "start_at_task", "timeout",
          "use_fact_cache", "organization_id", "execution_environment_id",
          "host_config_key", "ask_scm_branch_on_launch", "ask_diff_mode_on_launch",
          "ask_variables_on_launch", "ask_limit_on_launch", "ask_tags_on_launch",
          "ask_skip_tags_on_launch", "ask_job_type_on_launch", "ask_verbosity_on_launch",
          "ask_inventory_on_launch", "ask_credential_on_launch",
          "ask_execution_environment_on_launch", "ask_labels_on_launch",
          "ask_forks_on_launch", "ask_timeout_on_launch", "ask_instance_groups_on_launch",
          "survey_enabled", "become_enabled", "diff_mode", "allow_simultaneous",
          "job_slice_count", "webhook_service", "prevent_instance_group_fallback",
          "custom_virtualenv", "webhook_credential",
          "credential_id", "credential", "ask_job_slice_on_launch",
          "ask_job_slice_count_on_launch"]) key hm)
    rw [hbase key hrow]
    apply Params.get_eq_none
    intro hm
    apply hkey
    simp only [List.map_cons, List.map_nil, List.mem_cons, List.mem_singleton,
      List.not_mem_nil, or_false] at hm
    rcases hm with e | e | e | e | e <;> rw [e] <;> decide
  · intro attr ty h
    exact GetOk_true_iff _ d attr ty h

/-- Witness of C9 (amended): the job template 42 on the scripted remote, with a
prior state equal to its desired values: no attribute changed, the update is
issued all the same, and its payload holds the required keys, the set options
under the keys stated, and neither `diff_mode`, set to false, nor a key named
`webhook_credential_id`. -/
theorem jobTemplateUpdate_sends_desired_values_witness :
    jobTemplateWithOptions.HasChanges resourceJobTemplateSchema
      (resourceJobTemplateSchema.map Prod.fst) = false ∧
    ∃ params,
      jobTemplateUpdateParams sampleUtils jobTemplateWithOptions = some params ∧
      (resourceJobTemplateUpdate sampleUtils scriptedRemote jobTemplateWithOptions
        (scriptedWorld [])).map (fun r => r.2.2.trace.take 2) =
        some [Event.GetJobTemplateByID 42, Event.UpdateJobTemplate 42 params] ∧
      params.get "name" = some (Value.string "baseconfig") ∧
      params.get "inventory" = some (Value.int 1) ∧
      params.get "project" = some (Value.int 2) ∧
      params.get "description" = some (Value.string "base") ∧
      params.get "forks" = some (Value.int 5) ∧
      params.get "become_enabled" = some (Value.bool true) ∧
      params.get "diff_mode" = none ∧
      params.get "custom_virtualenv" = some (Value.int 9) ∧
      params.get "webhook_credential" = some (Value.int 8) ∧
      params.get "webhook_credential_id" = none := by
  obtain ⟨params, inventoryID, hp, -, ⟨r, rest, hr, htrace, -⟩, hinv, hname, -, hinventory,
      hproject, -, hown, ⟨str, hstr, hvenv⟩, hwebhook, hother, -⟩ :=
    jobTemplateUpdate_sends_desired_values sampleUtils scriptedRemote jobTemplateWithOptions
      (scriptedWorld []) (JobTemplate.unset 42) (by decide) rfl
  have hi : Value.string inventoryID = Value.string "1" := hinv.symm.trans (by decide)
  cases hi
  have hs : Value.string str = Value.string "9" := hstr.symm.trans (by decide)
  cases hs
  refine ⟨by decide, params, hp, ?_, ?_, ?_, ?_, ?_, ?_, ?_, ?_, ?_, ?_, ?_⟩
  · rw [hr]
    show some (r.2.2.trace.take 2) = _
    rw [htrace]
    have h0 : (scriptedWorld []).trace = [] := rfl
    rw [h0]
    have h1 : (sampleUtils.convertStateIDToNummeric "Update JobTemplate"
        jobTemplateWithOptions).1 = 42 := by decide
    rw [h1]
    rfl
  · rw [hname]; decide
  · rw [hinventory]; decide
  · rw [hproject]; decide
  · rw [hown "description" (by decide)]; decide
  · rw [hown "forks" (by decide)]; decide
  · rw [hown "become_enabled" (by decide)]; decide
  · rw [hown "diff_mode" (by decide)]; decide
  · rw [hvenv]; decide
  · rw [hwebhook]; decide
  · exact hother "webhook_credential_id" (by decide)

end Awx
